import Mathlib

/-!
# Node address manager (`go-controller/pkg/node/node_ip_handler_linux.go`)

A shallow embedding of the address manager of ovn-kubernetes: the validity
filter `isValidNodeIP`, the stored CIDR set with `addAddr`, `delAddr` and
`assignCIDRs`, and the full `sync` with the calls it makes afterwards.

Conventions of the embedding.

* A Go byte is a natural number (below 256 in every value the program builds).
* `sets.Set[string]` is a `Finset String`: a Go set is a map keyed by the
  string, so two sets are `Equal` exactly when they have the same members.
* The mutex of the address manager is not modelled: every operation below is
  one uninterrupted step of a single thread.
* Global configuration, the node informer, netlink, the management port, the
  gateway bridge, the node annotator and the OVS command layer are collected
  in one record `Env` that holds, for every call the file makes into them, the
  answer the call gives.  Calls that write something outside the address
  manager are recorded as `Event`s.
-/

namespace NodeIPHandler

/-! ## Go `net.IP` and `net.IPNet` -/

/-- Go `net.IP`, a byte slice: `nil` is the nil slice, `bytes b` a non-nil slice. -/
inductive IP where
  | nil
  | bytes (b : List Nat)
deriving DecidableEq, Repr

/-- The bytes of the slice (none for the nil slice). -/
def IP.toList : IP → List Nat
  | .nil => []
  | .bytes b => b

/-- Go `len(ip)`. -/
def IP.len (ip : IP) : Nat := ip.toList.length

/-- Go `net.IPv4len`. -/
def IPv4len : Nat := 4

/-- Go `net.IPv6len`. -/
def IPv6len : Nat := 16

/-- Go `net.v4InV6Prefix`. -/
def v4InV6Prefix : List Nat := [0, 0, 0, 0, 0, 0, 0, 0, 0, 0, 0xff, 0xff]

/-- Go `net.IPv6loopback`. -/
def IPv6loopback : IP := .bytes [0, 0, 0, 0, 0, 0, 0, 0, 0, 0, 0, 0, 0, 0, 0, 1]

/-- Go `net.isZeros`. -/
def isZeros (p : List Nat) : Bool := p.all (fun b => b == 0)

/-- Go `ip[i]` for an index that the callers have checked to be in range. -/
def IP.at (ip : IP) (i : Nat) : Nat := ip.toList.getD i 0

/-- Go `net.IP.To4`: the 4-byte form of an IPv4 address, `nil` otherwise. -/
def IP.To4 (ip : IP) : IP :=
  if ip.len = IPv4len then ip
  else if ip.len = IPv6len ∧ isZeros (ip.toList.take 10) ∧ ip.at 10 = 0xff ∧ ip.at 11 = 0xff then
    .bytes ((ip.toList.drop 12).take 4)
  else .nil

/-- Go `net.IP.To16`: the 16-byte form of the address, `nil` if the length is wrong. -/
def IP.To16 (ip : IP) : IP :=
  if ip.len = IPv4len then .bytes (v4InV6Prefix ++ ip.toList)
  else if ip.len = IPv6len then ip
  else .nil

/-- Go `net.IP.Equal`: equality of addresses, an IPv4 address and its
IPv4-in-IPv6 form being equal. -/
def IP.Equal (ip x : IP) : Bool :=
  if ip.len = x.len then ip.toList == x.toList
  else if ip.len = IPv4len ∧ x.len = IPv6len then
    x.toList.take 12 == v4InV6Prefix && ip.toList == x.toList.drop 12
  else if ip.len = IPv6len ∧ x.len = IPv4len then
    ip.toList.take 12 == v4InV6Prefix && ip.toList.drop 12 == x.toList
  else false

/-- Go `net.IP.IsLoopback`. -/
def IP.IsLoopback (ip : IP) : Bool :=
  match ip.To4 with
  | .bytes ip4 => ip4.getD 0 0 == 127
  | .nil => ip.Equal IPv6loopback

/-- Go `net.IP.IsLinkLocalUnicast`. -/
def IP.IsLinkLocalUnicast (ip : IP) : Bool :=
  match ip.To4 with
  | .bytes ip4 => ip4.getD 0 0 == 169 && ip4.getD 1 0 == 254
  | .nil => ip.len == IPv6len && ip.at 0 == 0xfe && (ip.at 1 &&& 0xc0) == 0x80

/-- Go `net.hexDigit` (also `netip.digits`): the lowercase hexadecimal digits. -/
def hexDigit (n : Nat) : Char := "0123456789abcdef".toList.getD n '0'

/-- Go `net.hexString`: two hexadecimal digits for each byte. -/
def hexString (b : List Nat) : String :=
  String.mk (b.flatMap (fun tn => [hexDigit (tn / 16), hexDigit (tn % 16)]))

/-- Go `netip.appendHex` for a 16-bit group: hexadecimal without leading zeros. -/
def appendHex (x : Nat) : String :=
  String.mk ((if x ≥ 0x1000 then [hexDigit (x / 4096)] else [])
    ++ (if x ≥ 0x100 then [hexDigit (x / 256 % 16)] else [])
    ++ (if x ≥ 0x10 then [hexDigit (x / 16 % 16)] else [])
    ++ [hexDigit (x % 16)])

/-- Go `strconv.Itoa` on a number that is not negative. -/
def uitoa (n : Nat) : String := Nat.repr n

/-- The eight 16-bit groups of a 16-byte address (Go `netip.Addr.v6u16`). -/
def v6u16 (b : List Nat) : List Nat :=
  (List.range 8).map (fun i => b.getD (2 * i) 0 * 256 + b.getD (2 * i + 1) 0)

/-- The first index from `i` on whose group is not zero (8 if there is none):
the inner loop of Go `netip.Addr.appendTo6`. -/
def zeroRunEnd (g : List Nat) (i : Nat) : Nat :=
  i + ((g.drop i).takeWhile (fun x => x == 0)).length

/-- The leftmost longest run of at least two zero groups, as `(zeroStart, zeroEnd)`,
and `(255, 255)` if there is none: the first loop of Go `netip.Addr.appendTo6`. -/
def longestZeroRun (g : List Nat) : Nat × Nat :=
  (List.range 8).foldl (fun zs i =>
    let j := zeroRunEnd g i
    if j - i ≥ 2 ∧ j - i > zs.2 - zs.1 then (i, j) else zs) (255, 255)

/-- The second loop of Go `netip.Addr.appendTo6`, from group `i` on. -/
def appendTo6Loop (g : List Nat) (zeroStart zeroEnd : Nat) : Nat → Nat → String → String
  | 0, _, ret => ret
  | fuel + 1, i, ret =>
    if i ≥ 8 then ret
    else if i = zeroStart then
      if zeroEnd ≥ 8 then ret ++ "::"
      else appendTo6Loop g zeroStart zeroEnd fuel (zeroEnd + 1) (ret ++ "::" ++ appendHex (g.getD zeroEnd 0))
    else
      appendTo6Loop g zeroStart zeroEnd fuel (i + 1)
        ((if i > 0 then ret ++ ":" else ret) ++ appendHex (g.getD i 0))

/-- Go `netip.Addr.String` of a 16-byte address that is not IPv4-in-IPv6. -/
def appendTo6 (b : List Nat) : String :=
  let g := v6u16 b
  let zs := longestZeroRun g
  appendTo6Loop g zs.1 zs.2 8 0 ""

/-- Go `net.IP.String`. -/
def IP.String (ip : IP) : String :=
  if ip.len = 0 then "<nil>"
  else if ip.len ≠ IPv4len ∧ ip.len ≠ IPv6len then "?" ++ hexString ip.toList
  else
    match ip.To4 with
    | .bytes p4 =>
      uitoa (p4.getD 0 0) ++ "." ++ uitoa (p4.getD 1 0) ++ "." ++ uitoa (p4.getD 2 0) ++ "."
        ++ uitoa (p4.getD 3 0)
    | .nil => appendTo6 ip.toList

/-- Go `net.IPNet`: an address and a mask (`net.IPMask`, a byte slice). -/
structure IPNet where
  IP : IP
  Mask : List Nat
deriving DecidableEq, Repr

/-- Go `net.networkNumberAndMask`: the address in its shortest form and the
mask cut to the same length, nothing if the lengths do not fit. -/
def networkNumberAndMask (n : IPNet) : Option (IP × List Nat) :=
  let ip4 := n.IP.To4
  if ip4 = .nil ∧ n.IP.len ≠ IPv6len then none
  else
    let ip := if ip4 = .nil then n.IP else ip4
    if n.Mask.length = IPv4len then
      if ip.len ≠ IPv4len then none else some (ip, n.Mask)
    else if n.Mask.length = IPv6len then
      if ip.len = IPv4len then some (ip, n.Mask.drop 12) else some (ip, n.Mask)
    else none

/-- The loop `for v&0x80 != 0 { n++; v <<= 1 }` of Go `net.simpleMaskLength`
on one byte: the number of leading one bits and what is left of the byte. -/
def countLeadingOnes : Nat → Nat → Nat × Nat
  | 0, v => (0, v)
  | fuel + 1, v =>
    if v &&& 0x80 ≠ 0 then
      let r := countLeadingOnes fuel (v * 2 % 256)
      (r.1 + 1, r.2)
    else (0, v)

/-- Go `net.simpleMaskLength`: the number of leading ones of a mask made of
ones followed by zeros, `none` (Go: -1) for any other mask. -/
def simpleMaskLength : List Nat → Option Nat
  | [] => some 0
  | v :: rest =>
    if v = 0xff then (simpleMaskLength rest).map (fun n => n + 8)
    else
      let r := countLeadingOnes 8 v
      if r.2 ≠ 0 then none
      else if rest.all (fun b => b == 0) then some r.1 else none

/-- Go `net.IPMask.String`. -/
def maskString (m : List Nat) : String :=
  if m.length = 0 then "<nil>" else hexString m

/-- Go `net.IPNet.String`: the CIDR notation of the network, such as `10.0.0.1/24`. -/
def IPNet.String (n : IPNet) : String :=
  match networkNumberAndMask n with
  | none => "<nil>"
  | some (nn, m) =>
    match simpleMaskLength m with
    | none => nn.String ++ "/" ++ maskString m
    | some l => nn.String ++ "/" ++ uitoa l

/-- Go `strings.HasPrefix`. -/
def HasPrefix (s p : String) : Bool := p.toList.isPrefixOf s.toList

/-! ## What the address manager sees of its collaborators -/

/-- A Go `error` value, as far as this file tells errors apart:
`util.IsAnnotationNotSetError` holds of `annotationNotSet` only. -/
inductive Error where
  | annotationNotSet
  | other (msg : String)
deriving DecidableEq, Repr

/-- The repository's `util.IsAnnotationNotSetError`. -/
def IsAnnotationNotSetError : Error → Bool
  | .annotationNotSet => true
  | .other _ => false

/-- The node's `k8s.ovn.org/l3-gateway-config` annotation once parsed: its
address list, and everything else in it. -/
structure L3GatewayConfig where
  IPAddresses : List IPNet
  rest : String
deriving DecidableEq, Repr

/-- A Kubernetes node as the informer returns it, seen through the `util`
functions this file applies to it. -/
structure Node where
  Name : String
  /-- The result of `util.GetNodePrimaryIP(node)`. -/
  GetNodePrimaryIP : Except Error String
  /-- The result of `util.ParseNodeHostCIDRs(node)`. -/
  ParseNodeHostCIDRs : Except Error (Finset String)
  /-- The result of `util.ParseNodeSecondaryHostEgressIPsAnnotation(node)`. -/
  ParseNodeSecondaryHostEgressIPsAnnotation : Except Error (Finset String)
  /-- The result of `util.ParseNodeBridgeEgressIPsAnnotation(node)`. -/
  ParseNodeBridgeEgressIPsAnnotation : Except Error (List String)
  /-- The result of `util.ParseNodeL3GatewayAnnotation(node)`. -/
  ParseNodeL3GatewayAnnotation : Except Error L3GatewayConfig

/-- The egress-IP cache of the gateway bridge (`bridgeconfig.MarkIPsCache`). -/
structure MarkIPsCache where
  HasSyncdOnce : Bool
  IsIPPresent : IP → Bool

/-- A `netlink.Link`: the name in its attributes, and its index. -/
structure Link where
  Name : String
  Index : Int
deriving DecidableEq, Repr

/-- A `netlink.Addr`: the embedded `net.IPNet` and the link index. -/
structure Addr where
  IP : IP
  Mask : List Nat
  LinkIndex : Int
deriving DecidableEq, Repr

/-- Everything outside the address manager that this file reads or calls, each
field holding the answer of the call during one operation of the manager. -/
structure Env where
  /-- `config.OvnKubeNode.Mode == types.NodeModeDPU`. -/
  NodeModeDPU : Bool
  /-- `config.OVNKubernetesFeature.EnableEgressIP`. -/
  EnableEgressIP : Bool
  /-- `config.OVNKubernetesFeature.EnableInterconnect`. -/
  EnableInterconnect : Bool
  /-- `config.Gateway.Mode == config.GatewayModeDisabled`. -/
  GatewayModeDisabled : Bool
  /-- `config.Default.EncapIP`. -/
  EncapIP : String
  /-- `config.IPv4Mode`. -/
  IPv4Mode : Bool
  /-- `config.IPv6Mode`. -/
  IPv6Mode : Bool
  /-- `types.K8sMgmtIntfNamePrefix`. -/
  K8sMgmtIntfNamePrefix : String
  /-- `util.IsNetworkSegmentationSupportEnabled()`. -/
  IsNetworkSegmentationSupportEnabled : Bool
  /-- `util.PlatformTypeIsEgressIPCloudProvider()`. -/
  PlatformTypeIsEgressIPCloudProvider : Bool
  /-- `util.IsAddressReservedForInternalUse(addr)`. -/
  IsAddressReservedForInternalUse : IP → Bool
  /-- `utilnet.IsIPv6(addr)`. -/
  IsIPv6 : IP → Bool
  /-- `util.MatchFirstIPNetFamily(isIPv6, ipnets)`, `none` being the nil pointer
  that comes with its error. -/
  MatchFirstIPNetFamily : Bool → List IPNet → Option IPNet
  /-- `c.mgmtPort.GetAddresses()`. -/
  mgmtPortGetAddresses : List IPNet
  /-- `c.watchFactory.GetNode(name)`. -/
  GetNode : String → Except Error Node
  /-- `c.gatewayBridge.GetEIPMarkIPs()`, `none` being the nil pointer. -/
  GetEIPMarkIPs : Option MarkIPsCache
  /-- `c.gatewayBridge.UpdateInterfaceIPAddresses(node)`. -/
  UpdateInterfaceIPAddresses : Node → Except Error (List IPNet)
  /-- `util.GetNetLinkOps().LinkByIndex(index)`. -/
  LinkByIndex : Int → Except Error Link
  /-- `netlink.LinkList()`. -/
  LinkList : Except Error (List Link)
  /-- `netlink.AddrList(link, family)`. -/
  AddrList : Link → Int → Except Error (List Addr)
  /-- `net.ParseIP(s)`, `IP.nil` when the string is not an address. -/
  ParseIP : String → IP
  /-- `net.ParseCIDR(s)`: the address and the network. -/
  ParseCIDR : String → Except Error (IP × IPNet)
  /-- `util.RunOVSVsctl(args...)`: standard output, standard error, error. -/
  RunOVSVsctl : List String → String × String × Option Error
  /-- `util.RunOVNAppctlWithTimeout(timeout, args...)`. -/
  RunOVNAppctlWithTimeout : Int → List String → String × String × Option Error
  /-- `util.SetNodeEncapIPs(c.nodeAnnotator, ips)`. -/
  SetNodeEncapIPs : Finset String → Option Error
  /-- `util.SetNodeHostCIDRs(c.nodeAnnotator, cidrs)`. -/
  SetNodeHostCIDRs : Finset String → Option Error
  /-- `util.SetNodePrimaryIfAddrs(c.nodeAnnotator, ifAddrs)`. -/
  SetNodePrimaryIfAddrs : List IPNet → Option Error
  /-- `util.SetL3GatewayConfig(c.nodeAnnotator, cfg)`. -/
  SetL3GatewayConfig : L3GatewayConfig → Option Error
  /-- `c.nodeAnnotator.Run()`. -/
  nodeAnnotatorRun : Option Error

/-- The calls of this file that change something outside the address manager,
in the order in which they are made. -/
inductive Event where
  | RunOVSVsctl (args : List String)
  | RunOVNAppctlWithTimeout (timeout : Int) (args : List String)
  | SetNodeEncapIPs (ips : Finset String)
  | SetNodeHostCIDRs (cidrs : Finset String)
  | SetNodePrimaryIfAddrs (ifAddrs : List IPNet)
  | SetL3GatewayConfig (cfg : L3GatewayConfig)
  | UpdateInterfaceIPAddresses
  | nodeAnnotatorRun
  | OnChanged
deriving DecidableEq

/-! ## The address manager -/

/-- The fields of Go `addressManager` that hold data; its collaborators
(`watchFactory`, `nodeAnnotator`, `mgmtPort`, `gatewayBridge`, `OnChanged`)
are in `Env`. -/
structure addressManager where
  nodeName : String
  cidrs : Finset String
  useNetlink : Bool
  nodePrimaryAddr : IP
deriving DecidableEq

/-- Go `addressManager.getSecondaryHostEgressIPs`. -/
def getSecondaryHostEgressIPs (env : Env) (c : addressManager) : Except Error (Finset String) :=
  match env.GetNode c.nodeName with
  | .error _ => .error (.other "unable to get Node from informer")
  | .ok node =>
    match node.ParseNodeSecondaryHostEgressIPsAnnotation with
    | .error err => if IsAnnotationNotSetError err then .ok ∅ else .error err
    | .ok eipAddrs => .ok eipAddrs

/-- Go `addressManager.getPrimaryHostEgressIPs`. -/
def getPrimaryHostEgressIPs (env : Env) (c : addressManager) : Except Error (Finset String) :=
  match env.GetNode c.nodeName with
  | .error _ => .error (.other "unable to get Node from informer")
  | .ok node =>
    match node.ParseNodeBridgeEgressIPsAnnotation with
    | .error err => if IsAnnotationNotSetError err then .ok ([] : List String).toFinset else .error err
    | .ok eipAddrs => .ok eipAddrs.toFinset

/-- Go `addressManager.isValidNodeIP`: whether the address counts as a node address. -/
def isValidNodeIP (env : Env) (c : addressManager) (addr : IP) (linkIndex : Int) : Bool :=
  if addr = .nil then false
  else if addr.IsLinkLocalUnicast then false
  else if addr.IsLoopback then false
  else if (match env.MatchFirstIPNetFamily (env.IsIPv6 addr) env.mgmtPortGetAddresses with
      | some mgmtPortAddress => addr.Equal mgmtPortAddress.IP
      | none => false) then false
  else if (env.IsNetworkSegmentationSupportEnabled &&
      (match env.LinkByIndex linkIndex with
        | .error _ => false
        | .ok mpLink => HasPrefix mpLink.Name env.K8sMgmtIntfNamePrefix)) then false
  else if env.IsAddressReservedForInternalUse addr then false
  else if env.EnableEgressIP then
    if (if env.IsNetworkSegmentationSupportEnabled && env.EnableInterconnect
          && !env.GatewayModeDisabled then
        if (match env.GetEIPMarkIPs with
            | some eipMarkIPs => eipMarkIPs.HasSyncdOnce && eipMarkIPs.IsIPPresent addr
            | none => false) then true
        else
          match getPrimaryHostEgressIPs env c with
          | .error _ => false
          | .ok eipAddresses => decide (addr.String ∈ eipAddresses)
      else false) then false
    else if (if !env.PlatformTypeIsEgressIPCloudProvider then
        match getSecondaryHostEgressIPs env c with
        | .error _ => false
        | .ok eipAddresses => decide (addr.String ∈ eipAddresses)
      else false) then false
    else true
  else true

/-- Go `addressManager.addAddr`: the result and the manager afterwards. -/
def addAddr (env : Env) (c : addressManager) (ipnet : IPNet) (linkIndex : Int) :
    Bool × addressManager :=
  if ipnet.String ∉ c.cidrs ∧ isValidNodeIP env c ipnet.IP linkIndex = true then
    (true, { c with cidrs := insert ipnet.String c.cidrs })
  else (false, c)

/-- Go `addressManager.delAddr`: the result and the manager afterwards. -/
def delAddr (env : Env) (c : addressManager) (ipnet : IPNet) (linkIndex : Int) :
    Bool × addressManager :=
  if ipnet.String ∈ c.cidrs ∧ isValidNodeIP env c ipnet.IP linkIndex = true then
    (true, { c with cidrs := c.cidrs.erase ipnet.String })
  else (false, c)

/-- Go `addressManager.assignCIDRs`: the result and the manager afterwards. -/
def assignCIDRs (c : addressManager) (nodeHostCIDRs : Finset String) : Bool × addressManager :=
  if nodeHostCIDRs = c.cidrs then (false, c)
  else (true, { c with cidrs := nodeHostCIDRs })

/-- The address manager together with what this file changes outside it:
`config.Default.EffectiveEncapIP`, and the calls made so far, oldest first. -/
structure State where
  mgr : addressManager
  EffectiveEncapIP : String
  events : List Event
deriving DecidableEq

/-- Records one more call. -/
def State.emit (s : State) (e : Event) : State := { s with events := s.events ++ [e] }

/-- Go `strings.TrimSuffix`. -/
def TrimSuffix (s suffix : String) : String :=
  if suffix.toList.isSuffixOf s.toList then
    String.mk (s.toList.take (s.toList.length - suffix.toList.length))
  else s

/-- Whether the stored CIDR string parses and its address equals `ip`: the body
of the loop of `nodePrimaryAddrChanged`. -/
def hostCIDRHasIP (env : Env) (ip : IP) (hostCIDR : String) : Bool :=
  match env.ParseCIDR hostCIDR with
  | .error _ => false
  | .ok p => p.1.Equal ip

/-- Go `addressManager.nodePrimaryAddrChanged`: the two results and the
manager afterwards. -/
def nodePrimaryAddrChanged (env : Env) (c : addressManager) :
    (Bool × Option Error) × addressManager :=
  match env.GetNode c.nodeName with
  | .error err => ((false, some err), c)
  | .ok node =>
    match node.GetNodePrimaryIP with
    | .error err => ((false, some err), c)
    | .ok nodePrimaryAddrStr =>
      let nodePrimaryAddr := env.ParseIP nodePrimaryAddrStr
      if nodePrimaryAddr = .nil then
        ((false, some (.other
          "failed to parse the primary IP address string from kubernetes node status")), c)
      else
        let existsIP := decide (∃ hostCIDR ∈ c.cidrs, hostCIDRHasIP env nodePrimaryAddr hostCIDR = true)
        if !existsIP || c.nodePrimaryAddr.Equal nodePrimaryAddr then ((false, none), c)
        else ((true, none), { c with nodePrimaryAddr := nodePrimaryAddr })

/-- Go `addressManager.updateOVNEncapIPAndReconnect`. -/
def updateOVNEncapIPAndReconnect (env : Env) (s : State) (newIP : IP) : State :=
  let checkCmd := ["get", "Open_vSwitch", ".", "external_ids:ovn-encap-ip"]
  let s1 := s.emit (.RunOVSVsctl checkCmd)
  let r := env.RunOVSVsctl checkCmd
  let encapIP := TrimSuffix r.1 "\n"
  if r.2.2 = none ∧ encapIP.length > 0 ∧ newIP.String = encapIP then s1
  else
    let s2 := { s1 with EffectiveEncapIP := newIP.String }
    let confCmd := ["set", "Open_vSwitch", ".", "external_ids:ovn-encap-ip=" ++ newIP.String]
    let s3 := s2.emit (.RunOVSVsctl confCmd)
    match (env.RunOVSVsctl confCmd).2.2 with
    | some _ => s3
    | none =>
      let restart := ["-t", "ovn-controller", "exit", "--restart"]
      let s4 := s3.emit (.RunOVNAppctlWithTimeout 5 restart)
      match (env.RunOVNAppctlWithTimeout 5 restart).2.2 with
      | some _ => s4
      | none =>
        let encapIPList : Finset String := {s4.EffectiveEncapIP}
        let s5 := s4.emit (.SetNodeEncapIPs encapIPList)
        match env.SetNodeEncapIPs encapIPList with
        | some _ => s5
        | none => s5.emit .nodeAnnotatorRun

/-- Go `addressManager.handleNodePrimaryAddrChange`. -/
def handleNodePrimaryAddrChange (env : Env) (s : State) : State :=
  let r := nodePrimaryAddrChanged env s.mgr
  match r.1.2 with
  | some _ => { s with mgr := r.2 }
  | none =>
    if r.1.1 && env.EncapIP == "" then
      updateOVNEncapIPAndReconnect env { s with mgr := r.2 } r.2.nodePrimaryAddr
    else { s with mgr := r.2 }

/-- Go `addressManager.updateHostCIDRs`: the error and the state afterwards. -/
def updateHostCIDRs (env : Env) (s : State) : Option Error × State :=
  if env.NodeModeDPU then (none, s)
  else (env.SetNodeHostCIDRs s.mgr.cidrs, s.emit (.SetNodeHostCIDRs s.mgr.cidrs))

/-- The part of `updateNodeAddressAnnotations` after the interface addresses
of the gateway bridge are known. -/
def updateNodeAddressAnnotationsWith (env : Env) (s : State) (node : Node)
    (ifAddrs : List IPNet) : Option Error × State :=
  let r1 := updateHostCIDRs env s
  match r1.1 with
  | some err => (some err, r1.2)
  | none =>
    let s2 := r1.2.emit (.SetNodePrimaryIfAddrs ifAddrs)
    match env.SetNodePrimaryIfAddrs ifAddrs with
    | some err => (some err, s2)
    | none =>
      match node.ParseNodeL3GatewayAnnotation with
      | .error err => (some err, s2)
      | .ok gatewayCfg =>
        let cfg := { gatewayCfg with IPAddresses := ifAddrs }
        let s3 := s2.emit (.SetL3GatewayConfig cfg)
        match env.SetL3GatewayConfig cfg with
        | some err => (some err, s3)
        | none => (env.nodeAnnotatorRun, s3.emit .nodeAnnotatorRun)

/-- Go `addressManager.updateNodeAddressAnnotations`: the error and the state
afterwards. -/
def updateNodeAddressAnnotations (env : Env) (s : State) : Option Error × State :=
  match env.GetNode s.mgr.nodeName with
  | .error err => (some err, s)
  | .ok node =>
    if s.mgr.useNetlink then
      let s1 := s.emit .UpdateInterfaceIPAddresses
      match env.UpdateInterfaceIPAddresses node with
      | .error err => (some err, s1)
      | .ok ifAddrs => updateNodeAddressAnnotationsWith env s1 node ifAddrs
    else updateNodeAddressAnnotationsWith env s node []

/-- Go `addressManager.doNodeHostCIDRsMatch`. -/
def doNodeHostCIDRsMatch (env : Env) (c : addressManager) : Bool :=
  match env.GetNode c.nodeName with
  | .error _ => false
  | .ok node =>
    match node.ParseNodeHostCIDRs with
    | .error _ => false
    | .ok nodeHostAddresses => decide (nodeHostAddresses = c.cidrs)

/-- Go `netlink.FAMILY_V4`. -/
def FAMILY_V4 : Int := 2

/-- Go `netlink.FAMILY_V6`. -/
def FAMILY_V6 : Int := 10

/-- Go `getSupportedIPFamily`. -/
def getSupportedIPFamily (env : Env) : Int :=
  if env.IPv4Mode && !env.IPv6Mode then FAMILY_V4
  else if !env.IPv4Mode && env.IPv6Mode then FAMILY_V6
  else 0

/-- The loop of `sync` over the links: the addresses of all links, in order,
or the error of the first link whose addresses cannot be listed. -/
def syncAddrList (env : Env) : List Link → List Addr → Except Error (List Addr)
  | [], addrs => .ok addrs
  | link :: links, addrs =>
    match env.AddrList link (getSupportedIPFamily env) with
    | .error err => .error err
    | .ok foundAddrs => syncAddrList env links (addrs ++ foundAddrs)

/-- The enumeration at the start of `sync`: no address without netlink, else
the addresses of all links, or an error if a listing fails. -/
def syncEnumerate (env : Env) (c : addressManager) : Except Error (List Addr) :=
  if c.useNetlink then
    match env.LinkList with
    | .error err => .error err
    | .ok links => syncAddrList env links []
  else .ok []

/-- The loop of `sync` over the addresses: the strings of the valid ones are
inserted into `currAddresses`. -/
def syncCurrAddresses (env : Env) (c : addressManager) : List Addr → Finset String → Finset String
  | [], currAddresses => currAddresses
  | addr :: addrs, currAddresses =>
    if !isValidNodeIP env c addr.IP addr.LinkIndex then syncCurrAddresses env c addrs currAddresses
    else
      let netAddr : IPNet := { IP := addr.IP, Mask := addr.Mask }
      syncCurrAddresses env c addrs (insert netAddr.String currAddresses)

/-- Go `addressManager.sync`.  The second component is the state afterwards;
the first is the value of the local variable `addrChanged`, and `none` if the
function returned before assigning it. -/
def sync (env : Env) (s : State) : Option Bool × State :=
  if env.NodeModeDPU then (none, s)
  else
    match syncEnumerate env s.mgr with
    | .error _ => (none, s)
    | .ok addrs =>
      let currAddresses := syncCurrAddresses env s.mgr addrs ∅
      let r := assignCIDRs s.mgr currAddresses
      let s1 := handleNodePrimaryAddrChange env { s with mgr := r.2 }
      if r.1 || !doNodeHostCIDRsMatch env s1.mgr then
        let s2 := (updateNodeAddressAnnotations env s1).2
        (some r.1, s2.emit .OnChanged)
      else (some r.1, s1)

/-- The struct literal at the start of Go `newAddressManagerInternal`: the
manager before its first `sync`, with no CIDR stored and no primary address. -/
def emptyAddressManager (nodeName : String) (useNetlink : Bool) : addressManager :=
  { nodeName := nodeName, cidrs := ∅, useNetlink := useNetlink, nodePrimaryAddr := .nil }

/-- The state of a process that has just built the manager and made no call
yet, `encapIP` being its effective encap IP. -/
def initialState (nodeName : String) (useNetlink : Bool) (encapIP : String) : State :=
  { mgr := emptyAddressManager nodeName useNetlink, EffectiveEncapIP := encapIP, events := [] }

/-- Go `newAddressManagerInternal`, in a process whose effective encap IP is
`encapIP`: the state it returns, `none` for the nil pointer. -/
def newAddressManagerInternal (env : Env) (nodeName : String) (useNetlink : Bool)
    (encapIP : String) : Option State :=
  let s := initialState nodeName useNetlink encapIP
  if env.NodeModeDPU then
    let r := updateHostCIDRs env s
    match r.1 with
    | some _ => none
    | none =>
      match env.nodeAnnotatorRun with
      | some _ => none
      | none => some (r.2.emit .nodeAnnotatorRun)
  else some (sync env s).2

/-! ## Sequences of calls -/

/-- The environment with other answers of netlink to the two listing calls. -/
def Env.withNetlink (env : Env) (links : Except Error (List Link))
    (addrs : Link → Int → Except Error (List Addr)) : Env :=
  { env with LinkList := links, AddrList := addrs }

/-- One call that changes the stored set; a `sync` comes with what netlink
answers to its listing calls at that time. -/
inductive Op where
  | addAddr (ipnet : IPNet) (linkIndex : Int)
  | delAddr (ipnet : IPNet) (linkIndex : Int)
  | sync (links : Except Error (List Link)) (addrs : Link → Int → Except Error (List Addr))

/-- The state after one call. -/
def Op.step (env : Env) (s : State) : Op → State
  | .addAddr ipnet linkIndex => { s with mgr := (NodeIPHandler.addAddr env s.mgr ipnet linkIndex).2 }
  | .delAddr ipnet linkIndex => { s with mgr := (NodeIPHandler.delAddr env s.mgr ipnet linkIndex).2 }
  | .sync links addrs => (NodeIPHandler.sync (env.withNetlink links addrs) s).2

/-- The state after a sequence of calls. -/
def runOps (env : Env) (s : State) (ops : List Op) : State := ops.foldl (Op.step env) s

/-- The CIDRs that a call brings to the manager, each with its link index: the
one of an `addAddr`, the enumerated ones of a `sync`. -/
def Op.arrivals (env : Env) (c : addressManager) : Op → List (IPNet × Int)
  | .addAddr ipnet linkIndex => [(ipnet, linkIndex)]
  | .delAddr _ _ => []
  | .sync links addrs =>
    match syncEnumerate (env.withNetlink links addrs) c with
    | .error _ => []
    | .ok found => found.map (fun a => ({ IP := a.IP, Mask := a.Mask }, a.LinkIndex))

/-! ## Concrete environments -/

/-- The `utilnet.IsIPv6` of `k8s.io/utils/net`: an address of 16 bytes that is
not an IPv4 address. -/
def IsIPv6 (ip : IP) : Bool := ip.To4 = .nil && ip.To16 ≠ .nil

/-- Modelled from the spec: `util.MatchFirstIPNetFamily` is not among the
sources; the first network of the list whose address is of the asked family
("the management-interface address of the matching IP family"). -/
def MatchFirstIPNetFamily (isIPv6 : Bool) (ipnets : List IPNet) : Option IPNet :=
  ipnets.find? (fun ipnet => IsIPv6 ipnet.IP == isIPv6)

/-- A node without any of the annotations this file reads, reporting
`10.0.0.1` as its primary IP. -/
def plainNode : Node :=
  { Name := "node1"
    GetNodePrimaryIP := .ok "10.0.0.1"
    ParseNodeHostCIDRs := .error .annotationNotSet
    ParseNodeSecondaryHostEgressIPsAnnotation := .error .annotationNotSet
    ParseNodeBridgeEgressIPsAnnotation := .error .annotationNotSet
    ParseNodeL3GatewayAnnotation := .error .annotationNotSet }

/-- A host with every feature off, the management port at `10.244.0.2/24`, no
link, and collaborators that answer every call without error. -/
def plainEnv : Env :=
  { NodeModeDPU := false
    EnableEgressIP := false
    EnableInterconnect := false
    GatewayModeDisabled := false
    EncapIP := ""
    IPv4Mode := true
    IPv6Mode := false
    K8sMgmtIntfNamePrefix := "ovn-k8s-mp"
    IsNetworkSegmentationSupportEnabled := false
    PlatformTypeIsEgressIPCloudProvider := false
    IsAddressReservedForInternalUse := fun _ => false
    IsIPv6 := IsIPv6
    MatchFirstIPNetFamily := MatchFirstIPNetFamily
    mgmtPortGetAddresses := [{ IP := .bytes [10, 244, 0, 2], Mask := [255, 255, 255, 0] }]
    GetNode := fun _ => .ok plainNode
    GetEIPMarkIPs := none
    UpdateInterfaceIPAddresses := fun _ => .ok []
    LinkByIndex := fun _ => .error (.other "link not found")
    LinkList := .ok []
    AddrList := fun _ _ => .ok []
    ParseIP := fun _ => .nil
    ParseCIDR := fun _ => .error (.other "invalid CIDR address")
    RunOVSVsctl := fun _ => ("", "", none)
    RunOVNAppctlWithTimeout := fun _ _ => ("", "", none)
    SetNodeEncapIPs := fun _ => none
    SetNodeHostCIDRs := fun _ => none
    SetNodePrimaryIfAddrs := fun _ => none
    SetL3GatewayConfig := fun _ => none
    nodeAnnotatorRun := none }

/-- The network `10.0.0.1/24`. -/
def net10 : IPNet := { IP := .bytes [10, 0, 0, 1], Mask := [255, 255, 255, 0] }

/-- The network `192.168.1.7/24`. -/
def net192 : IPNet := { IP := .bytes [192, 168, 1, 7], Mask := [255, 255, 255, 0] }

/-- A manager that has stored `10.0.0.1/24`. -/
def mgr10 : addressManager :=
  { nodeName := "node1", cidrs := {"10.0.0.1/24"}, useNetlink := true, nodePrimaryAddr := .nil }

/-- The address `10.0.0.5`. -/
def ip5 : IP := .bytes [10, 0, 0, 5]

/-- A node whose bridge egress-IPs annotation lists `10.0.0.5`. -/
def egressNode : Node :=
  { plainNode with ParseNodeBridgeEgressIPsAnnotation := .ok ["10.0.0.5"] }

/-- A gateway-bridge cache that has completed a sync and holds `10.0.0.5`. -/
def egressCache : MarkIPsCache :=
  { HasSyncdOnce := true, IsIPPresent := fun ip => ip.Equal ip5 }

/-- The plain host with the egress-IP feature and interconnect on and
`10.0.0.5` an egress IP of the gateway bridge, in its cache and in the node's
annotation; network segmentation is off. -/
def egressEnv : Env :=
  { plainEnv with
    EnableEgressIP := true
    EnableInterconnect := true
    GetNode := fun _ => .ok egressNode
    GetEIPMarkIPs := some egressCache }

/-- The same host with network segmentation on. -/
def egressSegEnv : Env := { egressEnv with IsNetworkSegmentationSupportEnabled := true }

/-- The plain host with `10.0.0.5` listed in the secondary-host egress-IPs
annotation only. -/
def secondaryEnv : Env :=
  { plainEnv with
    GetNode := fun _ => .ok { plainNode with ParseNodeSecondaryHostEgressIPsAnnotation := .ok {"10.0.0.5"} } }

/-- The loopback link. -/
def linkLo : Link := { Name := "lo", Index := 1 }

/-- An ethernet link. -/
def linkEth0 : Link := { Name := "eth0", Index := 2 }

/-- The management port of the default network. -/
def linkMp0 : Link := { Name := "ovn-k8s-mp0", Index := 3 }

/-- The addresses of a host: `127.0.0.1/8` on `lo`, `10.0.0.1/24` and
`169.254.0.5/16` on `eth0`, `10.244.0.2/24` on the management port. -/
def hostAddrs (link : Link) : List Addr :=
  if link.Index = 1 then [{ IP := .bytes [127, 0, 0, 1], Mask := [255, 0, 0, 0], LinkIndex := 1 }]
  else if link.Index = 2 then
    [{ IP := .bytes [10, 0, 0, 1], Mask := [255, 255, 255, 0], LinkIndex := 2 },
      { IP := .bytes [169, 254, 0, 5], Mask := [255, 255, 0, 0], LinkIndex := 2 }]
  else [{ IP := .bytes [10, 244, 0, 2], Mask := [255, 255, 255, 0], LinkIndex := 3 }]

/-- A netlink that lists these addresses for every family. -/
def hostAddrList (link : Link) (_family : Int) : Except Error (List Addr) := .ok (hostAddrs link)

/-- The plain host with these three links and their addresses. -/
def hostEnv : Env :=
  { plainEnv with LinkList := .ok [linkLo, linkEth0, linkMp0], AddrList := hostAddrList }

/-- The host `hostEnv` with network segmentation on and a link lookup that
knows the three links. -/
def segmentationEnv : Env :=
  { hostEnv with
    IsNetworkSegmentationSupportEnabled := true
    LinkByIndex := fun i =>
      if i = 1 then .ok linkLo else if i = 2 then .ok linkEth0
      else if i = 3 then .ok linkMp0 else .error (.other "link not found") }

/-- The same listing, except that the addresses of the last link cannot be listed. -/
def brokenAddrList (link : Link) (family : Int) : Except Error (List Addr) :=
  if link.Index = 3 then .error (.other "interrupted system call") else hostAddrList link family

/-- The host on which the listing of the addresses of the third link fails. -/
def brokenEnv : Env := { hostEnv with AddrList := brokenAddrList }

/-- A manager that has stored `192.168.1.7/24` and has `192.168.1.7` as primary address. -/
def mgr192 : addressManager :=
  { nodeName := "node1", cidrs := {"192.168.1.7/24"}, useNetlink := true,
    nodePrimaryAddr := .bytes [192, 168, 1, 7] }

/-- A state around `mgr192`, with no call made yet. -/
def state192 : State := { mgr := mgr192, EffectiveEncapIP := "192.168.1.7", events := [] }

/-- A run of the manager: a full sync of the host, then `192.168.1.7/24` and
`127.0.0.1/8` are announced, then `10.0.0.1/24` is withdrawn. -/
def hostOps : List Op :=
  [.sync (.ok [linkLo, linkEth0, linkMp0]) hostAddrList,
    .addAddr net192 2,
    .addAddr { IP := .bytes [127, 0, 0, 1], Mask := [255, 0, 0, 0] } 1,
    .delAddr net10 2]

/-! ## The checks of the filter, one by one -/

/-- Check 4 of `isValidNodeIP`: the address equals the management port's
address of its family. -/
def matchesMgmtPortAddress (env : Env) (addr : IP) : Bool :=
  match env.MatchFirstIPNetFamily (env.IsIPv6 addr) env.mgmtPortGetAddresses with
  | some mgmtPortAddress => addr.Equal mgmtPortAddress.IP
  | none => false

/-- Check 5 of `isValidNodeIP`: network segmentation is on, the link is found
and its name starts with the management-interface name prefix. -/
def onMgmtPortLink (env : Env) (linkIndex : Int) : Bool :=
  env.IsNetworkSegmentationSupportEnabled &&
    (match env.LinkByIndex linkIndex with
      | .error _ => false
      | .ok mpLink => HasPrefix mpLink.Name env.K8sMgmtIntfNamePrefix)

/-- Check 7 of `isValidNodeIP` (lines 418-433): the address is an egress IP of
the gateway bridge, by the synced cache or else by the node's annotation. -/
def claimedPrimaryEgress (env : Env) (c : addressManager) (addr : IP) : Bool :=
  if env.IsNetworkSegmentationSupportEnabled && env.EnableInterconnect
      && !env.GatewayModeDisabled then
    if (match env.GetEIPMarkIPs with
        | some eipMarkIPs => eipMarkIPs.HasSyncdOnce && eipMarkIPs.IsIPPresent addr
        | none => false) then true
    else
      match getPrimaryHostEgressIPs env c with
      | .error _ => false
      | .ok eipAddresses => decide (addr.String ∈ eipAddresses)
  else false

/-- Check 8 of `isValidNodeIP` (lines 434-443): the address is an egress IP of
a secondary host interface, by the node's annotation. -/
def claimedSecondaryEgress (env : Env) (c : addressManager) (addr : IP) : Bool :=
  if !env.PlatformTypeIsEgressIPCloudProvider then
    match getSecondaryHostEgressIPs env c with
    | .error _ => false
    | .ok eipAddresses => decide (addr.String ∈ eipAddresses)
  else false

/-- The plain host with the egress-IP feature, interconnect and network
segmentation on, whose node cannot be read from the informer. -/
def noNodeEnv : Env :=
  { plainEnv with
    EnableEgressIP := true
    EnableInterconnect := true
    IsNetworkSegmentationSupportEnabled := true
    GetNode := fun _ => .error (.other "node not found") }

/-- A node whose bridge egress-IPs annotation and secondary-host egress-IPs
annotation are both malformed. -/
def malformedNode : Node :=
  { plainNode with
    ParseNodeSecondaryHostEgressIPsAnnotation := .error (.other "unexpected end of JSON input")
    ParseNodeBridgeEgressIPsAnnotation := .error (.other "unexpected end of JSON input") }

/-- The host `noNodeEnv` with a node that can be read and whose two egress
annotations are malformed. -/
def malformedEnv : Env := { noNodeEnv with GetNode := fun _ => .ok malformedNode }

/-- The host `noNodeEnv` with a node whose bridge egress-IPs annotation is
malformed and whose secondary-host egress-IPs annotation lists `10.0.0.5`. -/
def halfMalformedEnv : Env :=
  { noNodeEnv with
    GetNode := fun _ =>
      .ok { malformedNode with ParseNodeSecondaryHostEgressIPsAnnotation := .ok {"10.0.0.5"} } }

/-- The host `noNodeEnv` with a node whose bridge egress-IPs annotation is
malformed and whose secondary-host egress-IPs annotation lists `10.0.0.7`. -/
def halfMalformedOtherEnv : Env :=
  { noNodeEnv with
    GetNode := fun _ =>
      .ok { malformedNode with ParseNodeSecondaryHostEgressIPsAnnotation := .ok {"10.0.0.7"} } }

/-- The host `noNodeEnv` with a node whose bridge egress-IPs annotation lists
the strings `bridgeIPs` and whose secondary-host egress-IPs annotation is
malformed. -/
def secondaryMalformedEnv (bridgeIPs : List String) : Env :=
  { noNodeEnv with
    GetNode := fun _ =>
      .ok { malformedNode with ParseNodeBridgeEgressIPsAnnotation := .ok bridgeIPs } }

/-- The address `10.0.0.1` in the 16-byte form in which `net.ParseIP` and
`net.ParseCIDR` return an IPv4 address. -/
def ip10 : IP := .bytes [0, 0, 0, 0, 0, 0, 0, 0, 0, 0, 0xff, 0xff, 10, 0, 0, 1]

/-- The address `10.0.0.9` in 16-byte form. -/
def ip9 : IP := .bytes [0, 0, 0, 0, 0, 0, 0, 0, 0, 0, 0xff, 0xff, 10, 0, 0, 9]

/-- The address `fd00::1`. -/
def ipFd : IP := .bytes [0xfd, 0, 0, 0, 0, 0, 0, 0, 0, 0, 0, 0, 0, 0, 0, 1]

/-- The values of Go `net.ParseIP` on the strings of the examples below; every
other string is taken not to be an address. -/
def parseIPExamples (s : String) : IP :=
  if s = "10.0.0.1" ∨ s = "::ffff:10.0.0.1" then ip10
  else if s = "10.0.0.9" then ip9
  else if s = "fd00::1" ∨ s = "fd00:0:0:0:0:0:0:1" then ipFd
  else .nil

/-- The values of Go `net.ParseCIDR` on the strings of the examples below;
every other string is taken not to be a CIDR. -/
def parseCIDRExamples (s : String) : Except Error (IP × IPNet) :=
  if s = "10.0.0.1/24" then
    .ok (ip10, { IP := .bytes [10, 0, 0, 0], Mask := [255, 255, 255, 0] })
  else if s = "192.168.1.7/24" then
    .ok (.bytes [0, 0, 0, 0, 0, 0, 0, 0, 0, 0, 0xff, 0xff, 192, 168, 1, 7],
      { IP := .bytes [192, 168, 1, 0], Mask := [255, 255, 255, 0] })
  else if s = "fd00::1/64" then
    .ok (ipFd,
      { IP := .bytes [0xfd, 0, 0, 0, 0, 0, 0, 0, 0, 0, 0, 0, 0, 0, 0, 0]
        Mask := [255, 255, 255, 255, 255, 255, 255, 255, 0, 0, 0, 0, 0, 0, 0, 0] })
  else .error (.other "invalid CIDR address")

/-- The plain host with these parsers, whose node reports the string
`primaryIP` as its primary IP. -/
def primaryEnv (primaryIP : String) : Env :=
  { plainEnv with
    ParseIP := parseIPExamples
    ParseCIDR := parseCIDRExamples
    GetNode := fun _ => .ok { plainNode with GetNodePrimaryIP := .ok primaryIP } }

/-- The host `primaryEnv` with a node that has no primary IP to report. -/
def noPrimaryIPEnv : Env :=
  { primaryEnv "" with
    GetNode := fun _ =>
      .ok { plainNode with GetNodePrimaryIP := .error (.other "failed to find node primary IP") } }

/-- A manager that has stored `10.0.0.1/24` and has the 4-byte `10.0.0.1` as
primary address. -/
def mgr10primary : addressManager := { mgr10 with nodePrimaryAddr := .bytes [10, 0, 0, 1] }

/-- A manager that has stored `fd00::1/64` and has `fd00::1` as primary address. -/
def mgrFd : addressManager :=
  { nodeName := "node1", cidrs := {"fd00::1/64"}, useNetlink := true, nodePrimaryAddr := ipFd }

/-! ## The commands of the endpoint reconfiguration -/

/-- The local `checkCmd` of `updateOVNEncapIPAndReconnect`: reads the
configured encap IP. -/
def checkCmd : List String := ["get", "Open_vSwitch", ".", "external_ids:ovn-encap-ip"]

/-- The local `confCmd` of `updateOVNEncapIPAndReconnect`: sets the encap IP. -/
def confCmd (newIP : IP) : List String :=
  ["set", "Open_vSwitch", ".", "external_ids:ovn-encap-ip=" ++ newIP.String]

/-- The arguments with which `updateOVNEncapIPAndReconnect` restarts ovn-controller. -/
def restartCmd : List String := ["-t", "ovn-controller", "exit", "--restart"]

/-- The host `primaryEnv "10.0.0.1"` on which OVS answers `current` and a
newline to the read of the encap IP. -/
def ovsEnv (current : String) : Env :=
  { primaryEnv "10.0.0.1" with
    RunOVSVsctl := fun args => if args = checkCmd then (current ++ "\n", "", none) else ("", "", none) }

/-- The host `ovsEnv "10.0.0.9"` with an encap IP configured by the operator. -/
def overrideEnv : Env := { ovsEnv "10.0.0.9" with EncapIP := "10.0.0.7" }

/-- The host `primaryEnv "10.0.0.1"` on which the read of the encap IP fails
and the other OVS commands succeed. -/
def readFailEnv : Env :=
  { primaryEnv "10.0.0.1" with
    RunOVSVsctl := fun args =>
      if args = checkCmd then ("", "no key ovn-encap-ip", some (.other "exit status 1"))
      else ("", "", none) }

/-- The host `primaryEnv "10.0.0.1"` on which OVS answers `10.0.0.9` to the
read of the encap IP and every other OVS command fails. -/
def setFailEnv : Env :=
  { primaryEnv "10.0.0.1" with
    RunOVSVsctl := fun args =>
      if args = checkCmd then ("10.0.0.9\n", "", none)
      else ("", "database connection failed", some (.other "exit status 1")) }

/-- The host `ovsEnv "10.0.0.9"` on which ovn-controller cannot be restarted. -/
def restartFailEnv : Env :=
  { ovsEnv "10.0.0.9" with
    RunOVNAppctlWithTimeout := fun _ _ => ("", "cannot connect", some (.other "exit status 1")) }

/-- The host `ovsEnv "10.0.0.9"` on which the encap-IPs annotation cannot be queued. -/
def queueFailEnv : Env :=
  { ovsEnv "10.0.0.9" with SetNodeEncapIPs := fun _ => some (.other "marshal failed") }

/-- A state around `mgr10`, with no call made yet. -/
def state10 : State := { mgr := mgr10, EffectiveEncapIP := "10.0.0.9", events := [] }

/-! ## Hosts whose node annotations can be updated -/

/-- A node with an empty host-CIDRs annotation and a gateway configuration
that parses. -/
def gatewayNode : Node :=
  { plainNode with
    ParseNodeHostCIDRs := .ok ∅
    ParseNodeL3GatewayAnnotation := .ok { IPAddresses := [], rest := "mode=shared" } }

/-- The host `hostEnv` with the parsers of the examples, the node
`gatewayNode`, a configured encap IP, and a gateway bridge that resolves
`10.0.0.1/24` as its interface address. -/
def annotEnv : Env :=
  { hostEnv with
    EncapIP := "10.0.0.1"
    ParseIP := parseIPExamples
    ParseCIDR := parseCIDRExamples
    GetNode := fun _ => .ok gatewayNode
    UpdateInterfaceIPAddresses := fun _ => .ok [net10] }

/-- The host `annotEnv` on which the commit of the annotations fails. -/
def commitFailEnv : Env := { annotEnv with nodeAnnotatorRun := some (.other "conflict") }

/-- The host `annotEnv` whose node has no gateway configuration annotation. -/
def noGatewayEnv : Env :=
  { annotEnv with GetNode := fun _ => .ok { gatewayNode with ParseNodeL3GatewayAnnotation := .error .annotationNotSet } }

/-- The call by which `updateNodeAddressAnnotations` resolves the interface
addresses of the gateway bridge, made only by a manager that uses netlink. -/
def resolveCalls (c : addressManager) : List Event :=
  if c.useNetlink then [.UpdateInterfaceIPAddresses] else []

/-- The queueing of the host-CIDRs record by `updateHostCIDRs`, which is left
out in DPU mode. -/
def hostCIDRsCalls (env : Env) (c : addressManager) : List Event :=
  if env.NodeModeDPU then [] else [.SetNodeHostCIDRs c.cidrs]

/-! ## The reconciliation loop -/

/-- A `netlink.AddrUpdate`, as far as the loop reads it. -/
structure AddrUpdate where
  LinkAddress : IPNet
  LinkIndex : Int
  NewAddr : Bool
deriving DecidableEq

/-- Go `subscribeFn`: an attempt to subscribe returns whether it succeeded and
an error (the channel is not modelled), and may run code of the manager. -/
abbrev subscribeFn := State → (Bool × Option Error) × State

/-- Go `addressManager.getNetlinkAddrSubFunc`, `subscribeErr` being what
`netlink.AddrSubscribeWithOptions` returns: on success the manager is synced. -/
def getNetlinkAddrSubFunc (env : Env) (subscribeErr : Option Error) : subscribeFn :=
  fun s =>
    match subscribeErr with
    | some err => ((false, some err), s)
    | none => ((true, none), (sync env s).2)

/-- The case that the `select` of `runInternal` takes in one iteration. -/
inductive Select where
  /-- A value `a` received from `addrChan`, with `ok` true. -/
  | addrUpdate (a : AddrUpdate)
  /-- A receive from the closed `addrChan`, with `ok` false. -/
  | chanClosed
  /-- A tick of `addressSyncTimer`. -/
  | tick
  /-- A receive from `stopChan`. -/
  | stop
deriving DecidableEq

/-- The loop of `runInternal` between two iterations: the state of the
process, the local `subscribed`, how often `subscribe` was called and the
timer reset, and whether the function has returned. -/
structure LoopState where
  state : State
  subscribed : Bool
  subscribeCalls : Nat
  timerResets : Nat
  returned : Bool
deriving DecidableEq

/-- The case `a, ok := <-addrChan` with `ok` true (lines 171-186), on the
state of the process. -/
def applyAddrUpdate (env : Env) (s : State) (a : AddrUpdate) : State :=
  let r := if a.NewAddr then addAddr env s.mgr a.LinkAddress a.LinkIndex
    else delAddr env s.mgr a.LinkAddress a.LinkIndex
  let s1 := handleNodePrimaryAddrChange env { s with mgr := r.2 }
  if r.1 || !doNodeHostCIDRsMatch env s1.mgr then
    (updateNodeAddressAnnotations env s1).2.emit .OnChanged
  else s1

/-- One iteration of the loop of `runInternal`. -/
def runInternalStep (env : Env) (subscribe : subscribeFn) (l : LoopState) : Select → LoopState
  | .addrUpdate a =>
    { l with state := applyAddrUpdate env l.state a, timerResets := l.timerResets + 1 }
  | .chanClosed =>
    let r := subscribe l.state
    { l with
      state := r.2
      subscribed := r.1.1
      subscribeCalls := l.subscribeCalls + 1
      timerResets := l.timerResets + 1 }
  | .tick =>
    if l.subscribed then { l with state := (sync env l.state).2 }
    else
      let r := subscribe l.state
      { l with state := r.2, subscribed := r.1.1, subscribeCalls := l.subscribeCalls + 1 }
  | .stop => { l with returned := true }

/-- The loop of `runInternal` over the cases its `select` takes, in order;
once the function has returned no further case is taken. -/
def runInternalLoop (env : Env) (subscribe : subscribeFn) : LoopState → List Select → LoopState
  | l, [] => l
  | l, sel :: rest =>
    if l.returned then l
    else runInternalLoop env subscribe (runInternalStep env subscribe l sel) rest

/-- Go `addressManager.runInternal`: the first subscription, then the loop. -/
def runInternal (env : Env) (subscribe : subscribeFn) (s : State) (sels : List Select) :
    LoopState :=
  let r := subscribe s
  runInternalLoop env subscribe
    { state := r.2, subscribed := r.1.1, subscribeCalls := 1, timerResets := 0, returned := false }
    sels

/-- An announcement of `192.168.1.7/24` on link 2. -/
def update192 : AddrUpdate := { LinkAddress := net192, LinkIndex := 2, NewAddr := true }

/-- A withdrawal of `192.168.1.7/24` on link 2. -/
def withdraw192 : AddrUpdate := { LinkAddress := net192, LinkIndex := 2, NewAddr := false }

/-- A node whose host-CIDRs annotation is `10.0.0.1/24` and whose gateway
configuration parses. -/
def syncedNode : Node := { gatewayNode with ParseNodeHostCIDRs := .ok {"10.0.0.1/24"} }

/-- The host `annotEnv` whose node already records `10.0.0.1/24`. -/
def syncedEnv : Env := { annotEnv with GetNode := fun _ => .ok syncedNode }

/-- A subscription that always fails and runs no code of the manager. -/
def failingSubscribe : subscribeFn := fun s => ((false, some (.other "netlink: no buffer space")), s)

/-- The loop around `state10`, subscribed, before its first iteration. -/
def loop10 : LoopState :=
  { state := state10, subscribed := true, subscribeCalls := 1, timerResets := 0, returned := false }

/-- The host `annotEnv` after its addresses changed: the only link is `eth0`
and its only address is `192.168.1.7/24`. -/
def movedEnv : Env :=
  { annotEnv with
    LinkList := .ok [linkEth0]
    AddrList := fun _ _ =>
      .ok [{ IP := .bytes [192, 168, 1, 7], Mask := [255, 255, 255, 0], LinkIndex := 2 }] }

/-! ## The query of the stored addresses -/

/-- The `sets.List` of apimachinery: the members of the set in increasing order. -/
def setsList (s : Finset String) : List String := s.sort (fun a b => a ≤ b)

/-- The loop of `ListAddresses` over the sorted CIDR strings: a string that
does not parse is skipped, the address and the network of the others are
appended. -/
def ListAddressesLoop (env : Env) : List String → List IP → List IPNet → List IP × List IPNet
  | [], addresses, networkAddresses => (addresses, networkAddresses)
  | addr :: addrs, addresses, networkAddresses =>
    match env.ParseCIDR addr with
    | .error _ => ListAddressesLoop env addrs addresses networkAddresses
    | .ok p => ListAddressesLoop env addrs (addresses ++ [p.1]) (networkAddresses ++ [p.2])

/-- Go `addressManager.ListAddresses`: the two lists it returns, and the
manager afterwards. -/
def ListAddresses (env : Env) (c : addressManager) : (List IP × List IPNet) × addressManager :=
  (ListAddressesLoop env (setsList c.cidrs) [] [], c)

/-- A manager that has stored `fd00::1/64`, `192.168.1.7/24` and `10.0.0.1/24`. -/
def mgr3 : addressManager :=
  { nodeName := "node1", cidrs := {"fd00::1/64", "192.168.1.7/24", "10.0.0.1/24"},
    useNetlink := true, nodePrimaryAddr := .nil }

/-! ## Node predicates of the default network controller (`go-controller/pkg/ovn/ovn.go`) -/

/-- A `corev1.Node` as `ovn.go` reads it: its name, its annotations, and the
result of `util.NoHostSubnet(node)`. -/
structure NodeObject where
  Name : String
  Annotations : List (String × String)
  NoHostSubnet : Bool
deriving DecidableEq, Repr

/-- Go `node.Annotations[key]`: the value of the key, the empty string when
the key is absent. -/
def NodeObject.annotationValue (node : NodeObject) (key : String) : String :=
  (node.Annotations.lookup key).getD ""

/-- Go `shouldUpdateNode`. -/
def shouldUpdateNode (node oldNode : NodeObject) : Bool :=
  let newNoHostSubnet := node.NoHostSubnet
  let oldNoHostSubnet := oldNode.NoHostSubnet
  if oldNoHostSubnet && newNoHostSubnet then false
  else true

/-- Go `joinCIDRChanged`.  `OVNNodeGRLRPAddrs` is the annotation key
`util.OVNNodeGRLRPAddrs`; `Unmarshal` is `json.Unmarshal` into a nil
`map[string]json.RawMessage`, the map being given by its lookup, which
answers the empty message for a key that is absent. -/
def joinCIDRChanged (OVNNodeGRLRPAddrs : String)
    (Unmarshal : String → Except Error (String → String))
    (oldNode node : NodeObject) (netName : String) : Bool :=
  if oldNode.annotationValue OVNNodeGRLRPAddrs = node.annotationValue OVNNodeGRLRPAddrs then false
  else
    match Unmarshal (oldNode.annotationValue OVNNodeGRLRPAddrs) with
    | .error _ => false
    | .ok oldCIDRs =>
      match Unmarshal (node.annotationValue OVNNodeGRLRPAddrs) with
      | .error _ => false
      | .ok newCIDRs => !(oldCIDRs netName == newCIDRs netName)

/-- A node to which a host subnet is assigned. -/
def subnetNode : NodeObject := { Name := "node1", Annotations := [], NoHostSubnet := false }

/-- A node to which no host subnet is assigned. -/
def noSubnetNode : NodeObject := { Name := "node1", Annotations := [], NoHostSubnet := true }

/-- The key of the gateway-router-port-address annotation. -/
def lrpKey : String := "k8s.ovn.org/node-gateway-router-lrp-ifaddrs"

/-- The annotation value that gives `100.64.0.2/16` to the default network. -/
def lrpJSON2 : String := "\x7b\"default\":\x7b\"ipv4\":\"100.64.0.2/16\"\x7d\x7d"

/-- The annotation value that gives `100.64.0.3/16` to the default network. -/
def lrpJSON3 : String := "\x7b\"default\":\x7b\"ipv4\":\"100.64.0.3/16\"\x7d\x7d"

/-- The values of Go `json.Unmarshal` into a nil `map[string]json.RawMessage`
on the strings of the examples: the two objects above give their one key,
JSON `null` leaves the map nil without error, every other string (the empty
one among them) is an error. -/
def unmarshalExamples (s : String) : Except Error (String → String) :=
  if s = lrpJSON2 then
    .ok (fun key => if key = "default" then "\x7b\"ipv4\":\"100.64.0.2/16\"\x7d" else "")
  else if s = lrpJSON3 then
    .ok (fun key => if key = "default" then "\x7b\"ipv4\":\"100.64.0.3/16\"\x7d" else "")
  else if s = "null" then .ok (fun _ => "")
  else .error (.other "unexpected end of JSON input")

/-- The node `subnetNode` with `value` as gateway-router-port-address annotation. -/
def lrpNode (value : String) : NodeObject := { subnetNode with Annotations := [(lrpKey, value)] }


/-! ## Pod set-up of the default network controller (`go-controller/pkg/ovn/ovn.go`) -/

/-- Errors of the pod set-up: an error of a collaborator, `fmt.Errorf` with
`%w` around an error (`wrap`), `fmt.Errorf` with `%v` of an error
(`format`), and `ovntypes.NewSuppressedError` (`suppressed`). -/
inductive PodError where
  | leaf (msg : String)
  | wrap (msg : String) (err : PodError)
  | format (msg : String) (err : PodError)
  | suppressed (err : PodError)
deriving DecidableEq, Repr

/-- A `corev1.Pod` as the pod set-up reads it: fields of the object, and the
answers of the predicates `util.PodScheduled`, `util.PodTerminating`,
`v1pod.IsPodReadyConditionTrue`, `util.PodWantsHostNetwork` and
`kubevirt.IsPodLiveMigratable` on it. -/
structure Pod where
  Namespace : String
  Name : String
  NodeName : String
  Annotations : List (String × String)
  PodIPs : List String
  PodScheduled : Bool
  PodTerminating : Bool
  IsPodReadyConditionTrue : Bool
  PodWantsHostNetwork : Bool
  IsPodLiveMigratable : Bool
deriving DecidableEq, Repr

/-- Go `pod.Annotations[key]`: the empty string when the key is absent. -/
def Pod.annotationValue (pod : Pod) (key : String) : String :=
  (pod.Annotations.lookup key).getD ""

/-- The collaborators of `DefaultNetworkController` in the pod set-up, each
given by its answer, together with the configuration flags and the names of
the annotations that the set-up reads. -/
structure DefaultNetworkController where
  IsNonHostSubnetSwitch : String → Bool
  isPodScheduledinLocalZone : Pod → Bool
  deletePodExternalGW : Pod → Option PodError
  addPodExternalGW : Pod → Option PodError
  addLogicalPort : Pod → Option PodError
  GetPodCIDRsWithFullMask : Pod → Except PodError (List String)
  addRemotePodToNamespace : String → List String → Option PodError
  GetNetworkRole : Pod → Except PodError String
  GetLogicalPortName : Pod → String → String
  GetNetworkName : String
  setUDNPodOpenPorts : String → List (String × String) → String → Option PodError
  EnsureLocalZonePodAddressesToNodeRoute : Pod → Option PodError
  EnsureRemoteZonePodAddressesToNodeRoute : Pod → Option PodError
  EnableScaleMetrics : Bool
  IsNetworkSegmentationSupportEnabled : Bool
  RoutingNamespaceAnnotation : String
  RoutingNetworkAnnotation : String
  BfdAnnotation : String
  NetworkStatusAnnot : String
  UDNOpenPortsAnnotationName : String
  NetworkRoleInfrastructure : String

/-- The calls that the pod set-up makes on its collaborators, in the order
in which they are made. -/
inductive PodCall where
  | IsNonHostSubnetSwitch (switchName : String)
  | isPodScheduledinLocalZone (pod : Pod)
  | deletePodExternalGW (pod : Pod)
  | addPodExternalGW (pod : Pod)
  | addLogicalPort (pod : Pod)
  | GetPodCIDRsWithFullMask (pod : Pod)
  | addRemotePodToNamespace (ns : String) (addrs : List String)
  | GetNetworkRole (pod : Pod)
  | setUDNPodOpenPorts (podDesc : String) (annotations : List (String × String))
      (portName : String)
  | EnsureLocalZonePodAddressesToNodeRoute (pod : Pod)
  | EnsureRemoteZonePodAddressesToNodeRoute (pod : Pod)
  | RecordPodEvent (eventName : String)
deriving DecidableEq, Repr

/-- The outcome of a part of the pod set-up: the error it returns (`none` for
Go `nil`) and the calls it made. -/
abbrev PodResult := Option PodError × List PodCall

/-- Sequencing with early return: when the first part returns an error the
function returns it, otherwise the second part runs after it. -/
def PodResult.andThen (r next : PodResult) : PodResult :=
  match r.1 with
  | some err => (some err, r.2)
  | none => (next.1, r.2 ++ next.2)

/-- Go `exGatewayAnnotationsChanged`. -/
def exGatewayAnnotationsChanged (oc : DefaultNetworkController) (oldPod newPod : Pod) : Bool :=
  oldPod.annotationValue oc.RoutingNamespaceAnnotation != newPod.annotationValue oc.RoutingNamespaceAnnotation ||
  oldPod.annotationValue oc.RoutingNetworkAnnotation != newPod.annotationValue oc.RoutingNetworkAnnotation ||
  oldPod.annotationValue oc.BfdAnnotation != newPod.annotationValue oc.BfdAnnotation

/-- Go `networkStatusAnnotationsChanged`. -/
def networkStatusAnnotationsChanged (oc : DefaultNetworkController) (oldPod newPod : Pod) : Bool :=
  oldPod.annotationValue oc.NetworkStatusAnnot != newPod.annotationValue oc.NetworkStatusAnnot

/-- Go `podBecameReady`. -/
def podBecameReady (oldPod newPod : Pod) : Bool :=
  !oldPod.IsPodReadyConditionTrue && newPod.IsPodReadyConditionTrue

/-- The text `namespace/name` of the error messages. -/
def Pod.desc (pod : Pod) : String := pod.Namespace ++ "/" ++ pod.Name


/-- Go `DefaultNetworkController.ensureRemotePodIP`. -/
def ensureRemotePodIP (oc : DefaultNetworkController) (oldPod : Option Pod) (pod : Pod)
    (addPort : Bool) : PodResult :=
  let ipsChanged := match oldPod with
    | some old => pod.PodIPs.length != old.PodIPs.length
    | none => false
  if (addPort || ipsChanged) && !pod.PodWantsHostNetwork then
    match oc.GetPodCIDRsWithFullMask pod with
    | .error err =>
      (some (.wrap ("failed to obtain IPs to add remote pod " ++ pod.desc) (.suppressed err)),
        [.GetPodCIDRsWithFullMask pod])
    | .ok podIfAddrs =>
      match oc.addRemotePodToNamespace pod.Namespace podIfAddrs with
      | some err =>
        (some (.wrap ("failed to add remote pod " ++ pod.desc ++ " to namespace") err),
          [.GetPodCIDRsWithFullMask pod, .addRemotePodToNamespace pod.Namespace podIfAddrs])
      | none =>
        (none, [.GetPodCIDRsWithFullMask pod, .addRemotePodToNamespace pod.Namespace podIfAddrs])
  else (none, [])

/-- Whether the annotations that make a pod an external gateway, or its
network status, differ between the old pod, when there is one, and the pod. -/
def gatewayAnnotationsChanged (oc : DefaultNetworkController) (oldPod : Option Pod)
    (pod : Pod) : Bool :=
  match oldPod with
  | some old => exGatewayAnnotationsChanged oc old pod || networkStatusAnnotationsChanged oc old pod
  | none => false

/-- The condition of Go under which the external-gateway routes of the pod
are added: `oldPod == nil`, or the annotations changed, or the pod became
ready. -/
def wantsAddPodExternalGW (oc : DefaultNetworkController) (oldPod : Option Pod)
    (pod : Pod) : Bool :=
  match oldPod with
  | none => true
  | some old =>
    exGatewayAnnotationsChanged oc old pod || networkStatusAnnotationsChanged oc old pod ||
      podBecameReady old pod

/-- Go `DefaultNetworkController.ensureRemoteZonePod`. -/
def ensureRemoteZonePod (oc : DefaultNetworkController) (oldPod : Option Pod) (pod : Pod)
    (addPort : Bool) : PodResult :=
  PodResult.andThen (ensureRemotePodIP oc oldPod pod addPort)
  (PodResult.andThen (match oldPod with
    | some old =>
      if gatewayAnnotationsChanged oc oldPod pod then
        match oc.deletePodExternalGW old with
        | some err =>
          (some (.wrap ("deletePodExternalGW failed for remote pod " ++ old.desc) err),
            [.deletePodExternalGW old])
        | none => (none, [.deletePodExternalGW old])
      else (none, [])
    | none => (none, []))
  (PodResult.andThen (if wantsAddPodExternalGW oc oldPod pod then
      match oc.addPodExternalGW pod with
      | some err =>
        (some (.format ("addPodExternalGW failed for remote pod " ++ pod.desc) err),
          [.addPodExternalGW pod])
      | none => (none, [.addPodExternalGW pod])
    else (none, []))
  (if pod.IsPodLiveMigratable then
    (oc.EnsureRemoteZonePodAddressesToNodeRoute pod, [.EnsureRemoteZonePodAddressesToNodeRoute pod])
  else (none, []))))

/-- The body of Go `DefaultNetworkController.ensureLocalZonePod`, without
the deferred record of the metrics. -/
def ensureLocalZonePodBody (oc : DefaultNetworkController) (oldPod : Option Pod) (pod : Pod)
    (addPort : Bool) : PodResult :=
  PodResult.andThen (match oldPod with
    | some old =>
      if gatewayAnnotationsChanged oc oldPod pod then
        match oc.deletePodExternalGW old with
        | some err => (some (.wrap ("ensurePod failed " ++ pod.desc) err), [.deletePodExternalGW old])
        | none => (none, [.deletePodExternalGW old])
      else (none, [])
    | none => (none, []))
  (PodResult.andThen (if !pod.PodWantsHostNetwork && addPort then
      match oc.addLogicalPort pod with
      | some err => (some (.wrap ("addLogicalPort failed for " ++ pod.desc) err), [.addLogicalPort pod])
      | none => (none, [.addLogicalPort pod])
    else if wantsAddPodExternalGW oc oldPod pod then
      match oc.addPodExternalGW pod with
      | some err =>
        (some (.wrap ("addPodExternalGW failed for " ++ pod.desc) err), [.addPodExternalGW pod])
      | none => (none, [.addPodExternalGW pod])
    else (none, []))
  (PodResult.andThen (match oldPod with
    | some old =>
      if oc.IsNetworkSegmentationSupportEnabled && !pod.PodWantsHostNetwork && !addPort &&
          pod.annotationValue oc.UDNOpenPortsAnnotationName
            != old.annotationValue oc.UDNOpenPortsAnnotationName then
        match oc.GetNetworkRole pod with
        | .error err => (some err, [.GetNetworkRole pod])
        | .ok networkRole =>
          if networkRole = oc.NetworkRoleInfrastructure then
            let portName := oc.GetLogicalPortName pod oc.GetNetworkName
            match oc.setUDNPodOpenPorts (pod.Namespace ++ "/" ++ pod.Name) pod.Annotations
                portName with
            | some err =>
              (some (.wrap ("failed to update UDN pod  " ++ pod.desc ++ " open ports") err),
                [.GetNetworkRole pod,
                  .setUDNPodOpenPorts (pod.Namespace ++ "/" ++ pod.Name) pod.Annotations portName])
            | none =>
              (none, [.GetNetworkRole pod,
                .setUDNPodOpenPorts (pod.Namespace ++ "/" ++ pod.Name) pod.Annotations portName])
          else (none, [.GetNetworkRole pod])
      else (none, [])
    | none => (none, []))
  (if pod.IsPodLiveMigratable then
    (oc.EnsureLocalZonePodAddressesToNodeRoute pod, [.EnsureLocalZonePodAddressesToNodeRoute pod])
  else (none, []))))

/-- Go `DefaultNetworkController.ensureLocalZonePod`: with the scale metrics
enabled the deferred function records the pod event when the body returns,
whatever it returns. -/
def ensureLocalZonePod (oc : DefaultNetworkController) (oldPod : Option Pod) (pod : Pod)
    (addPort : Bool) : PodResult :=
  let r := ensureLocalZonePodBody oc oldPod pod addPort
  if oc.EnableScaleMetrics then
    (r.1, r.2 ++ [.RecordPodEvent (if !addPort then "update" else "add")])
  else r

/-- Go `DefaultNetworkController.ensurePod`. -/
def ensurePod (oc : DefaultNetworkController) (oldPod : Option Pod) (pod : Pod)
    (addPort : Bool) : PodResult :=
  if !pod.PodScheduled then (none, [])
  else
    let switchName := pod.NodeName
    if oc.IsNonHostSubnetSwitch switchName then
      PodResult.andThen (none, [.IsNonHostSubnetSwitch switchName])
        (ensureRemotePodIP oc oldPod pod addPort)
    else
      PodResult.andThen (none, [.IsNonHostSubnetSwitch switchName])
      (PodResult.andThen (if pod.PodTerminating || !pod.IsPodReadyConditionTrue then
          match oc.deletePodExternalGW pod with
          | some err => (some (.wrap ("ensurePod failed " ++ pod.desc) err), [.deletePodExternalGW pod])
          | none => (none, [.deletePodExternalGW pod])
        else (none, []))
      (PodResult.andThen (none, [.isPodScheduledinLocalZone pod])
        (if oc.isPodScheduledinLocalZone pod then ensureLocalZonePod oc oldPod pod addPort
        else ensureRemoteZonePod oc oldPod pod addPort)))

/-- A controller all of whose collaborators succeed: every switch has a host
subnet, every pod is in the local zone. -/
def plainController : DefaultNetworkController where
  IsNonHostSubnetSwitch := fun _ => false
  isPodScheduledinLocalZone := fun _ => true
  deletePodExternalGW := fun _ => none
  addPodExternalGW := fun _ => none
  addLogicalPort := fun _ => none
  GetPodCIDRsWithFullMask := fun _ => .ok ["10.244.0.5/32"]
  addRemotePodToNamespace := fun _ _ => none
  GetNetworkRole := fun _ => .ok "primary"
  GetLogicalPortName := fun pod _ => pod.Namespace ++ "_" ++ pod.Name
  GetNetworkName := "default"
  setUDNPodOpenPorts := fun _ _ _ => none
  EnsureLocalZonePodAddressesToNodeRoute := fun _ => none
  EnsureRemoteZonePodAddressesToNodeRoute := fun _ => none
  EnableScaleMetrics := false
  IsNetworkSegmentationSupportEnabled := false
  RoutingNamespaceAnnotation := "k8s.ovn.org/routing-namespaces"
  RoutingNetworkAnnotation := "k8s.ovn.org/routing-network"
  BfdAnnotation := "k8s.ovn.org/bfd-enabled"
  NetworkStatusAnnot := "k8s.v1.cni.cncf.io/network-status"
  UDNOpenPortsAnnotationName := "k8s.ovn.org/open-default-ports"
  NetworkRoleInfrastructure := "infrastructure-locked"

/-- The controller `plainController` with a removal of external-gateway
routes that fails. -/
def failingGWController : DefaultNetworkController :=
  { plainController with deletePodExternalGW := fun _ => some (.leaf "no such route") }

/-- A pod that is scheduled on `node1`, ready, and not terminating. -/
def readyPod : Pod where
  Namespace := "ns1"
  Name := "pod1"
  NodeName := "node1"
  Annotations := []
  PodIPs := ["10.244.0.5"]
  PodScheduled := true
  PodTerminating := false
  IsPodReadyConditionTrue := true
  PodWantsHostNetwork := false
  IsPodLiveMigratable := false

/-- The pod `readyPod` after its deletion was asked for. -/
def terminatingPod : Pod := { readyPod with PodTerminating := true }

/-- The pod `readyPod` before it is scheduled. -/
def unscheduledPod : Pod := { readyPod with NodeName := "", PodScheduled := false }


/-! ## The lock of the address manager

The methods that take the lock, by the steps they take in order: the
acquisition and the release of the lock, the look-up of a link, the read of
the node from the informer, and the calls that `State.events` records. -/

/-- A step of a method of the address manager: `c.Lock()`, `c.Unlock()`,
`LinkByIndex` of the netlink library, `c.watchFactory.GetNode`, or a command
or annotation write. -/
inductive Step where
  | Lock
  | Unlock
  | LinkByIndex (linkIndex : Int)
  | GetNode (nodeName : String)
  | event (e : Event)
deriving DecidableEq

/-- The steps taken while the lock is held, given whether it is held at the
start. -/
def underLockFrom : Bool → List Step → List Step
  | _, [] => []
  | _, .Lock :: rest => underLockFrom true rest
  | _, .Unlock :: rest => underLockFrom false rest
  | held, st :: rest =>
    if held then st :: underLockFrom held rest else underLockFrom held rest

/-- The steps that a method takes while it holds the lock. -/
def underLock (steps : List Step) : List Step := underLockFrom false steps

/-- Go `addressManager.isValidNodeIP` with the look-ups it makes: the link
look-up when network segmentation is on and the first four checks pass, the
read of the node by `getPrimaryHostEgressIPs` when the cache does not answer,
and the read of the node by `getSecondaryHostEgressIPs`. -/
def isValidNodeIPTraced (env : Env) (c : addressManager) (addr : IP) (linkIndex : Int) :
    Bool × List Step :=
  if addr = .nil then (false, [])
  else if addr.IsLinkLocalUnicast then (false, [])
  else if addr.IsLoopback then (false, [])
  else if matchesMgmtPortAddress env addr then (false, [])
  else
    let link : List Step :=
      if env.IsNetworkSegmentationSupportEnabled then [.LinkByIndex linkIndex] else []
    if onMgmtPortLink env linkIndex then (false, link)
    else if env.IsAddressReservedForInternalUse addr then (false, link)
    else if env.EnableEgressIP then
      let primary : List Step :=
        if env.IsNetworkSegmentationSupportEnabled && env.EnableInterconnect
            && !env.GatewayModeDisabled then
          if (match env.GetEIPMarkIPs with
              | some eipMarkIPs => eipMarkIPs.HasSyncdOnce && eipMarkIPs.IsIPPresent addr
              | none => false) then []
          else [.GetNode c.nodeName]
        else []
      if claimedPrimaryEgress env c addr then (false, link ++ primary)
      else
        let secondary : List Step :=
          if !env.PlatformTypeIsEgressIPCloudProvider then [.GetNode c.nodeName] else []
        if claimedSecondaryEgress env c addr then (false, link ++ primary ++ secondary)
        else (true, link ++ primary ++ secondary)
    else (true, link)

/-- The steps of Go `addressManager.addAddr`: the filter runs, under the
lock, when the CIDR is not stored. -/
def addAddrSteps (env : Env) (c : addressManager) (ipnet : IPNet) (linkIndex : Int) :
    List Step :=
  .Lock ::
    ((if ipnet.String ∉ c.cidrs then (isValidNodeIPTraced env c ipnet.IP linkIndex).2 else [])
      ++ [.Unlock])

/-- The steps of Go `addressManager.delAddr`: the filter runs, under the
lock, when the CIDR is stored. -/
def delAddrSteps (env : Env) (c : addressManager) (ipnet : IPNet) (linkIndex : Int) :
    List Step :=
  .Lock ::
    ((if ipnet.String ∈ c.cidrs then (isValidNodeIPTraced env c ipnet.IP linkIndex).2 else [])
      ++ [.Unlock])

/-- The steps of Go `addressManager.assignCIDRs`. -/
def assignCIDRsSteps : List Step := [.Lock, .Unlock]

/-- The steps of Go `addressManager.ListAddresses`. -/
def ListAddressesSteps : List Step := [.Lock, .Unlock]

/-- The steps of Go `addressManager.doNodeHostCIDRsMatch`. -/
def doNodeHostCIDRsMatchSteps (c : addressManager) : List Step :=
  [.Lock, .GetNode c.nodeName, .Unlock]

/-- The steps of Go `addressManager.handleNodePrimaryAddrChange`: the lock
is taken first and released on return, `nodePrimaryAddrChanged` reads the
node, and the calls of the reconfiguration follow. -/
def handleNodePrimaryAddrChangeSteps (env : Env) (s : State) : List Step :=
  .Lock :: .GetNode s.mgr.nodeName ::
    (((handleNodePrimaryAddrChange env s).events.drop s.events.length).map .event
      ++ [.Unlock])

/-! ## Theorems -/

/-- The filter reads the manager only for the name of its node. -/
theorem isValidNodeIP_congr (env : Env) (c c2 : addressManager) (h : c2.nodeName = c.nodeName)
    (addr : IP) (linkIndex : Int) :
    isValidNodeIP env c2 addr linkIndex = isValidNodeIP env c addr linkIndex := by
  simp only [isValidNodeIP, getPrimaryHostEgressIPs, getSecondaryHostEgressIPs, h]

/-- The filter does not read what netlink answers to the listing calls. -/
theorem isValidNodeIP_withNetlink (env : Env) (links : Except Error (List Link))
    (addrs : Link → Int → Except Error (List Addr)) (c : addressManager) (addr : IP)
    (linkIndex : Int) :
    isValidNodeIP (env.withNetlink links addrs) c addr linkIndex
      = isValidNodeIP env c addr linkIndex := rfl


/-- C1: `addAddr` returns true exactly when the string of the CIDR is not
stored and its IP passes `isValidNodeIP`; then the stored set is the old one
plus that string and nothing else of the manager changes; in every other case
the manager is unchanged. -/
theorem addAddr_spec (env : Env) (c : addressManager) (ipnet : IPNet) (linkIndex : Int) :
    ((addAddr env c ipnet linkIndex).1 = true ↔
      (ipnet.String ∉ c.cidrs ∧ isValidNodeIP env c ipnet.IP linkIndex = true)) ∧
    ((addAddr env c ipnet linkIndex).1 = true →
      (addAddr env c ipnet linkIndex).2 = { c with cidrs := insert ipnet.String c.cidrs }) ∧
    ((addAddr env c ipnet linkIndex).1 = false → (addAddr env c ipnet linkIndex).2 = c) := by
  unfold addAddr
  split <;> simp_all

/-- Witness of `addAddr_spec`: `192.168.1.7/24` is added to a manager that
stores `10.0.0.1/24`; `10.0.0.1/24` (stored) and `127.0.0.1/8` (rejected) are not. -/
theorem addAddr_spec_witness :
    (addAddr plainEnv mgr10 net192 2).1 = true ∧
    (addAddr plainEnv mgr10 net192 2).2.cidrs = {"192.168.1.7/24", "10.0.0.1/24"} ∧
    (addAddr plainEnv mgr10 net10 2).2 = mgr10 ∧
    (addAddr plainEnv mgr10 { IP := .bytes [127, 0, 0, 1], Mask := [255, 0, 0, 0] } 1).2 = mgr10 :=
  ⟨(addAddr_spec plainEnv mgr10 net192 2).1.mpr (by decide),
    by rw [(addAddr_spec plainEnv mgr10 net192 2).2.1 (by decide)]; decide,
    (addAddr_spec plainEnv mgr10 net10 2).2.2 (by decide),
    (addAddr_spec plainEnv mgr10 _ 1).2.2 (by decide)⟩

/-- C2: `delAddr` returns true exactly when the string of the CIDR is stored
and its IP passes `isValidNodeIP`; then the stored set is the old one minus
that string; a delete for a CIDR that is absent or whose IP fails the filter
returns false and leaves the manager unchanged. -/
theorem delAddr_spec (env : Env) (c : addressManager) (ipnet : IPNet) (linkIndex : Int) :
    ((delAddr env c ipnet linkIndex).1 = true ↔
      (ipnet.String ∈ c.cidrs ∧ isValidNodeIP env c ipnet.IP linkIndex = true)) ∧
    ((delAddr env c ipnet linkIndex).1 = true →
      (delAddr env c ipnet linkIndex).2 = { c with cidrs := c.cidrs.erase ipnet.String }) ∧
    ((ipnet.String ∉ c.cidrs ∨ isValidNodeIP env c ipnet.IP linkIndex = false) →
      (delAddr env c ipnet linkIndex).1 = false ∧ (delAddr env c ipnet linkIndex).2 = c) := by
  unfold delAddr
  split <;> simp_all

/-- Witness of `delAddr_spec`: `10.0.0.1/24` is removed from a manager that
stores it; a delete of `192.168.1.7/24` (absent) changes nothing, and neither
does a delete of the stored `10.0.0.1/24` on a management-port link when
network segmentation is on. -/
theorem delAddr_spec_witness :
    (delAddr plainEnv mgr10 net10 2).1 = true ∧
    (delAddr plainEnv mgr10 net10 2).2.cidrs = ∅ ∧
    (delAddr plainEnv mgr10 net192 2).2 = mgr10 ∧
    (delAddr segmentationEnv mgr10 net10 3).2 = mgr10 :=
  ⟨(delAddr_spec plainEnv mgr10 net10 2).1.mpr (by decide),
    by rw [(delAddr_spec plainEnv mgr10 net10 2).2.1 (by decide)]; decide,
    ((delAddr_spec plainEnv mgr10 net192 2).2.2 (Or.inl (by decide))).2,
    ((delAddr_spec segmentationEnv mgr10 net10 3).2.2 (Or.inr (by decide))).2⟩

/-- C3, as stated, fails: `10.0.0.1/24` passes the filter and is already
stored; `addAddr` then changes nothing and `delAddr` removes it, so the set is
not the one before the `addAddr` call. -/
theorem addAddr_delAddr_stored_counterexample :
    isValidNodeIP plainEnv mgr10 net10.IP 2 = true ∧
    (addAddr plainEnv mgr10 net10 2).1 = false ∧
    (delAddr plainEnv (addAddr plainEnv mgr10 net10 2).2 net10 2).2.cidrs = ∅ ∧
    (delAddr plainEnv (addAddr plainEnv mgr10 net10 2).2 net10 2).2.cidrs ≠ mgr10.cidrs := by
  decide

/-- C3, amended: for a CIDR whose IP passes the filter, `addAddr` and then
`delAddr` leave the manager exactly as before when the string of the CIDR was
not stored before; when it was stored, the two calls remove it. -/
theorem addAddr_delAddr_restores (env : Env) (c : addressManager) (ipnet : IPNet)
    (linkIndex : Int) (hvalid : isValidNodeIP env c ipnet.IP linkIndex = true) :
    (ipnet.String ∉ c.cidrs →
      (delAddr env (addAddr env c ipnet linkIndex).2 ipnet linkIndex).2 = c) ∧
    (delAddr env (addAddr env c ipnet linkIndex).2 ipnet linkIndex).2.cidrs
      = c.cidrs.erase ipnet.String := by
  have hv2 : ∀ s : Finset String,
      isValidNodeIP env { c with cidrs := s } ipnet.IP linkIndex = true := by
    intro s
    rw [isValidNodeIP_congr env c { c with cidrs := s } rfl]
    exact hvalid
  by_cases hmem : ipnet.String ∈ c.cidrs
  · simp [addAddr, delAddr, hmem, hvalid]
  · simp [addAddr, delAddr, hmem, hvalid, hv2]

/-- Witness of `addAddr_delAddr_restores`: `192.168.1.7/24` on a manager that
stores `10.0.0.1/24`. -/
theorem addAddr_delAddr_restores_witness :
    isValidNodeIP plainEnv mgr10 net192.IP 2 = true ∧
    net192.String ∉ mgr10.cidrs ∧
    (delAddr plainEnv (addAddr plainEnv mgr10 net192 2).2 net192 2).2 = mgr10 :=
  ⟨by decide, by decide,
    (addAddr_delAddr_restores plainEnv mgr10 net192 2 (by decide)).1 (by decide)⟩

/-- C8: whatever the link index, the flags and the exclusion sets,
`isValidNodeIP` is false for the nil address, for a link-local unicast
address, for a loopback address, and for an address equal to the address that
`MatchFirstIPNetFamily` picks for its family among the management port's. -/
theorem isValidNodeIP_rejects_local_and_mgmt (env : Env) (c : addressManager) (addr : IP)
    (linkIndex : Int)
    (h : addr = .nil ∨ addr.IsLinkLocalUnicast = true ∨ addr.IsLoopback = true ∨
      ∃ mgmtPortAddress,
        env.MatchFirstIPNetFamily (env.IsIPv6 addr) env.mgmtPortGetAddresses = some mgmtPortAddress
          ∧ addr.Equal mgmtPortAddress.IP = true) :
    isValidNodeIP env c addr linkIndex = false := by
  unfold isValidNodeIP
  rcases h with h | h | h | ⟨m, hm, he⟩
  · simp [h]
  · simp [h]
  · simp [h]
  · simp [hm, he]

/-- Witness of `isValidNodeIP_rejects_local_and_mgmt`: the nil address,
`169.254.0.5`, `127.0.0.1`, `::1`, `fe80::1` and the management port's
`10.244.0.2` are rejected on the plain host. -/
theorem isValidNodeIP_rejects_local_and_mgmt_witness :
    isValidNodeIP plainEnv mgr10 .nil 2 = false ∧
    isValidNodeIP plainEnv mgr10 (.bytes [169, 254, 0, 5]) 2 = false ∧
    isValidNodeIP plainEnv mgr10 (.bytes [127, 0, 0, 1]) 2 = false ∧
    isValidNodeIP plainEnv mgr10 IPv6loopback 2 = false ∧
    isValidNodeIP plainEnv mgr10
      (.bytes [0xfe, 0x80, 0, 0, 0, 0, 0, 0, 0, 0, 0, 0, 0, 0, 0, 1]) 2 = false ∧
    isValidNodeIP plainEnv mgr10 (.bytes [10, 244, 0, 2]) 2 = false :=
  ⟨isValidNodeIP_rejects_local_and_mgmt plainEnv mgr10 _ 2 (Or.inl rfl),
    isValidNodeIP_rejects_local_and_mgmt plainEnv mgr10 _ 2 (Or.inr (Or.inl (by decide))),
    isValidNodeIP_rejects_local_and_mgmt plainEnv mgr10 _ 2 (Or.inr (Or.inr (Or.inl (by decide)))),
    isValidNodeIP_rejects_local_and_mgmt plainEnv mgr10 _ 2 (Or.inr (Or.inr (Or.inl (by decide)))),
    isValidNodeIP_rejects_local_and_mgmt plainEnv mgr10 _ 2 (Or.inr (Or.inl (by decide))),
    isValidNodeIP_rejects_local_and_mgmt plainEnv mgr10 _ 2
      (Or.inr (Or.inr (Or.inr ⟨⟨.bytes [10, 244, 0, 2], [255, 255, 255, 0]⟩, by decide, by decide⟩)))⟩

/-- C9, as stated, fails: with the egress-IP feature on but network
segmentation off, `10.0.0.5` is accepted although the synced cache of the
gateway bridge holds it and the bridge egress-IPs annotation lists it. -/
theorem isValidNodeIP_primary_egress_counterexample :
    egressEnv.EnableEgressIP = true ∧
    (∃ eipMarkIPs, egressEnv.GetEIPMarkIPs = some eipMarkIPs ∧ eipMarkIPs.HasSyncdOnce = true
      ∧ eipMarkIPs.IsIPPresent ip5 = true) ∧
    (∃ node eipAddrs, egressEnv.GetNode mgr10.nodeName = .ok node
      ∧ node.ParseNodeBridgeEgressIPsAnnotation = .ok eipAddrs ∧ ip5.String ∈ eipAddrs) ∧
    isValidNodeIP egressEnv mgr10 ip5 2 = true :=
  ⟨rfl, ⟨egressCache, rfl, by decide⟩, ⟨egressNode, ["10.0.0.5"], rfl, rfl, by decide⟩, by decide⟩

/-- C9, amended: when the egress-IP feature, network-segmentation support and
interconnect are enabled and the gateway mode is not disabled,
`isValidNodeIP` is false for every address that the gateway bridge's cache,
having completed a sync, reports as present, and for every address whose
string the node's bridge egress-IPs annotation lists. -/
theorem isValidNodeIP_rejects_primary_egress (env : Env) (c : addressManager) (addr : IP)
    (linkIndex : Int) (hEgress : env.EnableEgressIP = true)
    (hSeg : env.IsNetworkSegmentationSupportEnabled = true)
    (hIC : env.EnableInterconnect = true) (hGw : env.GatewayModeDisabled = false)
    (h : (∃ eipMarkIPs, env.GetEIPMarkIPs = some eipMarkIPs ∧ eipMarkIPs.HasSyncdOnce = true
        ∧ eipMarkIPs.IsIPPresent addr = true) ∨
      (∃ node eipAddrs, env.GetNode c.nodeName = .ok node
        ∧ node.ParseNodeBridgeEgressIPsAnnotation = .ok eipAddrs ∧ addr.String ∈ eipAddrs)) :
    isValidNodeIP env c addr linkIndex = false := by
  unfold isValidNodeIP
  rcases h with ⟨m, hm, hs, hp⟩ | ⟨node, l, hn, hl, hmem⟩
  · simp [hEgress, hSeg, hIC, hGw, hm, hs, hp]
  · have hprim : getPrimaryHostEgressIPs env c = .ok l.toFinset := by
      simp [getPrimaryHostEgressIPs, hn, hl]
    simp [hEgress, hSeg, hIC, hGw, hprim, hmem]

/-- Witness of `isValidNodeIP_rejects_primary_egress`: with network
segmentation on, `10.0.0.5` is rejected through the cache, and also through
the annotation when the bridge has no cache. -/
theorem isValidNodeIP_rejects_primary_egress_witness :
    isValidNodeIP egressSegEnv mgr10 ip5 2 = false ∧
    isValidNodeIP { egressSegEnv with GetEIPMarkIPs := none } mgr10 ip5 2 = false :=
  ⟨isValidNodeIP_rejects_primary_egress egressSegEnv mgr10 ip5 2 rfl rfl rfl rfl
      (Or.inl ⟨egressCache, rfl, rfl, by decide⟩),
    isValidNodeIP_rejects_primary_egress { egressSegEnv with GetEIPMarkIPs := none } mgr10 ip5 2
      rfl rfl rfl rfl (Or.inr ⟨egressNode, ["10.0.0.5"], rfl, rfl, by decide⟩)⟩

/-- An address that passes checks 1 to 6 is accepted when the egress-IP
feature is disabled. -/
theorem isValidNodeIP_of_checks_egress_off (env : Env) (c : addressManager) (addr : IP)
    (linkIndex : Int) (hEgress : env.EnableEgressIP = false)
    (h1 : addr ≠ .nil) (h2 : addr.IsLinkLocalUnicast = false) (h3 : addr.IsLoopback = false)
    (h4 : ∀ mgmtPortAddress,
      env.MatchFirstIPNetFamily (env.IsIPv6 addr) env.mgmtPortGetAddresses = some mgmtPortAddress →
        addr.Equal mgmtPortAddress.IP = false)
    (h5 : env.IsNetworkSegmentationSupportEnabled = true → ∀ mpLink,
      env.LinkByIndex linkIndex = .ok mpLink →
        HasPrefix mpLink.Name env.K8sMgmtIntfNamePrefix = false)
    (h6 : env.IsAddressReservedForInternalUse addr = false) :
    isValidNodeIP env c addr linkIndex = true := by
  have hmgmt : (match env.MatchFirstIPNetFamily (env.IsIPv6 addr) env.mgmtPortGetAddresses with
      | some mgmtPortAddress => addr.Equal mgmtPortAddress.IP
      | none => false) = false := by
    cases hm : env.MatchFirstIPNetFamily (env.IsIPv6 addr) env.mgmtPortGetAddresses with
    | none => rfl
    | some m => exact h4 m hm
  have hlink : (env.IsNetworkSegmentationSupportEnabled &&
      (match env.LinkByIndex linkIndex with
        | .error _ => false
        | .ok mpLink => HasPrefix mpLink.Name env.K8sMgmtIntfNamePrefix)) = false := by
    cases hs : env.IsNetworkSegmentationSupportEnabled with
    | false => rfl
    | true =>
      cases hl : env.LinkByIndex linkIndex with
      | error e => rfl
      | ok l => simpa using h5 hs l hl
  unfold isValidNodeIP
  simp only [hmgmt, hlink, h1, h2, h3, h6, hEgress]
  simp

/-- An address that passes checks 1 to 6 and the primary egress check, and is
listed in the secondary-host egress-IPs annotation on a platform that is not
an egress-IP cloud provider, is rejected when the egress-IP feature is enabled. -/
theorem isValidNodeIP_of_secondary_egress_on (env : Env) (c : addressManager) (addr : IP)
    (linkIndex : Int) (hEgress : env.EnableEgressIP = true)
    (hSecondary : ∃ node eipAddrs, env.GetNode c.nodeName = .ok node
      ∧ node.ParseNodeSecondaryHostEgressIPsAnnotation = .ok eipAddrs ∧ addr.String ∈ eipAddrs)
    (hCloud : env.PlatformTypeIsEgressIPCloudProvider = false) :
    isValidNodeIP env c addr linkIndex = false := by
  obtain ⟨node, eips, hn, hl, hmem⟩ := hSecondary
  have hsec : getSecondaryHostEgressIPs env c = .ok eips := by
    simp [getSecondaryHostEgressIPs, hn, hl]
  unfold isValidNodeIP
  simp only [hsec, hCloud, hEgress]
  simp [hmem]

/-- C10: an address that passes checks 1 to 6, is not claimed as an egress IP
of the primary interface (neither by the synced cache nor by the bridge
annotation) and is listed in the secondary-host egress-IPs annotation, on a
platform that is not an egress-IP cloud provider, is rejected by
`isValidNodeIP` with the egress-IP feature enabled and accepted with the
feature disabled, everything else being the same. -/
theorem isValidNodeIP_secondary_egress (env : Env) (c : addressManager) (addr : IP)
    (linkIndex : Int)
    (h1 : addr ≠ .nil) (h2 : addr.IsLinkLocalUnicast = false) (h3 : addr.IsLoopback = false)
    (h4 : ∀ mgmtPortAddress,
      env.MatchFirstIPNetFamily (env.IsIPv6 addr) env.mgmtPortGetAddresses = some mgmtPortAddress →
        addr.Equal mgmtPortAddress.IP = false)
    (h5 : env.IsNetworkSegmentationSupportEnabled = true → ∀ mpLink,
      env.LinkByIndex linkIndex = .ok mpLink →
        HasPrefix mpLink.Name env.K8sMgmtIntfNamePrefix = false)
    (h6 : env.IsAddressReservedForInternalUse addr = false)
    (_hCache : ∀ eipMarkIPs, env.GetEIPMarkIPs = some eipMarkIPs →
      (eipMarkIPs.HasSyncdOnce && eipMarkIPs.IsIPPresent addr) = false)
    (_hPrimary : ∀ node eipAddrs, env.GetNode c.nodeName = .ok node →
      node.ParseNodeBridgeEgressIPsAnnotation = .ok eipAddrs → addr.String ∉ eipAddrs)
    (hSecondary : ∃ node eipAddrs, env.GetNode c.nodeName = .ok node
      ∧ node.ParseNodeSecondaryHostEgressIPsAnnotation = .ok eipAddrs ∧ addr.String ∈ eipAddrs)
    (hCloud : env.PlatformTypeIsEgressIPCloudProvider = false) :
    isValidNodeIP { env with EnableEgressIP := true } c addr linkIndex = false ∧
    isValidNodeIP { env with EnableEgressIP := false } c addr linkIndex = true :=
  ⟨isValidNodeIP_of_secondary_egress_on { env with EnableEgressIP := true } c addr linkIndex rfl
      hSecondary hCloud,
    isValidNodeIP_of_checks_egress_off { env with EnableEgressIP := false } c addr linkIndex rfl
      h1 h2 h3 h4 h5 h6⟩

/-- Witness of `isValidNodeIP_secondary_egress`: `10.0.0.5`, listed in the
secondary-host egress-IPs annotation of the node. -/
theorem isValidNodeIP_secondary_egress_witness :
    isValidNodeIP { secondaryEnv with EnableEgressIP := true } mgr10 ip5 2 = false ∧
    isValidNodeIP { secondaryEnv with EnableEgressIP := false } mgr10 ip5 2 = true :=
  isValidNodeIP_secondary_egress secondaryEnv mgr10 ip5 2 (by decide) (by decide) (by decide)
    (by intro m hm; cases hm; decide) (by intro h; cases h) rfl
    (by intro m hm; cases hm) (by intro node l hn hl; cases hn; cases hl)
    ⟨_, {"10.0.0.5"}, rfl, rfl, by decide⟩ rfl

/-! ### The full sync -/

/-- Reconfiguring the tunnel endpoint does not touch the manager. -/
theorem updateOVNEncapIPAndReconnect_mgr (env : Env) (s : State) (newIP : IP) :
    (updateOVNEncapIPAndReconnect env s newIP).mgr = s.mgr := by
  unfold updateOVNEncapIPAndReconnect
  simp only [State.emit]
  repeat' split
  all_goals rfl

/-- The primary-address check changes at most the stored primary address. -/
theorem nodePrimaryAddrChanged_fields (env : Env) (c : addressManager) :
    (nodePrimaryAddrChanged env c).2.cidrs = c.cidrs ∧
    (nodePrimaryAddrChanged env c).2.nodeName = c.nodeName ∧
    (nodePrimaryAddrChanged env c).2.useNetlink = c.useNetlink := by
  unfold nodePrimaryAddrChanged
  split
  · exact ⟨rfl, rfl, rfl⟩
  · split
    · exact ⟨rfl, rfl, rfl⟩
    · dsimp only
      split_ifs <;> exact ⟨rfl, rfl, rfl⟩

/-- Handling a primary-address change keeps the stored set, the node name and
the netlink switch. -/
theorem handleNodePrimaryAddrChange_fields (env : Env) (s : State) :
    (handleNodePrimaryAddrChange env s).mgr.cidrs = s.mgr.cidrs ∧
    (handleNodePrimaryAddrChange env s).mgr.nodeName = s.mgr.nodeName ∧
    (handleNodePrimaryAddrChange env s).mgr.useNetlink = s.mgr.useNetlink := by
  have h := nodePrimaryAddrChanged_fields env s.mgr
  unfold handleNodePrimaryAddrChange
  dsimp only
  cases (nodePrimaryAddrChanged env s.mgr).1.2 with
  | some e => exact h
  | none =>
    dsimp only
    split_ifs
    · rw [updateOVNEncapIPAndReconnect_mgr]; exact h
    · exact h

/-- Queueing and committing the annotations does not touch the manager. -/
theorem updateNodeAddressAnnotationsWith_mgr (env : Env) (s : State) (node : Node)
    (ifAddrs : List IPNet) :
    (updateNodeAddressAnnotationsWith env s node ifAddrs).2.mgr = s.mgr := by
  unfold updateNodeAddressAnnotationsWith updateHostCIDRs
  simp only [State.emit]
  repeat' split
  all_goals rfl

/-- Updating the node address annotations does not touch the manager. -/
theorem updateNodeAddressAnnotations_mgr (env : Env) (s : State) :
    (updateNodeAddressAnnotations env s).2.mgr = s.mgr := by
  unfold updateNodeAddressAnnotations
  split
  · rfl
  · split_ifs
    · dsimp only
      split
      · rfl
      · rw [updateNodeAddressAnnotationsWith_mgr]; rfl
    · rw [updateNodeAddressAnnotationsWith_mgr]



/-- The loop over the addresses adds to `currAddresses` the strings of the
addresses that the filter accepts. -/
theorem syncCurrAddresses_eq (env : Env) (c : addressManager) (addrs : List Addr) :
    ∀ currAddresses : Finset String,
      syncCurrAddresses env c addrs currAddresses = currAddresses ∪
        ((addrs.filter (fun a => isValidNodeIP env c a.IP a.LinkIndex)).map
          (fun a => ({ IP := a.IP, Mask := a.Mask } : IPNet).String)).toFinset := by
  induction addrs with
  | nil => intro cur; simp [syncCurrAddresses]
  | cons a rest ih =>
    intro cur
    unfold syncCurrAddresses
    by_cases hv : isValidNodeIP env c a.IP a.LinkIndex = true
    · simp only [hv, Bool.not_true, Bool.false_eq_true, if_false, ih, List.filter_cons, if_true,
        List.map_cons, List.toFinset_cons]
      ext x
      simp only [Finset.mem_union, Finset.mem_insert]
      tauto
    · simp only [Bool.not_eq_true] at hv
      simp [hv, ih]

/-- If the addresses of every link are listed, the loop over the links returns
them all, in order, after the ones gathered before. -/
theorem syncAddrList_ok (env : Env) (found : Link → List Addr) :
    ∀ (links : List Link) (addrs : List Addr),
      (∀ link ∈ links, env.AddrList link (getSupportedIPFamily env) = .ok (found link)) →
      syncAddrList env links addrs = .ok (addrs ++ links.flatMap found) := by
  intro links
  induction links with
  | nil => intro addrs _; simp [syncAddrList]
  | cons l rest ih =>
    intro addrs h
    unfold syncAddrList
    rw [h l (List.mem_cons_self _ _)]
    dsimp only
    rw [ih _ (fun link hl => h link (List.mem_cons_of_mem _ hl))]
    simp

/-- When the manager uses netlink, the links are listed and the addresses of
every link are listed, `sync` enumerates the addresses of the links in order. -/
theorem syncEnumerate_of_listed (env : Env) (c : addressManager) (links : List Link)
    (found : Link → List Addr) (hNetlink : c.useNetlink = true)
    (hLinks : env.LinkList = .ok links)
    (hAddrs : ∀ link ∈ links, env.AddrList link (getSupportedIPFamily env) = .ok (found link)) :
    syncEnumerate env c = .ok (links.flatMap found) := by
  unfold syncEnumerate
  simp only [hNetlink, if_true, hLinks]
  rw [syncAddrList_ok env found links [] hAddrs]
  simp

/-- If the addresses of one link cannot be listed, the loop over the links fails. -/
theorem syncAddrList_error (env : Env) :
    ∀ (links : List Link) (addrs : List Addr),
      (∃ link ∈ links, ∃ err, env.AddrList link (getSupportedIPFamily env) = .error err) →
      ∃ err, syncAddrList env links addrs = .error err := by
  intro links
  induction links with
  | nil => intro addrs h; obtain ⟨l, hl, _⟩ := h; cases hl
  | cons l rest ih =>
    intro addrs h
    unfold syncAddrList
    cases hl : env.AddrList l (getSupportedIPFamily env) with
    | error e => exact ⟨e, rfl⟩
    | ok foundAddrs =>
      dsimp only
      apply ih
      obtain ⟨l2, hl2, e, he⟩ := h
      rcases List.mem_cons.mp hl2 with rfl | hmem
      · rw [hl] at he; cases he
      · exact ⟨l2, hmem, e, he⟩

/-- Outside DPU mode and after a successful enumeration, `sync` stores the
candidate set, computes `addrChanged` as its difference from the old set, and
keeps the node name and the netlink switch. -/
theorem sync_of_enumerated (env : Env) (s : State) (addrs : List Addr)
    (hDPU : env.NodeModeDPU = false) (hEnum : syncEnumerate env s.mgr = .ok addrs) :
    (sync env s).1 = some (decide (syncCurrAddresses env s.mgr addrs ∅ ≠ s.mgr.cidrs)) ∧
    (sync env s).2.mgr.cidrs = syncCurrAddresses env s.mgr addrs ∅ ∧
    (sync env s).2.mgr.nodeName = s.mgr.nodeName ∧
    (sync env s).2.mgr.useNetlink = s.mgr.useNetlink := by
  unfold sync
  simp only [hDPU, Bool.false_eq_true, if_false, hEnum]
  have hA : (assignCIDRs s.mgr (syncCurrAddresses env s.mgr addrs ∅)).1
      = decide (syncCurrAddresses env s.mgr addrs ∅ ≠ s.mgr.cidrs) := by
    unfold assignCIDRs; split_ifs with h <;> simp [h]
  have hB : (assignCIDRs s.mgr (syncCurrAddresses env s.mgr addrs ∅)).2.cidrs
      = syncCurrAddresses env s.mgr addrs ∅ := by
    unfold assignCIDRs; split_ifs with h <;> simp [h]
  have hC : (assignCIDRs s.mgr (syncCurrAddresses env s.mgr addrs ∅)).2.nodeName
      = s.mgr.nodeName := by
    unfold assignCIDRs; split_ifs <;> rfl
  have hD : (assignCIDRs s.mgr (syncCurrAddresses env s.mgr addrs ∅)).2.useNetlink
      = s.mgr.useNetlink := by
    unfold assignCIDRs; split_ifs <;> rfl
  have hH := handleNodePrimaryAddrChange_fields env
    { s with mgr := (assignCIDRs s.mgr (syncCurrAddresses env s.mgr addrs ∅)).2 }
  split_ifs
  · simp only [State.emit, updateNodeAddressAnnotations_mgr]
    exact ⟨by rw [hA], hH.1.trans hB, hH.2.1.trans hC, hH.2.2.trans hD⟩
  · exact ⟨by rw [hA], hH.1.trans hB, hH.2.1.trans hC, hH.2.2.trans hD⟩

/-- In DPU mode, or when the enumeration fails, `sync` returns the state it got. -/
theorem sync_of_not_enumerated (env : Env) (s : State)
    (h : env.NodeModeDPU = true ∨ ∃ err, syncEnumerate env s.mgr = .error err) :
    sync env s = (none, s) := by
  unfold sync
  rcases h with h | ⟨e, h⟩
  · simp [h]
  · simp only [h]; split_ifs <;> rfl



/-- The enumeration reads the manager only for its netlink switch. -/
theorem syncEnumerate_congr (env : Env) (c c2 : addressManager)
    (h : c2.useNetlink = c.useNetlink) : syncEnumerate env c2 = syncEnumerate env c := by
  simp only [syncEnumerate, h]

/-- The loop over the addresses reads the manager only for the name of its node. -/
theorem syncCurrAddresses_congr (env : Env) (c c2 : addressManager)
    (h : c2.nodeName = c.nodeName) (addrs : List Addr) (currAddresses : Finset String) :
    syncCurrAddresses env c2 addrs currAddresses = syncCurrAddresses env c addrs currAddresses := by
  rw [syncCurrAddresses_eq, syncCurrAddresses_eq]
  simp only [isValidNodeIP_congr env c c2 h]

/-- One call keeps the name of the node and the netlink switch, and every
string it stores comes from an arrival of the call that the filter accepts. -/
theorem step_accepted (env : Env) (c0 : addressManager) (Q : String → Prop) (op : Op)
    (s : State) (hn : s.mgr.nodeName = c0.nodeName) (hu : s.mgr.useNetlink = c0.useNetlink)
    (hQ : ∀ a ∈ op.arrivals env c0, isValidNodeIP env c0 a.1.IP a.2 = true → Q a.1.String)
    (hs : ∀ str ∈ s.mgr.cidrs, Q str) :
    (op.step env s).mgr.nodeName = c0.nodeName ∧
    (op.step env s).mgr.useNetlink = c0.useNetlink ∧
    ∀ str ∈ (op.step env s).mgr.cidrs, Q str := by
  cases op with
  | addAddr ipnet linkIndex =>
    simp only [Op.step, addAddr]
    split_ifs with h
    · refine ⟨hn, hu, ?_⟩
      intro str hstr
      rcases Finset.mem_insert.mp hstr with rfl | hold
      · apply hQ (ipnet, linkIndex) (by simp [Op.arrivals])
        rw [← isValidNodeIP_congr env c0 s.mgr hn]
        exact h.2
      · exact hs str hold
    · exact ⟨hn, hu, hs⟩
  | delAddr ipnet linkIndex =>
    simp only [Op.step, delAddr]
    split_ifs with h
    · exact ⟨hn, hu, fun str hstr => hs str (Finset.mem_of_mem_erase hstr)⟩
    · exact ⟨hn, hu, hs⟩
  | sync links addrs =>
    simp only [Op.step]
    by_cases hDPU : env.NodeModeDPU = true
    · rw [sync_of_not_enumerated (env.withNetlink links addrs) s (Or.inl hDPU)]
      exact ⟨hn, hu, hs⟩
    · cases hEnum : syncEnumerate (env.withNetlink links addrs) s.mgr with
      | error err =>
        rw [sync_of_not_enumerated (env.withNetlink links addrs) s (Or.inr ⟨err, hEnum⟩)]
        exact ⟨hn, hu, hs⟩
      | ok found =>
        have hDPU2 : (env.withNetlink links addrs).NodeModeDPU = false := by
          simpa [Env.withNetlink] using hDPU
        obtain ⟨_, hc, hn2, hu2⟩ := sync_of_enumerated _ s found hDPU2 hEnum
        refine ⟨hn2.trans hn, hu2.trans hu, ?_⟩
        intro str hstr
        rw [hc, syncCurrAddresses_eq] at hstr
        simp only [Finset.empty_union, List.mem_toFinset, List.mem_map, List.mem_filter] at hstr
        obtain ⟨a, ⟨ha, hv⟩, rfl⟩ := hstr
        have harr : (({ IP := a.IP, Mask := a.Mask } : IPNet), a.LinkIndex)
            ∈ (Op.sync links addrs).arrivals env c0 := by
          simp only [Op.arrivals]
          rw [← syncEnumerate_congr _ c0 s.mgr hu, hEnum]
          exact List.mem_map.mpr ⟨a, ha, rfl⟩
        apply hQ _ harr
        rw [← isValidNodeIP_congr env c0 s.mgr hn, ← isValidNodeIP_withNetlink env links addrs]
        exact hv

/-- A sequence of calls stores only strings that come from an accepted arrival. -/
theorem runOps_accepted (env : Env) (c0 : addressManager) (Q : String → Prop) :
    ∀ (ops : List Op) (s : State), s.mgr.nodeName = c0.nodeName →
      s.mgr.useNetlink = c0.useNetlink →
      (∀ op ∈ ops, ∀ a ∈ op.arrivals env c0,
        isValidNodeIP env c0 a.1.IP a.2 = true → Q a.1.String) →
      (∀ str ∈ s.mgr.cidrs, Q str) →
      ∀ str ∈ (runOps env s ops).mgr.cidrs, Q str := by
  intro ops
  induction ops with
  | nil => intro s _ _ _ hs; exact hs
  | cons op rest ih =>
    intro s hn hu hQ hs
    obtain ⟨hn2, hu2, hs2⟩ := step_accepted env c0 Q op s hn hu
      (hQ op (List.mem_cons_self _ _)) hs
    exact ih (op.step env s) hn2 hu2 (fun o ho => hQ o (List.mem_cons_of_mem _ ho)) hs2

/-- C4: with the exclusion context fixed, after any sequence of `addAddr`,
`delAddr` and `sync` calls on the manager the constructor creates, every
stored string is the string of a CIDR that one of the calls brought (by
`addAddr`, or enumerated by a `sync`) and whose IP `isValidNodeIP` accepts for
the link index it came with; so a string none of whose arrivals is accepted is
never stored. -/
theorem cidrs_only_accepted (env : Env) (nodeName : String) (useNetlink : Bool)
    (encapIP : String) (ops : List Op) (str : String) :
    (str ∈ (runOps env (initialState nodeName useNetlink encapIP) ops).mgr.cidrs →
      ∃ op ∈ ops, ∃ a ∈ op.arrivals env (emptyAddressManager nodeName useNetlink),
        a.1.String = str ∧
          isValidNodeIP env (emptyAddressManager nodeName useNetlink) a.1.IP a.2 = true) ∧
    ((∀ op ∈ ops, ∀ a ∈ op.arrivals env (emptyAddressManager nodeName useNetlink),
        a.1.String = str →
          isValidNodeIP env (emptyAddressManager nodeName useNetlink) a.1.IP a.2 = false) →
      str ∉ (runOps env (initialState nodeName useNetlink encapIP) ops).mgr.cidrs) := by
  have key := runOps_accepted env (emptyAddressManager nodeName useNetlink)
    (fun x => ∃ op ∈ ops, ∃ a ∈ op.arrivals env (emptyAddressManager nodeName useNetlink),
      a.1.String = x ∧
        isValidNodeIP env (emptyAddressManager nodeName useNetlink) a.1.IP a.2 = true)
    ops (initialState nodeName useNetlink encapIP) rfl rfl
    (fun op hop a ha hv => ⟨op, hop, a, ha, rfl, hv⟩)
    (fun x hx => absurd hx (Finset.not_mem_empty x))
  refine ⟨key str, ?_⟩
  intro hrej hmem
  obtain ⟨op, hop, a, ha, hstr, hv⟩ := key str hmem
  rw [hrej op hop a ha hstr] at hv
  cases hv

/-- Witness of `cidrs_only_accepted`: after the run `hostOps` the manager
stores `192.168.1.7/24`, which an accepted arrival brought, and it does not
store `127.0.0.1/8`, whose two arrivals (by sync and by add) are rejected. -/
theorem cidrs_only_accepted_witness :
    "192.168.1.7/24" ∈ (runOps plainEnv (initialState "node1" true "") hostOps).mgr.cidrs ∧
    (∃ op ∈ hostOps, ∃ a ∈ op.arrivals plainEnv (emptyAddressManager "node1" true),
        a.1.String = "192.168.1.7/24" ∧
          isValidNodeIP plainEnv (emptyAddressManager "node1" true) a.1.IP a.2 = true) ∧
    "127.0.0.1/8" ∉ (runOps plainEnv (initialState "node1" true "") hostOps).mgr.cidrs :=
  ⟨by decide,
    (cidrs_only_accepted plainEnv "node1" true "" hostOps "192.168.1.7/24").1 (by decide),
    (cidrs_only_accepted plainEnv "node1" true "" hostOps "127.0.0.1/8").2 (by decide)⟩

/-- C5: `assignCIDRs` returns false and leaves the manager unchanged exactly
when the given set has the members of the stored set, and else stores the
given set and returns true; so after `assignCIDRs A` a call `assignCIDRs B`
with `B` of the same members as `A` returns false; and a second `sync` over the
same enumerated addresses and the same context computes `addrChanged = false`. -/
theorem assignCIDRs_spec (c : addressManager) (A B : Finset String) (env : Env) (s : State) :
    ((assignCIDRs c B).1 = false ↔ ∀ x, x ∈ B ↔ x ∈ c.cidrs) ∧
    ((assignCIDRs c B).1 = false → (assignCIDRs c B).2 = c) ∧
    ((assignCIDRs c B).1 = true → (assignCIDRs c B).2 = { c with cidrs := B }) ∧
    ((∀ x, x ∈ A ↔ x ∈ B) → (assignCIDRs (assignCIDRs c A).2 B).1 = false) ∧
    (env.NodeModeDPU = false → ∀ addrs, syncEnumerate env s.mgr = .ok addrs →
      (sync env (sync env s).2).1 = some false ∧
      (sync env (sync env s).2).2.mgr.cidrs = (sync env s).2.mgr.cidrs) := by
  refine ⟨?_, ?_, ?_, ?_, ?_⟩
  · unfold assignCIDRs
    split_ifs with h
    · simp [h]
    · simpa using fun hx => h (Finset.ext hx)
  · unfold assignCIDRs
    split_ifs with h <;> simp
  · unfold assignCIDRs
    split_ifs with h <;> simp
  · intro hAB
    have hEq : A = B := Finset.ext hAB
    subst hEq
    by_cases h1 : A = c.cidrs
    · simp [assignCIDRs, h1]
    · simp [assignCIDRs, h1]
  · intro hDPU addrs hEnum
    obtain ⟨_, hc, hn, hu⟩ := sync_of_enumerated env s addrs hDPU hEnum
    have hEnum2 : syncEnumerate env (sync env s).2.mgr = .ok addrs := by
      rw [syncEnumerate_congr env s.mgr _ hu]; exact hEnum
    obtain ⟨h1, hc2, _, _⟩ := sync_of_enumerated env (sync env s).2 addrs hDPU hEnum2
    have hsame : syncCurrAddresses env (sync env s).2.mgr addrs ∅ = (sync env s).2.mgr.cidrs := by
      rw [syncCurrAddresses_congr env s.mgr _ hn, hc]
    rw [h1, hc2, hsame]
    simp

/-- Witness of `assignCIDRs_spec`: assigning `10.0.0.1/24` twice, and two
syncs of the host `hostEnv`, report no change the second time. -/
theorem assignCIDRs_spec_witness :
    (assignCIDRs mgr192 {"10.0.0.1/24"}).1 = true ∧
    (assignCIDRs (assignCIDRs mgr192 {"10.0.0.1/24"}).2 {"10.0.0.1/24"}).1 = false ∧
    (sync hostEnv state192).1 = some true ∧
    (sync hostEnv (sync hostEnv state192).2).1 = some false :=
  ⟨by decide,
    (assignCIDRs_spec mgr192 {"10.0.0.1/24"} {"10.0.0.1/24"} hostEnv state192).2.2.2.1
      (fun _ => Iff.rfl),
    by decide,
    ((assignCIDRs_spec mgr192 ∅ ∅ hostEnv state192).2.2.2.2 rfl _ rfl).1⟩

/-- C6: when the node is not in DPU mode and the enumeration succeeds, after
`sync` the stored set is exactly the set of the strings of the enumerated
addresses that `isValidNodeIP` accepts, whatever was stored before; a stored
string that is the string of no enumerated address is no longer stored. -/
theorem sync_replaces_cidrs (env : Env) (s : State) (addrs : List Addr)
    (hDPU : env.NodeModeDPU = false) (hEnum : syncEnumerate env s.mgr = .ok addrs) :
    (sync env s).2.mgr.cidrs =
      ((addrs.filter (fun a => isValidNodeIP env s.mgr a.IP a.LinkIndex)).map
        (fun a => ({ IP := a.IP, Mask := a.Mask } : IPNet).String)).toFinset ∧
    ∀ str ∈ s.mgr.cidrs,
      (∀ a ∈ addrs, ({ IP := a.IP, Mask := a.Mask } : IPNet).String ≠ str) →
        str ∉ (sync env s).2.mgr.cidrs := by
  obtain ⟨_, hc, _, _⟩ := sync_of_enumerated env s addrs hDPU hEnum
  rw [hc, syncCurrAddresses_eq, Finset.empty_union]
  refine ⟨rfl, ?_⟩
  intro str _ hne hmem
  simp only [List.mem_toFinset, List.mem_map, List.mem_filter] at hmem
  obtain ⟨a, ⟨ha, _⟩, hstr⟩ := hmem
  exact hne a ha hstr

/-- Witness of `sync_replaces_cidrs`: on the host `hostEnv` a manager that
stored `192.168.1.7/24` stores exactly `10.0.0.1/24` after `sync`. -/
theorem sync_replaces_cidrs_witness :
    (sync hostEnv state192).2.mgr.cidrs = {"10.0.0.1/24"} ∧
    "192.168.1.7/24" ∈ state192.mgr.cidrs ∧
    "192.168.1.7/24" ∉ (sync hostEnv state192).2.mgr.cidrs :=
  ⟨(sync_replaces_cidrs hostEnv state192 _ rfl
      (syncEnumerate_of_listed hostEnv mgr192 [linkLo, linkEth0, linkMp0] hostAddrs rfl rfl
        (fun _ _ => rfl))).1.trans (by decide),
    by decide,
    (sync_replaces_cidrs hostEnv state192 _ rfl
      (syncEnumerate_of_listed hostEnv mgr192 [linkLo, linkEth0, linkMp0] hostAddrs rfl rfl
        (fun _ _ => rfl))).2 "192.168.1.7/24" (by decide) (by decide)⟩

/-- C7: on a manager that uses netlink, if listing the links fails, or if
listing the addresses of one of the links fails, `sync` returns before
`addrChanged` is assigned and leaves the whole state as it was: the stored
set, the primary address, and the list of calls made (no annotation update,
no `OnChanged`). -/
theorem sync_listing_fails (env : Env) (s : State) (hNetlink : s.mgr.useNetlink = true)
    (hFail : (∃ err, env.LinkList = .error err) ∨
      ∃ links, env.LinkList = .ok links ∧
        ∃ link ∈ links, ∃ err, env.AddrList link (getSupportedIPFamily env) = .error err) :
    sync env s = (none, s) ∧
    (sync env s).2.mgr.cidrs = s.mgr.cidrs ∧
    (sync env s).2.mgr.nodePrimaryAddr = s.mgr.nodePrimaryAddr ∧
    (sync env s).2.events = s.events := by
  have hEnum : ∃ err, syncEnumerate env s.mgr = .error err := by
    unfold syncEnumerate
    rcases hFail with ⟨e, he⟩ | ⟨links, hl, hex⟩
    · exact ⟨e, by simp [hNetlink, he]⟩
    · obtain ⟨e, he⟩ := syncAddrList_error env links [] hex
      exact ⟨e, by simp [hNetlink, hl, he]⟩
  have h := sync_of_not_enumerated env s (Or.inr hEnum)
  rw [h]
  exact ⟨rfl, rfl, rfl, rfl⟩

/-- Witness of `sync_listing_fails`: on `brokenEnv` the first two links are
listed and the third fails; and on a host whose links cannot be listed. -/
theorem sync_listing_fails_witness :
    sync brokenEnv state192 = (none, state192) ∧
    sync { hostEnv with LinkList := .error (.other "operation not permitted") } state192
      = (none, state192) :=
  ⟨(sync_listing_fails brokenEnv state192 rfl
      (Or.inr ⟨[linkLo, linkEth0, linkMp0], rfl, linkMp0, by decide, _, rfl⟩)).1,
    (sync_listing_fails { hostEnv with LinkList := .error (.other "operation not permitted") }
      state192 rfl (Or.inl ⟨_, rfl⟩)).1⟩

/-! ### The filter, check by check -/

/-- The filter accepts an address exactly when none of its checks rejects it. -/
theorem isValidNodeIP_eq_true_iff (env : Env) (c : addressManager) (addr : IP)
    (linkIndex : Int) :
    isValidNodeIP env c addr linkIndex = true ↔
      addr ≠ .nil ∧ addr.IsLinkLocalUnicast = false ∧ addr.IsLoopback = false ∧
      matchesMgmtPortAddress env addr = false ∧ onMgmtPortLink env linkIndex = false ∧
      env.IsAddressReservedForInternalUse addr = false ∧
      (env.EnableEgressIP = true →
        claimedPrimaryEgress env c addr = false ∧ claimedSecondaryEgress env c addr = false) := by
  have h : isValidNodeIP env c addr linkIndex =
      (if addr = .nil then false
      else if addr.IsLinkLocalUnicast then false
      else if addr.IsLoopback then false
      else if matchesMgmtPortAddress env addr then false
      else if onMgmtPortLink env linkIndex then false
      else if env.IsAddressReservedForInternalUse addr then false
      else if env.EnableEgressIP then
        if claimedPrimaryEgress env c addr then false
        else if claimedSecondaryEgress env c addr then false
        else true
      else true) := rfl
  rw [h]
  split_ifs <;> simp_all

/-- C11: with network segmentation on, `isValidNodeIP` is false for every
address whose link index resolves to a link whose name starts with the
management-interface name prefix; when the lookup of the link fails, an
address that passes all the other checks is accepted; with network
segmentation off the result is the same whatever the link lookup would answer. -/
theorem isValidNodeIP_mgmt_link (env : Env) (c : addressManager) (addr : IP)
    (linkIndex : Int) :
    (env.IsNetworkSegmentationSupportEnabled = true → ∀ mpLink,
      env.LinkByIndex linkIndex = .ok mpLink →
        HasPrefix mpLink.Name env.K8sMgmtIntfNamePrefix = true →
          isValidNodeIP env c addr linkIndex = false) ∧
    (∀ err, env.LinkByIndex linkIndex = .error err →
      addr ≠ .nil → addr.IsLinkLocalUnicast = false → addr.IsLoopback = false →
      matchesMgmtPortAddress env addr = false →
      env.IsAddressReservedForInternalUse addr = false →
      (env.EnableEgressIP = true →
        claimedPrimaryEgress env c addr = false ∧ claimedSecondaryEgress env c addr = false) →
          isValidNodeIP env c addr linkIndex = true) ∧
    (env.IsNetworkSegmentationSupportEnabled = false → ∀ lookup : Int → Except Error Link,
      isValidNodeIP { env with LinkByIndex := lookup } c addr linkIndex
        = isValidNodeIP env c addr linkIndex) := by
  refine ⟨?_, ?_, ?_⟩
  · intro hSeg mpLink hLink hName
    have hOn : onMgmtPortLink env linkIndex = true := by
      simp [onMgmtPortLink, hSeg, hLink, hName]
    cases hv : isValidNodeIP env c addr linkIndex with
    | false => rfl
    | true =>
      have h5 := ((isValidNodeIP_eq_true_iff env c addr linkIndex).mp hv).2.2.2.2.1
      rw [hOn] at h5
      cases h5
  · intro err hLink h1 h2 h3 h4 h6 h78
    have hOff : onMgmtPortLink env linkIndex = false := by
      simp [onMgmtPortLink, hLink]
    exact (isValidNodeIP_eq_true_iff env c addr linkIndex).mpr ⟨h1, h2, h3, h4, hOff, h6, h78⟩
  · intro hSeg lookup
    simp only [isValidNodeIP, getPrimaryHostEgressIPs, getSecondaryHostEgressIPs, hSeg,
      Bool.false_and]

/-- Witness of `isValidNodeIP_mgmt_link`: on the host with network
segmentation, `192.168.1.7` is rejected on link 3 (`ovn-k8s-mp0`) and accepted
on link 7, which cannot be looked up; on the plain host, without network
segmentation, it is accepted even if every index resolves to `ovn-k8s-mp0`. -/
theorem isValidNodeIP_mgmt_link_witness :
    isValidNodeIP segmentationEnv mgr10 net192.IP 3 = false ∧
    isValidNodeIP segmentationEnv mgr10 net192.IP 7 = true ∧
    isValidNodeIP { plainEnv with LinkByIndex := fun _ => .ok linkMp0 } mgr10 net192.IP 3 = true :=
  ⟨(isValidNodeIP_mgmt_link segmentationEnv mgr10 net192.IP 3).1 rfl linkMp0 rfl (by decide),
    (isValidNodeIP_mgmt_link segmentationEnv mgr10 net192.IP 7).2.1 _ rfl (by decide) (by decide)
      (by decide) (by decide) rfl (by intro h; cases h),
    ((isValidNodeIP_mgmt_link plainEnv mgr10 net192.IP 3).2.2 rfl (fun _ => .ok linkMp0)).trans
      (by decide)⟩

/-- The primary egress check does not reject when the cache does not hold the
address and the annotation cannot be read or parsed. -/
theorem claimedPrimaryEgress_of_failure (env : Env) (c : addressManager) (addr : IP)
    (hCache : ∀ eipMarkIPs, env.GetEIPMarkIPs = some eipMarkIPs →
      (eipMarkIPs.HasSyncdOnce && eipMarkIPs.IsIPPresent addr) = false)
    (hPrimary : (∃ err, env.GetNode c.nodeName = .error err) ∨
      ∃ node err, env.GetNode c.nodeName = .ok node
        ∧ node.ParseNodeBridgeEgressIPsAnnotation = .error err) :
    claimedPrimaryEgress env c addr = false := by
  have hc : (match env.GetEIPMarkIPs with
      | some eipMarkIPs => eipMarkIPs.HasSyncdOnce && eipMarkIPs.IsIPPresent addr
      | none => false) = false := by
    cases hm : env.GetEIPMarkIPs with
    | none => rfl
    | some m => exact hCache m hm
  have hp : (match getPrimaryHostEgressIPs env c with
      | .error _ => false
      | .ok eipAddresses => decide (addr.String ∈ eipAddresses)) = false := by
    unfold getPrimaryHostEgressIPs
    rcases hPrimary with ⟨e, he⟩ | ⟨node, e, hn, he⟩
    · simp [he]
    · cases e <;> simp [hn, he, IsAnnotationNotSetError]
  unfold claimedPrimaryEgress
  rw [hc, hp]
  simp

/-- The secondary egress check does not reject when the annotation cannot be
read or parsed. -/
theorem claimedSecondaryEgress_of_failure (env : Env) (c : addressManager) (addr : IP)
    (hSecondary : (∃ err, env.GetNode c.nodeName = .error err) ∨
      ∃ node err, env.GetNode c.nodeName = .ok node
        ∧ node.ParseNodeSecondaryHostEgressIPsAnnotation = .error err) :
    claimedSecondaryEgress env c addr = false := by
  have hp : (match getSecondaryHostEgressIPs env c with
      | .error _ => false
      | .ok eipAddresses => decide (addr.String ∈ eipAddresses)) = false := by
    unfold getSecondaryHostEgressIPs
    rcases hSecondary with ⟨e, he⟩ | ⟨node, e, hn, he⟩
    · simp [he]
    · cases e <;> simp [hn, he, IsAnnotationNotSetError]
  unfold claimedSecondaryEgress
  rw [hp]
  simp

/-- The secondary egress check does not reject an address that the
annotation, once parsed, does not list. -/
theorem claimedSecondaryEgress_of_absent (env : Env) (c : addressManager) (addr : IP)
    (h : ∃ node eipAddrs, env.GetNode c.nodeName = .ok node
      ∧ node.ParseNodeSecondaryHostEgressIPsAnnotation = .ok eipAddrs ∧ addr.String ∉ eipAddrs) :
    claimedSecondaryEgress env c addr = false := by
  obtain ⟨node, eips, hn, hl, hmem⟩ := h
  have hsec : getSecondaryHostEgressIPs env c = .ok eips := by
    simp [getSecondaryHostEgressIPs, hn, hl]
  unfold claimedSecondaryEgress
  simp [hsec, hmem]

/-- The primary egress check does not reject an address that the cache does
not hold and that the bridge annotation, once parsed, does not list. -/
theorem claimedPrimaryEgress_of_absent (env : Env) (c : addressManager) (addr : IP)
    (hCache : ∀ eipMarkIPs, env.GetEIPMarkIPs = some eipMarkIPs →
      (eipMarkIPs.HasSyncdOnce && eipMarkIPs.IsIPPresent addr) = false)
    (h : ∃ node eipAddrs, env.GetNode c.nodeName = .ok node
      ∧ node.ParseNodeBridgeEgressIPsAnnotation = .ok eipAddrs ∧ addr.String ∉ eipAddrs) :
    claimedPrimaryEgress env c addr = false := by
  obtain ⟨node, eips, hn, hl, hmem⟩ := h
  have hc : (match env.GetEIPMarkIPs with
      | some eipMarkIPs => eipMarkIPs.HasSyncdOnce && eipMarkIPs.IsIPPresent addr
      | none => false) = false := by
    cases hm : env.GetEIPMarkIPs with
    | none => rfl
    | some m => exact hCache m hm
  have hprim : getPrimaryHostEgressIPs env c = .ok eips.toFinset := by
    simp [getPrimaryHostEgressIPs, hn, hl]
  unfold claimedPrimaryEgress
  rw [hc, hprim]
  simp [hmem]

/-- The primary egress check rejects an address that the bridge annotation
lists, when the cache does not hold it and the guard of the check is open. -/
theorem claimedPrimaryEgress_of_listed (env : Env) (c : addressManager) (addr : IP)
    (hCache : ∀ eipMarkIPs, env.GetEIPMarkIPs = some eipMarkIPs →
      (eipMarkIPs.HasSyncdOnce && eipMarkIPs.IsIPPresent addr) = false)
    (hSeg : env.IsNetworkSegmentationSupportEnabled = true)
    (hIC : env.EnableInterconnect = true) (hGw : env.GatewayModeDisabled = false)
    (h : ∃ node eipAddrs, env.GetNode c.nodeName = .ok node
      ∧ node.ParseNodeBridgeEgressIPsAnnotation = .ok eipAddrs ∧ addr.String ∈ eipAddrs) :
    claimedPrimaryEgress env c addr = true := by
  obtain ⟨node, eips, hn, hl, hmem⟩ := h
  have hc : (match env.GetEIPMarkIPs with
      | some eipMarkIPs => eipMarkIPs.HasSyncdOnce && eipMarkIPs.IsIPPresent addr
      | none => false) = false := by
    cases hm : env.GetEIPMarkIPs with
    | none => rfl
    | some m => exact hCache m hm
  have hprim : getPrimaryHostEgressIPs env c = .ok eips.toFinset := by
    simp [getPrimaryHostEgressIPs, hn, hl]
  unfold claimedPrimaryEgress
  rw [hc, hprim]
  simp [hmem, hSeg, hIC, hGw]

/-- C12: for an address that passes checks 1 to 6 and that a synced cache of
the gateway bridge does not hold, a failure of an egress lookup never rejects
the address and the other check is still made.  When the bridge egress-IPs
annotation and the secondary-host egress-IPs annotation both cannot be read
or parsed, `isValidNodeIP` is true.  When the bridge annotation cannot be
read or parsed, the result is that of the secondary check: true when the
secondary annotation parses and does not list the address, false when it
lists it (egress-IP feature on, not a cloud provider).  When the secondary
annotation cannot be read or parsed, the result is that of the primary check:
true when the bridge annotation parses and does not list the address, false
when it lists it and the guard of the primary check is open. -/
theorem isValidNodeIP_egress_lookup_failure (env : Env) (c : addressManager) (addr : IP)
    (linkIndex : Int)
    (h1 : addr ≠ .nil) (h2 : addr.IsLinkLocalUnicast = false) (h3 : addr.IsLoopback = false)
    (h4 : matchesMgmtPortAddress env addr = false) (h5 : onMgmtPortLink env linkIndex = false)
    (h6 : env.IsAddressReservedForInternalUse addr = false)
    (hCache : ∀ eipMarkIPs, env.GetEIPMarkIPs = some eipMarkIPs →
      (eipMarkIPs.HasSyncdOnce && eipMarkIPs.IsIPPresent addr) = false) :
    (((∃ err, env.GetNode c.nodeName = .error err) ∨
        ∃ node err, env.GetNode c.nodeName = .ok node
          ∧ node.ParseNodeBridgeEgressIPsAnnotation = .error err) →
      ((∃ err, env.GetNode c.nodeName = .error err) ∨
        ∃ node err, env.GetNode c.nodeName = .ok node
          ∧ node.ParseNodeSecondaryHostEgressIPsAnnotation = .error err) →
      isValidNodeIP env c addr linkIndex = true) ∧
    (((∃ err, env.GetNode c.nodeName = .error err) ∨
        ∃ node err, env.GetNode c.nodeName = .ok node
          ∧ node.ParseNodeBridgeEgressIPsAnnotation = .error err) →
      (isValidNodeIP env c addr linkIndex = true ↔
        (env.EnableEgressIP = true → claimedSecondaryEgress env c addr = false)) ∧
      ((∃ node eipAddrs, env.GetNode c.nodeName = .ok node
          ∧ node.ParseNodeSecondaryHostEgressIPsAnnotation = .ok eipAddrs
          ∧ addr.String ∉ eipAddrs) →
        isValidNodeIP env c addr linkIndex = true) ∧
      (env.EnableEgressIP = true → env.PlatformTypeIsEgressIPCloudProvider = false →
        (∃ node eipAddrs, env.GetNode c.nodeName = .ok node
          ∧ node.ParseNodeSecondaryHostEgressIPsAnnotation = .ok eipAddrs
          ∧ addr.String ∈ eipAddrs) →
        isValidNodeIP env c addr linkIndex = false)) ∧
    (((∃ err, env.GetNode c.nodeName = .error err) ∨
        ∃ node err, env.GetNode c.nodeName = .ok node
          ∧ node.ParseNodeSecondaryHostEgressIPsAnnotation = .error err) →
      (isValidNodeIP env c addr linkIndex = true ↔
        (env.EnableEgressIP = true → claimedPrimaryEgress env c addr = false)) ∧
      ((∃ node eipAddrs, env.GetNode c.nodeName = .ok node
          ∧ node.ParseNodeBridgeEgressIPsAnnotation = .ok eipAddrs
          ∧ addr.String ∉ eipAddrs) →
        isValidNodeIP env c addr linkIndex = true) ∧
      (env.EnableEgressIP = true → env.IsNetworkSegmentationSupportEnabled = true →
        env.EnableInterconnect = true → env.GatewayModeDisabled = false →
        (∃ node eipAddrs, env.GetNode c.nodeName = .ok node
          ∧ node.ParseNodeBridgeEgressIPsAnnotation = .ok eipAddrs
          ∧ addr.String ∈ eipAddrs) →
        isValidNodeIP env c addr linkIndex = false)) := by
  have hiff := isValidNodeIP_eq_true_iff env c addr linkIndex
  refine ⟨?_, ?_, ?_⟩
  · intro hPrimary hSecondary
    exact hiff.mpr ⟨h1, h2, h3, h4, h5, h6, fun _ =>
      ⟨claimedPrimaryEgress_of_failure env c addr hCache hPrimary,
        claimedSecondaryEgress_of_failure env c addr hSecondary⟩⟩
  · intro hPrimary
    have hp := claimedPrimaryEgress_of_failure env c addr hCache hPrimary
    refine ⟨⟨fun h hE => (hiff.mp h).2.2.2.2.2.2 hE |>.2,
      fun h => hiff.mpr ⟨h1, h2, h3, h4, h5, h6, fun hE => ⟨hp, h hE⟩⟩⟩, ?_, ?_⟩
    · intro hAbsent
      exact hiff.mpr ⟨h1, h2, h3, h4, h5, h6, fun _ =>
        ⟨hp, claimedSecondaryEgress_of_absent env c addr hAbsent⟩⟩
    · intro hEgress hCloud hListed
      exact isValidNodeIP_of_secondary_egress_on env c addr linkIndex hEgress hListed hCloud
  · intro hSecondary
    have hs := claimedSecondaryEgress_of_failure env c addr hSecondary
    refine ⟨⟨fun h hE => (hiff.mp h).2.2.2.2.2.2 hE |>.1,
      fun h => hiff.mpr ⟨h1, h2, h3, h4, h5, h6, fun hE => ⟨h hE, hs⟩⟩⟩, ?_, ?_⟩
    · intro hAbsent
      exact hiff.mpr ⟨h1, h2, h3, h4, h5, h6, fun _ =>
        ⟨claimedPrimaryEgress_of_absent env c addr hCache hAbsent, hs⟩⟩
    · intro hEgress hSeg hIC hGw hListed
      have hp := claimedPrimaryEgress_of_listed env c addr hCache hSeg hIC hGw hListed
      cases hv : isValidNodeIP env c addr linkIndex with
      | false => rfl
      | true =>
        have := ((hiff.mp hv).2.2.2.2.2.2 hEgress).1
        rw [hp] at this
        cases this

/-- Witness of `isValidNodeIP_egress_lookup_failure`: `10.0.0.5` is accepted
when the node cannot be read and when its two egress annotations are
malformed; with a malformed bridge annotation it is accepted when the
secondary-host annotation lists `10.0.0.7` only and rejected when it lists
`10.0.0.5`; with a malformed secondary-host annotation it is accepted when
the bridge annotation lists `10.0.0.7` only and rejected when it lists
`10.0.0.5`. -/
theorem isValidNodeIP_egress_lookup_failure_witness :
    isValidNodeIP noNodeEnv mgr10 ip5 2 = true ∧
    isValidNodeIP malformedEnv mgr10 ip5 2 = true ∧
    isValidNodeIP halfMalformedOtherEnv mgr10 ip5 2 = true ∧
    isValidNodeIP halfMalformedEnv mgr10 ip5 2 = false ∧
    isValidNodeIP (secondaryMalformedEnv ["10.0.0.7"]) mgr10 ip5 2 = true ∧
    isValidNodeIP (secondaryMalformedEnv ["10.0.0.5"]) mgr10 ip5 2 = false :=
  ⟨(isValidNodeIP_egress_lookup_failure noNodeEnv mgr10 ip5 2 (by decide) (by decide)
      (by decide) (by decide) (by decide) rfl (by intro m hm; cases hm)).1
      (Or.inl ⟨_, rfl⟩) (Or.inl ⟨_, rfl⟩),
    (isValidNodeIP_egress_lookup_failure malformedEnv mgr10 ip5 2 (by decide) (by decide)
      (by decide) (by decide) (by decide) rfl (by intro m hm; cases hm)).1
      (Or.inr ⟨malformedNode, _, rfl, rfl⟩) (Or.inr ⟨malformedNode, _, rfl, rfl⟩),
    ((isValidNodeIP_egress_lookup_failure halfMalformedOtherEnv mgr10 ip5 2 (by decide)
      (by decide) (by decide) (by decide) (by decide) rfl (by intro m hm; cases hm)).2.1
      (Or.inr ⟨_, _, rfl, rfl⟩)).2.1 ⟨_, {"10.0.0.7"}, rfl, rfl, by decide⟩,
    ((isValidNodeIP_egress_lookup_failure halfMalformedEnv mgr10 ip5 2 (by decide) (by decide)
      (by decide) (by decide) (by decide) rfl (by intro m hm; cases hm)).2.1
      (Or.inr ⟨_, _, rfl, rfl⟩)).2.2 rfl rfl ⟨_, {"10.0.0.5"}, rfl, rfl, by decide⟩,
    ((isValidNodeIP_egress_lookup_failure (secondaryMalformedEnv ["10.0.0.7"]) mgr10 ip5 2
      (by decide) (by decide) (by decide) (by decide) (by decide) rfl
      (by intro m hm; cases hm)).2.2
      (Or.inr ⟨_, _, rfl, rfl⟩)).2.1 ⟨_, ["10.0.0.7"], rfl, rfl, by decide⟩,
    ((isValidNodeIP_egress_lookup_failure (secondaryMalformedEnv ["10.0.0.5"]) mgr10 ip5 2
      (by decide) (by decide) (by decide) (by decide) (by decide) rfl
      (by intro m hm; cases hm)).2.2
      (Or.inr ⟨_, _, rfl, rfl⟩)).2.2 rfl rfl rfl rfl ⟨_, ["10.0.0.5"], rfl, rfl, by decide⟩⟩

/-! ### The primary address -/

/-- A stored CIDR string has the address `ip` exactly when it parses and the
address it parses to is `Equal` to `ip`. -/
theorem hostCIDRHasIP_iff (env : Env) (ip : IP) (hostCIDR : String) :
    hostCIDRHasIP env ip hostCIDR = true ↔
      ∃ p, env.ParseCIDR hostCIDR = .ok p ∧ p.1.Equal ip = true := by
  unfold hostCIDRHasIP
  cases h : env.ParseCIDR hostCIDR with
  | error e => simp
  | ok p => simp

/-- No stored CIDR string parses to an address `Equal` to `ip` when the loop
body of `nodePrimaryAddrChanged` is false on each of them. -/
theorem foreign_of_hostCIDRHasIP (env : Env) (ip : IP) (cidrs : Finset String)
    (h : ∀ hostCIDR ∈ cidrs, hostCIDRHasIP env ip hostCIDR = false) :
    ∀ hostCIDR ∈ cidrs, ∀ p, env.ParseCIDR hostCIDR = .ok p → p.1.Equal ip = false := by
  intro hostCIDR hmem p hp
  cases he : p.1.Equal ip with
  | false => rfl
  | true =>
    have ht := (hostCIDRHasIP_iff env ip hostCIDR).mpr ⟨p, hp, he⟩
    rw [h hostCIDR hmem] at ht
    cases ht

/-- The primary-address check when the node is fetched and its primary IP
parses: the outcome is decided by the two comparisons of lines 362-378. -/
theorem nodePrimaryAddrChanged_of_parsed (env : Env) (c : addressManager) (node : Node)
    (nodePrimaryAddrStr : String) (hNode : env.GetNode c.nodeName = .ok node)
    (hStr : node.GetNodePrimaryIP = .ok nodePrimaryAddrStr)
    (hParse : env.ParseIP nodePrimaryAddrStr ≠ .nil) :
    ((∃ hostCIDR ∈ c.cidrs, ∃ p, env.ParseCIDR hostCIDR = .ok p
          ∧ p.1.Equal (env.ParseIP nodePrimaryAddrStr) = true) →
      c.nodePrimaryAddr.Equal (env.ParseIP nodePrimaryAddrStr) = false →
      nodePrimaryAddrChanged env c =
        ((true, none), { c with nodePrimaryAddr := env.ParseIP nodePrimaryAddrStr })) ∧
    (((∀ hostCIDR ∈ c.cidrs, ∀ p, env.ParseCIDR hostCIDR = .ok p →
          p.1.Equal (env.ParseIP nodePrimaryAddrStr) = false) ∨
        c.nodePrimaryAddr.Equal (env.ParseIP nodePrimaryAddrStr) = true) →
      nodePrimaryAddrChanged env c = ((false, none), c)) := by
  unfold nodePrimaryAddrChanged
  simp only [hNode, hStr, hParse, if_false]
  constructor
  · rintro ⟨hostCIDR, hmem, hp⟩ he
    have hk : ∃ hostCIDR ∈ c.cidrs,
        hostCIDRHasIP env (env.ParseIP nodePrimaryAddrStr) hostCIDR = true :=
      ⟨hostCIDR, hmem, (hostCIDRHasIP_iff env _ hostCIDR).mpr hp⟩
    simp [hk, he]
  · rintro (hf | he)
    · have hk : ¬ ∃ hostCIDR ∈ c.cidrs,
          hostCIDRHasIP env (env.ParseIP nodePrimaryAddrStr) hostCIDR = true := by
        rintro ⟨hostCIDR, hmem, hh⟩
        obtain ⟨p, hp, hEq⟩ := (hostCIDRHasIP_iff env _ hostCIDR).mp hh
        rw [hf hostCIDR hmem p hp] at hEq
        cases hEq
      simp [hk]
    · simp [he]

/-- C13: if the node's primary IP parses but is the address of no CIDR of the
stored set, `nodePrimaryAddrChanged` returns `(false, nil)` and leaves the
manager, and so the stored primary address, as it was. -/
theorem nodePrimaryAddrChanged_foreign (env : Env) (c : addressManager) (node : Node)
    (nodePrimaryAddrStr : String) (hNode : env.GetNode c.nodeName = .ok node)
    (hStr : node.GetNodePrimaryIP = .ok nodePrimaryAddrStr)
    (hParse : env.ParseIP nodePrimaryAddrStr ≠ .nil)
    (hForeign : ∀ hostCIDR ∈ c.cidrs, ∀ p, env.ParseCIDR hostCIDR = .ok p →
      p.1.Equal (env.ParseIP nodePrimaryAddrStr) = false) :
    nodePrimaryAddrChanged env c = ((false, none), c) ∧
    (nodePrimaryAddrChanged env c).2.nodePrimaryAddr = c.nodePrimaryAddr := by
  have h : nodePrimaryAddrChanged env c = ((false, none), c) :=
    (nodePrimaryAddrChanged_of_parsed env c node nodePrimaryAddrStr hNode hStr hParse).2
      (Or.inl hForeign)
  rw [h]
  exact ⟨rfl, rfl⟩

/-- Witness of `nodePrimaryAddrChanged_foreign`: the node reports `10.0.0.9`;
a manager storing `10.0.0.1/24` without primary address, and one storing
`fd00::1/64` with primary address `fd00::1`, are left as they were. -/
theorem nodePrimaryAddrChanged_foreign_witness :
    nodePrimaryAddrChanged (primaryEnv "10.0.0.9") mgr10 = ((false, none), mgr10) ∧
    nodePrimaryAddrChanged (primaryEnv "10.0.0.9") mgrFd = ((false, none), mgrFd) :=
  ⟨(nodePrimaryAddrChanged_foreign (primaryEnv "10.0.0.9") mgr10 _ "10.0.0.9" rfl rfl
      (by decide) (foreign_of_hostCIDRHasIP _ _ _ (by decide))).1,
    (nodePrimaryAddrChanged_foreign (primaryEnv "10.0.0.9") mgrFd _ "10.0.0.9" rfl rfl
      (by decide) (foreign_of_hostCIDRHasIP _ _ _ (by decide))).1⟩

/-- The nil address is `Equal` to no address that has bytes. -/
theorem IP.nil_Equal (x : IP) (h : x.len ≠ 0) : IP.nil.Equal x = false := by
  have h0 : IP.nil.len = 0 := rfl
  unfold IP.Equal
  rw [h0]
  simp [IPv4len, IPv6len, Ne.symm h]

/-- When the node is fetched and its primary IP parses, the check returns no
error, and either stores the parsed address and returns true, or changes
nothing and returns false. -/
theorem nodePrimaryAddrChanged_parsed_cases (env : Env) (c : addressManager) (node : Node)
    (nodePrimaryAddrStr : String) (hNode : env.GetNode c.nodeName = .ok node)
    (hStr : node.GetNodePrimaryIP = .ok nodePrimaryAddrStr)
    (hParse : env.ParseIP nodePrimaryAddrStr ≠ .nil) :
    (nodePrimaryAddrChanged env c =
        ((true, none), { c with nodePrimaryAddr := env.ParseIP nodePrimaryAddrStr }) ∧
      (∃ hostCIDR ∈ c.cidrs, ∃ p, env.ParseCIDR hostCIDR = .ok p
        ∧ p.1.Equal (env.ParseIP nodePrimaryAddrStr) = true) ∧
      c.nodePrimaryAddr.Equal (env.ParseIP nodePrimaryAddrStr) = false) ∨
    (nodePrimaryAddrChanged env c = ((false, none), c) ∧
      ((∀ hostCIDR ∈ c.cidrs, ∀ p, env.ParseCIDR hostCIDR = .ok p →
          p.1.Equal (env.ParseIP nodePrimaryAddrStr) = false) ∨
        c.nodePrimaryAddr.Equal (env.ParseIP nodePrimaryAddrStr) = true)) := by
  have h := nodePrimaryAddrChanged_of_parsed env c node nodePrimaryAddrStr hNode hStr hParse
  by_cases hk : ∃ hostCIDR ∈ c.cidrs, ∃ p, env.ParseCIDR hostCIDR = .ok p
      ∧ p.1.Equal (env.ParseIP nodePrimaryAddrStr) = true
  · cases he : c.nodePrimaryAddr.Equal (env.ParseIP nodePrimaryAddrStr) with
    | false => exact Or.inl ⟨h.1 hk he, hk, rfl⟩
    | true => exact Or.inr ⟨h.2 (Or.inr he), Or.inr rfl⟩
  · have hf : ∀ hostCIDR ∈ c.cidrs, ∀ p, env.ParseCIDR hostCIDR = .ok p →
        p.1.Equal (env.ParseIP nodePrimaryAddrStr) = false := by
      intro hostCIDR hmem p hp
      cases he : p.1.Equal (env.ParseIP nodePrimaryAddrStr) with
      | false => rfl
      | true => exact absurd ⟨hostCIDR, hmem, p, hp, he⟩ hk
    exact Or.inr ⟨h.2 (Or.inl hf), Or.inl hf⟩

/-- C14: if the node's primary IP parses and is the address of a CIDR of the
stored set, `nodePrimaryAddrChanged` returns `(true, nil)` and stores that IP
when it is not `Equal` to the stored primary address, in particular when none
is stored yet, and returns `(false, nil)` and stores nothing when it is
`Equal`; the CIDR set is the same afterwards. -/
theorem nodePrimaryAddrChanged_known (env : Env) (c : addressManager) (node : Node)
    (nodePrimaryAddrStr : String) (hNode : env.GetNode c.nodeName = .ok node)
    (hStr : node.GetNodePrimaryIP = .ok nodePrimaryAddrStr)
    (hParse : env.ParseIP nodePrimaryAddrStr ≠ .nil)
    (hKnown : ∃ hostCIDR ∈ c.cidrs, ∃ p, env.ParseCIDR hostCIDR = .ok p
      ∧ p.1.Equal (env.ParseIP nodePrimaryAddrStr) = true) :
    (c.nodePrimaryAddr.Equal (env.ParseIP nodePrimaryAddrStr) = false →
      nodePrimaryAddrChanged env c =
        ((true, none), { c with nodePrimaryAddr := env.ParseIP nodePrimaryAddrStr })) ∧
    (c.nodePrimaryAddr = .nil → (env.ParseIP nodePrimaryAddrStr).len ≠ 0 →
      nodePrimaryAddrChanged env c =
        ((true, none), { c with nodePrimaryAddr := env.ParseIP nodePrimaryAddrStr })) ∧
    (c.nodePrimaryAddr.Equal (env.ParseIP nodePrimaryAddrStr) = true →
      nodePrimaryAddrChanged env c = ((false, none), c)) ∧
    (nodePrimaryAddrChanged env c).2.cidrs = c.cidrs := by
  have h := nodePrimaryAddrChanged_of_parsed env c node nodePrimaryAddrStr hNode hStr hParse
  refine ⟨h.1 hKnown, ?_, fun he => h.2 (Or.inr he), (nodePrimaryAddrChanged_fields env c).1⟩
  intro hnil hlen
  apply h.1 hKnown
  rw [hnil]
  exact IP.nil_Equal _ hlen

/-- Witness of `nodePrimaryAddrChanged_known`: the node reports `10.0.0.1` and
`10.0.0.1/24` is stored; a manager without primary address stores the address
and returns true, a manager whose primary address is `10.0.0.1` returns false. -/
theorem nodePrimaryAddrChanged_known_witness :
    nodePrimaryAddrChanged (primaryEnv "10.0.0.1") mgr10
      = ((true, none), { mgr10 with nodePrimaryAddr := ip10 }) ∧
    nodePrimaryAddrChanged (primaryEnv "10.0.0.1") mgr10primary = ((false, none), mgr10primary) :=
  ⟨(nodePrimaryAddrChanged_known (primaryEnv "10.0.0.1") mgr10 _ "10.0.0.1" rfl rfl (by decide)
      ⟨"10.0.0.1/24", by decide, _, rfl, by decide⟩).2.1 rfl (by decide),
    (nodePrimaryAddrChanged_known (primaryEnv "10.0.0.1") mgr10primary _ "10.0.0.1" rfl rfl
      (by decide) ⟨"10.0.0.1/24", by decide, _, rfl, by decide⟩).2.2.1 (by decide)⟩

/-- C15: `nodePrimaryAddrChanged` returns an error exactly when the node
cannot be fetched, when the node has no primary IP to report, or when the
primary-IP string does not parse; with an error the boolean is false and the
manager is unchanged. -/
theorem nodePrimaryAddrChanged_error (env : Env) (c : addressManager) :
    ((nodePrimaryAddrChanged env c).1.2 ≠ none ↔
      (∃ err, env.GetNode c.nodeName = .error err) ∨
      (∃ node err, env.GetNode c.nodeName = .ok node ∧ node.GetNodePrimaryIP = .error err) ∨
      (∃ node nodePrimaryAddrStr, env.GetNode c.nodeName = .ok node
        ∧ node.GetNodePrimaryIP = .ok nodePrimaryAddrStr
        ∧ env.ParseIP nodePrimaryAddrStr = .nil)) ∧
    ((nodePrimaryAddrChanged env c).1.2 ≠ none →
      (nodePrimaryAddrChanged env c).1.1 = false ∧ (nodePrimaryAddrChanged env c).2 = c) := by
  cases hN : env.GetNode c.nodeName with
  | error e => simp [nodePrimaryAddrChanged, hN]
  | ok node =>
    cases hS : node.GetNodePrimaryIP with
    | error e => simp [nodePrimaryAddrChanged, hN, hS]
    | ok str =>
      by_cases hP : env.ParseIP str = .nil
      · simp [nodePrimaryAddrChanged, hN, hS, hP]
      · rcases nodePrimaryAddrChanged_parsed_cases env c node str hN hS hP with ⟨h, _⟩ | ⟨h, _⟩
        · rw [h]; simp [hP, hS]
        · rw [h]; simp [hP, hS]

/-- Witness of `nodePrimaryAddrChanged_error`: an error, false and an
unchanged manager when the node cannot be read, when it reports no primary IP
and when it reports the string `not-an-ip`; no error when it reports `10.0.0.1`. -/
theorem nodePrimaryAddrChanged_error_witness :
    ((nodePrimaryAddrChanged noNodeEnv mgr10).1.1 = false
      ∧ (nodePrimaryAddrChanged noNodeEnv mgr10).2 = mgr10) ∧
    ((nodePrimaryAddrChanged noPrimaryIPEnv mgr10).1.1 = false
      ∧ (nodePrimaryAddrChanged noPrimaryIPEnv mgr10).2 = mgr10) ∧
    ((nodePrimaryAddrChanged (primaryEnv "not-an-ip") mgr10).1.1 = false
      ∧ (nodePrimaryAddrChanged (primaryEnv "not-an-ip") mgr10).2 = mgr10) ∧
    (nodePrimaryAddrChanged (primaryEnv "10.0.0.1") mgr10).1.2 = none :=
  ⟨(nodePrimaryAddrChanged_error noNodeEnv mgr10).2
      ((nodePrimaryAddrChanged_error noNodeEnv mgr10).1.mpr (Or.inl ⟨_, rfl⟩)),
    (nodePrimaryAddrChanged_error noPrimaryIPEnv mgr10).2
      ((nodePrimaryAddrChanged_error noPrimaryIPEnv mgr10).1.mpr
        (Or.inr (Or.inl ⟨_, _, rfl, rfl⟩))),
    (nodePrimaryAddrChanged_error (primaryEnv "not-an-ip") mgr10).2
      ((nodePrimaryAddrChanged_error (primaryEnv "not-an-ip") mgr10).1.mpr
        (Or.inr (Or.inr ⟨_, "not-an-ip", rfl, rfl, by decide⟩))),
    by decide⟩

/-- C16: `nodePrimaryAddrChanged` compares by value: when the node is fetched
and its primary IP parses, the call returns `(false, nil)` and changes nothing
whenever the parsed address is `Equal` to the stored primary address, however
the string is written; and it returns true exactly when some stored CIDR
parses to an address `Equal` to the parsed one and the stored primary address
is not `Equal` to it. -/
theorem nodePrimaryAddrChanged_by_value (env : Env) (c : addressManager) (node : Node)
    (nodePrimaryAddrStr : String) (hNode : env.GetNode c.nodeName = .ok node)
    (hStr : node.GetNodePrimaryIP = .ok nodePrimaryAddrStr)
    (hParse : env.ParseIP nodePrimaryAddrStr ≠ .nil) :
    (c.nodePrimaryAddr.Equal (env.ParseIP nodePrimaryAddrStr) = true →
      nodePrimaryAddrChanged env c = ((false, none), c)) ∧
    ((nodePrimaryAddrChanged env c).1.1 = true ↔
      (∃ hostCIDR ∈ c.cidrs, ∃ p, env.ParseCIDR hostCIDR = .ok p
        ∧ p.1.Equal (env.ParseIP nodePrimaryAddrStr) = true) ∧
      c.nodePrimaryAddr.Equal (env.ParseIP nodePrimaryAddrStr) = false) := by
  have h := nodePrimaryAddrChanged_of_parsed env c node nodePrimaryAddrStr hNode hStr hParse
  refine ⟨fun he => h.2 (Or.inr he), ?_⟩
  rcases nodePrimaryAddrChanged_parsed_cases env c node nodePrimaryAddrStr hNode hStr hParse
    with ⟨hr, hk⟩ | ⟨hr, hk⟩
  · rw [hr]
    exact ⟨fun _ => hk, fun _ => rfl⟩
  · rw [hr]
    constructor
    · intro hf
      cases hf
    · rintro ⟨⟨hostCIDR, hmem, p, hp, he⟩, hne⟩
      rcases hk with hf | heq
      · rw [hf hostCIDR hmem p hp] at he
        cases he
      · rw [heq] at hne
        cases hne

/-- Witness of `nodePrimaryAddrChanged_by_value`: the stored `fd00::1`, whose
string is `fd00::1`, is unchanged when the node reports it in expanded form;
the stored 4-byte `10.0.0.1` is unchanged when the node reports the
IPv4-mapped `::ffff:10.0.0.1`; and that string is found in the set
`{10.0.0.1/24}` by a manager without primary address. -/
theorem nodePrimaryAddrChanged_by_value_witness :
    mgrFd.nodePrimaryAddr.String = "fd00::1" ∧
    nodePrimaryAddrChanged (primaryEnv "fd00:0:0:0:0:0:0:1") mgrFd = ((false, none), mgrFd) ∧
    mgr10primary.nodePrimaryAddr.String = "10.0.0.1" ∧
    nodePrimaryAddrChanged (primaryEnv "::ffff:10.0.0.1") mgr10primary
      = ((false, none), mgr10primary) ∧
    (nodePrimaryAddrChanged (primaryEnv "::ffff:10.0.0.1") mgr10).1.1 = true :=
  ⟨by decide,
    (nodePrimaryAddrChanged_by_value (primaryEnv "fd00:0:0:0:0:0:0:1") mgrFd _
      "fd00:0:0:0:0:0:0:1" rfl rfl (by decide)).1 (by decide),
    by decide,
    (nodePrimaryAddrChanged_by_value (primaryEnv "::ffff:10.0.0.1") mgr10primary _
      "::ffff:10.0.0.1" rfl rfl (by decide)).1 (by decide),
    (nodePrimaryAddrChanged_by_value (primaryEnv "::ffff:10.0.0.1") mgr10 _
      "::ffff:10.0.0.1" rfl rfl (by decide)).2.mpr
      ⟨⟨"10.0.0.1/24", by decide, _, rfl, by decide⟩, by decide⟩⟩

/-- C17: `nodePrimaryAddrChanged` departs from the comment above it, which
says that it returns false on an error or a match and otherwise returns true
and updates the primary address.  With `10.0.0.1/24` stored and `10.0.0.1` as
stored primary address, the node reports `10.0.0.9` without error and the
two addresses do not match, and yet the call returns false and keeps the
stored primary address, because no stored CIDR has the address `10.0.0.9`. -/
theorem nodePrimaryAddrChanged_doc_divergence :
    (nodePrimaryAddrChanged (primaryEnv "10.0.0.9") mgr10primary).1.2 = none ∧
    mgr10primary.nodePrimaryAddr.Equal ((primaryEnv "10.0.0.9").ParseIP "10.0.0.9") = false ∧
    (nodePrimaryAddrChanged (primaryEnv "10.0.0.9") mgr10primary).1.1 = false ∧
    (nodePrimaryAddrChanged (primaryEnv "10.0.0.9") mgr10primary).2.nodePrimaryAddr
      = .bytes [10, 0, 0, 1] := by
  decide

/-- The cases of `nodePrimaryAddrChanged` as the code has them: it returns
false if there is an error, if the node's primary IP is the address of no
stored CIDR, or if it matches the stored primary address, and then it changes
nothing; in every other case (no error, the IP is the address of a stored
CIDR and does not match the stored one) it returns true and stores the IP as
primary address. -/
theorem nodePrimaryAddrChanged_cases (env : Env) (c : addressManager) :
    ((nodePrimaryAddrChanged env c).1.2 ≠ none → (nodePrimaryAddrChanged env c).1.1 = false) ∧
    ((nodePrimaryAddrChanged env c).1.1 = false → (nodePrimaryAddrChanged env c).2 = c) ∧
    (∀ node nodePrimaryAddrStr, env.GetNode c.nodeName = .ok node →
      node.GetNodePrimaryIP = .ok nodePrimaryAddrStr →
      env.ParseIP nodePrimaryAddrStr ≠ .nil →
      (((∀ hostCIDR ∈ c.cidrs, ∀ p, env.ParseCIDR hostCIDR = .ok p →
            p.1.Equal (env.ParseIP nodePrimaryAddrStr) = false) ∨
          c.nodePrimaryAddr.Equal (env.ParseIP nodePrimaryAddrStr) = true) →
        (nodePrimaryAddrChanged env c).1.1 = false) ∧
      (¬ ((∀ hostCIDR ∈ c.cidrs, ∀ p, env.ParseCIDR hostCIDR = .ok p →
            p.1.Equal (env.ParseIP nodePrimaryAddrStr) = false) ∨
          c.nodePrimaryAddr.Equal (env.ParseIP nodePrimaryAddrStr) = true) →
        nodePrimaryAddrChanged env c =
          ((true, none), { c with nodePrimaryAddr := env.ParseIP nodePrimaryAddrStr }))) := by
  refine ⟨?_, ?_, ?_⟩
  · cases hN : env.GetNode c.nodeName with
    | error e => simp [nodePrimaryAddrChanged, hN]
    | ok node =>
      cases hS : node.GetNodePrimaryIP with
      | error e => simp [nodePrimaryAddrChanged, hN, hS]
      | ok str =>
        by_cases hP : env.ParseIP str = .nil
        · simp [nodePrimaryAddrChanged, hN, hS, hP]
        · rcases nodePrimaryAddrChanged_parsed_cases env c node str hN hS hP with
            ⟨h, _⟩ | ⟨h, _⟩
          · rw [h]; simp
          · rw [h]; simp
  · cases hN : env.GetNode c.nodeName with
    | error e => simp [nodePrimaryAddrChanged, hN]
    | ok node =>
      cases hS : node.GetNodePrimaryIP with
      | error e => simp [nodePrimaryAddrChanged, hN, hS]
      | ok str =>
        by_cases hP : env.ParseIP str = .nil
        · simp [nodePrimaryAddrChanged, hN, hS, hP]
        · rcases nodePrimaryAddrChanged_parsed_cases env c node str hN hS hP with
            ⟨h, _⟩ | ⟨h, _⟩
          · rw [h]; simp
          · rw [h]; simp
  · intro node str hN hS hP
    have h := nodePrimaryAddrChanged_of_parsed env c node str hN hS hP
    constructor
    · intro hcond
      rw [h.2 hcond]
    · intro hcond
      rcases nodePrimaryAddrChanged_parsed_cases env c node str hN hS hP with
        ⟨hr, _⟩ | ⟨_, hk⟩
      · exact hr
      · exact absurd hk hcond

/-- Witness of `nodePrimaryAddrChanged_cases`: with `10.0.0.1/24` stored and
`10.0.0.1` as primary address, nothing changes when the node reports
`10.0.0.9` (of no stored CIDR) or `10.0.0.1` (a match); with `fd00::1/64`
stored too, a report of `fd00::1` is stored and the call returns true. -/
theorem nodePrimaryAddrChanged_cases_witness :
    (nodePrimaryAddrChanged (primaryEnv "10.0.0.9") mgr10primary).1.1 = false ∧
    (nodePrimaryAddrChanged (primaryEnv "10.0.0.1") mgr10primary).2 = mgr10primary ∧
    nodePrimaryAddrChanged (primaryEnv "fd00::1")
        { mgr10primary with cidrs := {"10.0.0.1/24", "fd00::1/64"} }
      = ((true, none),
        { mgr10primary with cidrs := {"10.0.0.1/24", "fd00::1/64"}, nodePrimaryAddr := ipFd }) :=
  ⟨((nodePrimaryAddrChanged_cases (primaryEnv "10.0.0.9") mgr10primary).2.2 _ "10.0.0.9"
      rfl rfl (by decide)).1 (Or.inl (foreign_of_hostCIDRHasIP _ _ _ (by decide))),
    (nodePrimaryAddrChanged_cases (primaryEnv "10.0.0.1") mgr10primary).2.1 (by decide),
    ((nodePrimaryAddrChanged_cases (primaryEnv "fd00::1")
      { mgr10primary with cidrs := {"10.0.0.1/24", "fd00::1/64"} }).2.2 _ "fd00::1"
      rfl rfl (by decide)).2 (by
        rintro (hf | he)
        · exact absurd (hf "fd00::1/64" (by decide) _ rfl) (by decide)
        · exact absurd he (by decide))⟩

/-! ### The tunnel endpoint -/

/-- The second loop of `appendTo6` only appends. -/
theorem appendTo6Loop_length (g : List Nat) (zeroStart zeroEnd : Nat) :
    ∀ (fuel i : Nat) (ret : String),
      ret.length ≤ (appendTo6Loop g zeroStart zeroEnd fuel i ret).length := by
  intro fuel
  induction fuel with
  | zero => intro i ret; simp [appendTo6Loop]
  | succ n ih =>
    intro i ret
    unfold appendTo6Loop
    split_ifs
    · exact le_refl _
    · simp [String.length_append]
    · refine le_trans ?_ (ih _ _)
      simp only [String.length_append]
      omega
    · refine le_trans ?_ (ih _ _)
      simp only [String.length_append]
      omega
    · refine le_trans ?_ (ih _ _)
      simp only [String.length_append]
      omega

/-- A group is written with at least one hexadecimal digit. -/
theorem appendHex_length (x : Nat) : 0 < (appendHex x).length := by
  unfold appendHex
  simp [String.length]

/-- The string of an address is never empty. -/
theorem IP.String_length_pos (ip : IP) : 0 < ip.String.length := by
  have hq : "?".length = 1 := rfl
  have hc : "::".length = 2 := rfl
  have hd : ".".length = 1 := rfl
  have he : "".length = 0 := rfl
  unfold IP.String
  split_ifs
  · decide
  · simp only [String.length_append]
    omega
  · split
    · simp only [String.length_append]
      omega
    · unfold appendTo6
      simp only
      unfold appendTo6Loop
      split_ifs
      · omega
      · simp only [String.length_append]
        omega
      · refine lt_of_lt_of_le ?_ (appendTo6Loop_length _ _ _ _ _ _)
        simp only [String.length_append]
        omega
      · omega
      · refine lt_of_lt_of_le ?_ (appendTo6Loop_length _ _ _ _ _ _)
        simp only [String.length_append]
        have := appendHex_length ((v6u16 ip.toList).getD 0 0)
        omega

/-- The reconfiguration returns after its first command exactly when the read
succeeds and the value read, without its trailing newline, is the string of
the new address. -/
theorem encapIP_already_set_iff (env : Env) (newIP : IP) :
    ((env.RunOVSVsctl checkCmd).2.2 = none
        ∧ (TrimSuffix (env.RunOVSVsctl checkCmd).1 "\n").length > 0
        ∧ newIP.String = TrimSuffix (env.RunOVSVsctl checkCmd).1 "\n") ↔
      ((env.RunOVSVsctl checkCmd).2.2 = none
        ∧ TrimSuffix (env.RunOVSVsctl checkCmd).1 "\n" = newIP.String) := by
  constructor
  · rintro ⟨h1, _, h3⟩
    exact ⟨h1, h3.symm⟩
  · rintro ⟨h1, h2⟩
    refine ⟨h1, ?_, h2.symm⟩
    rw [h2]
    exact IP.String_length_pos newIP

/-- The reconfiguration, written with the names of its commands. -/
theorem updateOVNEncapIPAndReconnect_eq (env : Env) (s : State) (newIP : IP) :
    updateOVNEncapIPAndReconnect env s newIP =
      if (env.RunOVSVsctl checkCmd).2.2 = none
          ∧ (TrimSuffix (env.RunOVSVsctl checkCmd).1 "\n").length > 0
          ∧ newIP.String = TrimSuffix (env.RunOVSVsctl checkCmd).1 "\n" then
        s.emit (.RunOVSVsctl checkCmd)
      else
        match (env.RunOVSVsctl (confCmd newIP)).2.2 with
        | some _ =>
          { mgr := s.mgr, EffectiveEncapIP := newIP.String,
            events := s.events ++ [.RunOVSVsctl checkCmd, .RunOVSVsctl (confCmd newIP)] }
        | none =>
          match (env.RunOVNAppctlWithTimeout 5 restartCmd).2.2 with
          | some _ =>
            { mgr := s.mgr, EffectiveEncapIP := newIP.String,
              events := s.events ++ [.RunOVSVsctl checkCmd, .RunOVSVsctl (confCmd newIP),
                .RunOVNAppctlWithTimeout 5 restartCmd] }
          | none =>
            match env.SetNodeEncapIPs {newIP.String} with
            | some _ =>
              { mgr := s.mgr, EffectiveEncapIP := newIP.String,
                events := s.events ++ [.RunOVSVsctl checkCmd, .RunOVSVsctl (confCmd newIP),
                  .RunOVNAppctlWithTimeout 5 restartCmd, .SetNodeEncapIPs {newIP.String}] }
            | none =>
              { mgr := s.mgr, EffectiveEncapIP := newIP.String,
                events := s.events ++ [.RunOVSVsctl checkCmd, .RunOVSVsctl (confCmd newIP),
                  .RunOVNAppctlWithTimeout 5 restartCmd, .SetNodeEncapIPs {newIP.String},
                  .nodeAnnotatorRun] } := by
  unfold updateOVNEncapIPAndReconnect
  simp only [State.emit, checkCmd, confCmd, restartCmd, List.append_assoc, List.singleton_append]
  repeat' split
  all_goals rfl

/-- C19: if the read of the configured encap IP succeeds and the value read
is the string of the new primary address, `updateOVNEncapIPAndReconnect`
makes no other call than this read (no set command, no restart of
ovn-controller, no annotation update) and leaves the effective encap IP and
the manager as they were. -/
theorem updateOVNEncapIPAndReconnect_skip (env : Env) (s : State) (newIP : IP)
    (hRead : (env.RunOVSVsctl checkCmd).2.2 = none)
    (hSame : TrimSuffix (env.RunOVSVsctl checkCmd).1 "\n" = newIP.String) :
    (updateOVNEncapIPAndReconnect env s newIP).events = s.events ++ [.RunOVSVsctl checkCmd] ∧
    (updateOVNEncapIPAndReconnect env s newIP).EffectiveEncapIP = s.EffectiveEncapIP ∧
    (updateOVNEncapIPAndReconnect env s newIP).mgr = s.mgr := by
  have hcond := (encapIP_already_set_iff env newIP).mpr ⟨hRead, hSame⟩
  have h : updateOVNEncapIPAndReconnect env s newIP = s.emit (.RunOVSVsctl checkCmd) := by
    rw [updateOVNEncapIPAndReconnect_eq, if_pos hcond]
  rw [h]
  exact ⟨rfl, rfl, rfl⟩

/-- Witness of `updateOVNEncapIPAndReconnect_skip`: OVS answers `10.0.0.1` and
the new primary address is `10.0.0.1`. -/
theorem updateOVNEncapIPAndReconnect_skip_witness :
    (updateOVNEncapIPAndReconnect (ovsEnv "10.0.0.1") state10 ip10).events
      = [.RunOVSVsctl checkCmd] ∧
    (updateOVNEncapIPAndReconnect (ovsEnv "10.0.0.1") state10 ip10).EffectiveEncapIP
      = "10.0.0.9" :=
  ⟨(updateOVNEncapIPAndReconnect_skip (ovsEnv "10.0.0.1") state10 ip10 rfl (by decide)).1,
    (updateOVNEncapIPAndReconnect_skip (ovsEnv "10.0.0.1") state10 ip10 rfl (by decide)).2.1⟩

/-- The reconfiguration always issues the read of the configured encap IP, so
the list of calls grows. -/
theorem updateOVNEncapIPAndReconnect_events_ne (env : Env) (s : State) (newIP : IP) :
    (updateOVNEncapIPAndReconnect env s newIP).events ≠ s.events := by
  have hlen : s.events.length < (updateOVNEncapIPAndReconnect env s newIP).events.length := by
    rw [updateOVNEncapIPAndReconnect_eq]
    repeat' split
    all_goals simp [State.emit]
  intro h
  rw [h] at hlen
  exact lt_irrefl _ hlen

/-- C18: `handleNodePrimaryAddrChange` runs `updateOVNEncapIPAndReconnect`
with the newly stored primary address when `nodePrimaryAddrChanged` returns
`(true, nil)` and `config.Default.EncapIP` is empty; when the check returns an
error, or false, or an encap IP is configured, it issues no command and keeps
the effective encap IP; so commands are issued exactly in the first case. -/
theorem handleNodePrimaryAddrChange_spec (env : Env) (s : State) :
    ((nodePrimaryAddrChanged env s.mgr).1 = (true, none) → env.EncapIP = "" →
      handleNodePrimaryAddrChange env s =
        updateOVNEncapIPAndReconnect env { s with mgr := (nodePrimaryAddrChanged env s.mgr).2 }
          (nodePrimaryAddrChanged env s.mgr).2.nodePrimaryAddr) ∧
    (((nodePrimaryAddrChanged env s.mgr).1.2 ≠ none ∨ (nodePrimaryAddrChanged env s.mgr).1.1 = false
        ∨ env.EncapIP ≠ "") →
      (handleNodePrimaryAddrChange env s).events = s.events ∧
      (handleNodePrimaryAddrChange env s).EffectiveEncapIP = s.EffectiveEncapIP ∧
      (handleNodePrimaryAddrChange env s).mgr = (nodePrimaryAddrChanged env s.mgr).2) ∧
    ((handleNodePrimaryAddrChange env s).events ≠ s.events ↔
      ((nodePrimaryAddrChanged env s.mgr).1 = (true, none) ∧ env.EncapIP = "")) := by
  have hrun : (nodePrimaryAddrChanged env s.mgr).1 = (true, none) → env.EncapIP = "" →
      handleNodePrimaryAddrChange env s =
        updateOVNEncapIPAndReconnect env { s with mgr := (nodePrimaryAddrChanged env s.mgr).2 }
          (nodePrimaryAddrChanged env s.mgr).2.nodePrimaryAddr := by
    intro hr he
    have h1 : (nodePrimaryAddrChanged env s.mgr).1.1 = true := by rw [hr]
    have h2 : (nodePrimaryAddrChanged env s.mgr).1.2 = none := by rw [hr]
    unfold handleNodePrimaryAddrChange
    simp [h1, h2, he]
  have hskip : ((nodePrimaryAddrChanged env s.mgr).1.2 ≠ none
        ∨ (nodePrimaryAddrChanged env s.mgr).1.1 = false ∨ env.EncapIP ≠ "") →
      handleNodePrimaryAddrChange env s
        = { s with mgr := (nodePrimaryAddrChanged env s.mgr).2 } := by
    intro h
    unfold handleNodePrimaryAddrChange
    cases h2 : (nodePrimaryAddrChanged env s.mgr).1.2 with
    | some e => simp only [h2]
    | none =>
      rcases h with h | h | h
      · exact absurd h2 h
      · simp [h, h2]
      · simp [h, h2]
  refine ⟨hrun, ?_, ?_⟩
  · intro h
    rw [hskip h]
    exact ⟨rfl, rfl, rfl⟩
  · constructor
    · intro hne
      by_contra hcond
      apply hne
      have h : (nodePrimaryAddrChanged env s.mgr).1.2 ≠ none
          ∨ (nodePrimaryAddrChanged env s.mgr).1.1 = false ∨ env.EncapIP ≠ "" := by
        by_cases h2 : (nodePrimaryAddrChanged env s.mgr).1.2 = none
        · by_cases h1 : (nodePrimaryAddrChanged env s.mgr).1.1 = true
          · refine Or.inr (Or.inr fun he => hcond ⟨?_, he⟩)
            exact Prod.ext h1 h2
          · exact Or.inr (Or.inl (by simpa using h1))
        · exact Or.inl h2
      rw [hskip h]
    · rintro ⟨hr, he⟩
      rw [hrun hr he]
      exact updateOVNEncapIPAndReconnect_events_ne env _ _

/-- Witness of `handleNodePrimaryAddrChange_spec`: the node reports the
stored `10.0.0.1` and OVS holds `10.0.0.9`; without configured encap IP the
five calls of the reconfiguration are made and the effective encap IP becomes
`10.0.0.1`; with a configured encap IP no call is made; and none is made when
the node reports `10.0.0.9`, which is the address of no stored CIDR. -/
theorem handleNodePrimaryAddrChange_spec_witness :
    (handleNodePrimaryAddrChange (ovsEnv "10.0.0.9") state10).events
      = [.RunOVSVsctl checkCmd, .RunOVSVsctl (confCmd ip10),
        .RunOVNAppctlWithTimeout 5 restartCmd, .SetNodeEncapIPs {"10.0.0.1"},
        .nodeAnnotatorRun] ∧
    (handleNodePrimaryAddrChange (ovsEnv "10.0.0.9") state10).EffectiveEncapIP = "10.0.0.1" ∧
    (handleNodePrimaryAddrChange overrideEnv state10).events = [] ∧
    (handleNodePrimaryAddrChange overrideEnv state10).EffectiveEncapIP = "10.0.0.9" ∧
    (handleNodePrimaryAddrChange (primaryEnv "10.0.0.9") state10).events = [] :=
  ⟨by rw [(handleNodePrimaryAddrChange_spec (ovsEnv "10.0.0.9") state10).1 (by decide) rfl]
      decide,
    by rw [(handleNodePrimaryAddrChange_spec (ovsEnv "10.0.0.9") state10).1 (by decide) rfl]
       decide,
    ((handleNodePrimaryAddrChange_spec overrideEnv state10).2.1
      (Or.inr (Or.inr (by decide)))).1,
    ((handleNodePrimaryAddrChange_spec overrideEnv state10).2.1
      (Or.inr (Or.inr (by decide)))).2.1,
    ((handleNodePrimaryAddrChange_spec (primaryEnv "10.0.0.9") state10).2.1
      (Or.inr (Or.inl (by decide)))).1⟩

/-- C20, as stated, fails: on a host where the read of the configured encap IP
fails, the set command is issued all the same, and so are the restart of
ovn-controller, the queueing of the annotation and the commit. -/
theorem updateOVNEncapIPAndReconnect_read_failure_counterexample :
    (readFailEnv.RunOVSVsctl checkCmd).2.2 ≠ none ∧
    Event.RunOVSVsctl (confCmd ip10)
      ∈ (updateOVNEncapIPAndReconnect readFailEnv state10 ip10).events ∧
    (updateOVNEncapIPAndReconnect readFailEnv state10 ip10).events
      = [.RunOVSVsctl checkCmd, .RunOVSVsctl (confCmd ip10),
        .RunOVNAppctlWithTimeout 5 restartCmd, .SetNodeEncapIPs {"10.0.0.1"},
        .nodeAnnotatorRun] := by
  decide

/-- C20, amended: the reconfiguration makes its calls in the order read, set,
restart of ovn-controller, queueing of the encap-IPs annotation, commit.  When
the read fails, or gives another value than the string of the new address,
the effective encap IP becomes that string and the set command is issued;
then a failure of the set command ends the calls, a failure of the restart
ends them before the annotation is queued, and a failure of the queueing ends
them before the commit. -/
theorem updateOVNEncapIPAndReconnect_steps (env : Env) (s : State) (newIP : IP)
    (hProceed : (env.RunOVSVsctl checkCmd).2.2 ≠ none
      ∨ TrimSuffix (env.RunOVSVsctl checkCmd).1 "\n" ≠ newIP.String) :
    (updateOVNEncapIPAndReconnect env s newIP).EffectiveEncapIP = newIP.String ∧
    ((env.RunOVSVsctl (confCmd newIP)).2.2 ≠ none →
      (updateOVNEncapIPAndReconnect env s newIP).events
        = s.events ++ [.RunOVSVsctl checkCmd, .RunOVSVsctl (confCmd newIP)]) ∧
    ((env.RunOVSVsctl (confCmd newIP)).2.2 = none →
      (env.RunOVNAppctlWithTimeout 5 restartCmd).2.2 ≠ none →
      (updateOVNEncapIPAndReconnect env s newIP).events
        = s.events ++ [.RunOVSVsctl checkCmd, .RunOVSVsctl (confCmd newIP),
          .RunOVNAppctlWithTimeout 5 restartCmd]) ∧
    ((env.RunOVSVsctl (confCmd newIP)).2.2 = none →
      (env.RunOVNAppctlWithTimeout 5 restartCmd).2.2 = none →
      env.SetNodeEncapIPs {newIP.String} ≠ none →
      (updateOVNEncapIPAndReconnect env s newIP).events
        = s.events ++ [.RunOVSVsctl checkCmd, .RunOVSVsctl (confCmd newIP),
          .RunOVNAppctlWithTimeout 5 restartCmd, .SetNodeEncapIPs {newIP.String}]) ∧
    ((env.RunOVSVsctl (confCmd newIP)).2.2 = none →
      (env.RunOVNAppctlWithTimeout 5 restartCmd).2.2 = none →
      env.SetNodeEncapIPs {newIP.String} = none →
      (updateOVNEncapIPAndReconnect env s newIP).events
        = s.events ++ [.RunOVSVsctl checkCmd, .RunOVSVsctl (confCmd newIP),
          .RunOVNAppctlWithTimeout 5 restartCmd, .SetNodeEncapIPs {newIP.String},
          .nodeAnnotatorRun]) := by
  have hcond : ¬ ((env.RunOVSVsctl checkCmd).2.2 = none
      ∧ (TrimSuffix (env.RunOVSVsctl checkCmd).1 "\n").length > 0
      ∧ newIP.String = TrimSuffix (env.RunOVSVsctl checkCmd).1 "\n") := by
    rintro ⟨h1, _, h3⟩
    rcases hProceed with h | h
    · exact h h1
    · exact h h3.symm
  rw [updateOVNEncapIPAndReconnect_eq, if_neg hcond]
  refine ⟨?_, ?_, ?_, ?_, ?_⟩
  · repeat' split
    all_goals rfl
  · intro h1
    cases hs : (env.RunOVSVsctl (confCmd newIP)).2.2 with
    | none => exact absurd hs h1
    | some e => rfl
  · intro h1 h2
    cases hr : (env.RunOVNAppctlWithTimeout 5 restartCmd).2.2 with
    | none => exact absurd hr h2
    | some e => simp only [h1]
  · intro h1 h2 h3
    cases hq : env.SetNodeEncapIPs {newIP.String} with
    | none => exact absurd hq h3
    | some e => simp only [h1, h2]
  · intro h1 h2 h3
    simp only [h1, h2, h3]

/-- Witness of `updateOVNEncapIPAndReconnect_steps`: the new address is
`10.0.0.1`; the calls made when the read fails, when the set command fails,
when the restart fails, when the queueing fails, and when nothing fails. -/
theorem updateOVNEncapIPAndReconnect_steps_witness :
    (updateOVNEncapIPAndReconnect readFailEnv state10 ip10).EffectiveEncapIP = "10.0.0.1" ∧
    (updateOVNEncapIPAndReconnect setFailEnv state10 ip10).events
      = [.RunOVSVsctl checkCmd, .RunOVSVsctl (confCmd ip10)] ∧
    (updateOVNEncapIPAndReconnect restartFailEnv state10 ip10).events
      = [.RunOVSVsctl checkCmd, .RunOVSVsctl (confCmd ip10),
        .RunOVNAppctlWithTimeout 5 restartCmd] ∧
    (updateOVNEncapIPAndReconnect queueFailEnv state10 ip10).events
      = [.RunOVSVsctl checkCmd, .RunOVSVsctl (confCmd ip10),
        .RunOVNAppctlWithTimeout 5 restartCmd, .SetNodeEncapIPs {"10.0.0.1"}] ∧
    (updateOVNEncapIPAndReconnect (ovsEnv "10.0.0.9") state10 ip10).events
      = [.RunOVSVsctl checkCmd, .RunOVSVsctl (confCmd ip10),
        .RunOVNAppctlWithTimeout 5 restartCmd, .SetNodeEncapIPs {"10.0.0.1"},
        .nodeAnnotatorRun] :=
  ⟨(updateOVNEncapIPAndReconnect_steps readFailEnv state10 ip10 (Or.inl (by decide))).1.trans
      (by decide),
    (updateOVNEncapIPAndReconnect_steps setFailEnv state10 ip10 (Or.inr (by decide))).2.1
      (by decide),
    (updateOVNEncapIPAndReconnect_steps restartFailEnv state10 ip10
      (Or.inr (by decide))).2.2.1 (by decide) (by decide),
    ((updateOVNEncapIPAndReconnect_steps queueFailEnv state10 ip10
      (Or.inr (by decide))).2.2.2.1 (by decide) (by decide) (by decide)).trans (by decide),
    ((updateOVNEncapIPAndReconnect_steps (ovsEnv "10.0.0.9") state10 ip10
      (Or.inr (by decide))).2.2.2.2 (by decide) (by decide) (by decide)).trans (by decide)⟩

/-! ### The node address annotations -/

/-- The queueing and the commit, once the node and the interface addresses of
the gateway bridge are known: each failure ends the calls and is returned,
and the result of the commit is returned when nothing fails before it. -/
theorem updateNodeAddressAnnotationsWith_steps (env : Env) (s : State) (node : Node)
    (ifAddrs : List IPNet) :
    (∀ err, env.NodeModeDPU = false → env.SetNodeHostCIDRs s.mgr.cidrs = some err →
      (updateNodeAddressAnnotationsWith env s node ifAddrs).1 = some err ∧
      (updateNodeAddressAnnotationsWith env s node ifAddrs).2.events
        = s.events ++ [.SetNodeHostCIDRs s.mgr.cidrs]) ∧
    ((env.NodeModeDPU = true ∨ env.SetNodeHostCIDRs s.mgr.cidrs = none) →
      (∀ err, env.SetNodePrimaryIfAddrs ifAddrs = some err →
        (updateNodeAddressAnnotationsWith env s node ifAddrs).1 = some err ∧
        (updateNodeAddressAnnotationsWith env s node ifAddrs).2.events
          = s.events ++ hostCIDRsCalls env s.mgr ++ [.SetNodePrimaryIfAddrs ifAddrs]) ∧
      (env.SetNodePrimaryIfAddrs ifAddrs = none →
        (∀ err, node.ParseNodeL3GatewayAnnotation = .error err →
          (updateNodeAddressAnnotationsWith env s node ifAddrs).1 = some err ∧
          (updateNodeAddressAnnotationsWith env s node ifAddrs).2.events
            = s.events ++ hostCIDRsCalls env s.mgr ++ [.SetNodePrimaryIfAddrs ifAddrs]) ∧
        (∀ gatewayCfg, node.ParseNodeL3GatewayAnnotation = .ok gatewayCfg →
          (∀ err, env.SetL3GatewayConfig { gatewayCfg with IPAddresses := ifAddrs } = some err →
            (updateNodeAddressAnnotationsWith env s node ifAddrs).1 = some err ∧
            (updateNodeAddressAnnotationsWith env s node ifAddrs).2.events
              = s.events ++ hostCIDRsCalls env s.mgr ++ [.SetNodePrimaryIfAddrs ifAddrs,
                .SetL3GatewayConfig { gatewayCfg with IPAddresses := ifAddrs }]) ∧
          (env.SetL3GatewayConfig { gatewayCfg with IPAddresses := ifAddrs } = none →
            (updateNodeAddressAnnotationsWith env s node ifAddrs).1 = env.nodeAnnotatorRun ∧
            (updateNodeAddressAnnotationsWith env s node ifAddrs).2.events
              = s.events ++ hostCIDRsCalls env s.mgr ++ [.SetNodePrimaryIfAddrs ifAddrs,
                .SetL3GatewayConfig { gatewayCfg with IPAddresses := ifAddrs },
                .nodeAnnotatorRun])))) := by
  constructor
  · intro err hDPU hHost
    simp [updateNodeAddressAnnotationsWith, updateHostCIDRs, hDPU, hHost, State.emit]
  · intro hHost
    have h1 : (updateHostCIDRs env s).1 = none := by
      unfold updateHostCIDRs
      rcases hHost with h | h
      · simp [h]
      · split_ifs <;> simp [h]
    have h2 : (updateHostCIDRs env s).2.events = s.events ++ hostCIDRsCalls env s.mgr := by
      unfold updateHostCIDRs hostCIDRsCalls
      split_ifs <;> simp [State.emit]
    refine ⟨?_, ?_⟩
    · intro err hP
      simp [updateNodeAddressAnnotationsWith, h1, h2, hP, State.emit]
    · intro hP
      refine ⟨?_, ?_⟩
      · intro err hG
        simp [updateNodeAddressAnnotationsWith, h1, h2, hP, hG, State.emit]
      · intro gatewayCfg hG
        refine ⟨?_, ?_⟩
        · intro err hS
          simp [updateNodeAddressAnnotationsWith, h1, h2, hP, hG, hS, State.emit]
        · intro hS
          simp [updateNodeAddressAnnotationsWith, h1, h2, hP, hG, hS, State.emit]

/-- When the node is fetched and the interface addresses of the gateway bridge
are resolved, the annotation update continues with the queueing, the call of
the resolution being recorded. -/
theorem updateNodeAddressAnnotations_resolved (env : Env) (s : State) (node : Node)
    (ifAddrs : List IPNet) (hNode : env.GetNode s.mgr.nodeName = .ok node)
    (hRes : (s.mgr.useNetlink = true ∧ env.UpdateInterfaceIPAddresses node = .ok ifAddrs)
      ∨ (s.mgr.useNetlink = false ∧ ifAddrs = [])) :
    updateNodeAddressAnnotations env s =
      updateNodeAddressAnnotationsWith env
        { s with events := s.events ++ resolveCalls s.mgr } node ifAddrs := by
  unfold updateNodeAddressAnnotations resolveCalls
  rcases hRes with ⟨hN, hU⟩ | ⟨hN, hI⟩
  · simp [hNode, hN, hU, State.emit]
  · simp [hNode, hN, hI]

/-- C25: outside DPU mode, the mode in which the loop and `sync` call it,
`updateNodeAddressAnnotations` fetches the node, resolves the interface
addresses of the gateway bridge (with netlink), queues the host-CIDRs record,
the primary interface addresses and the gateway configuration with these
addresses, and commits once; a failure of the fetch, the resolution, the
parsing of the gateway annotation or one of the three queueings is returned
and ends the calls before the commit; when none fails the result is the
result of the commit. -/
theorem updateNodeAddressAnnotations_steps (env : Env) (s : State)
    (hDPU : env.NodeModeDPU = false) :
    (∀ err, env.GetNode s.mgr.nodeName = .error err →
      updateNodeAddressAnnotations env s = (some err, s)) ∧
    (∀ node err, env.GetNode s.mgr.nodeName = .ok node → s.mgr.useNetlink = true →
      env.UpdateInterfaceIPAddresses node = .error err →
      updateNodeAddressAnnotations env s = (some err, s.emit .UpdateInterfaceIPAddresses)) ∧
    (∀ node ifAddrs, env.GetNode s.mgr.nodeName = .ok node →
      ((s.mgr.useNetlink = true ∧ env.UpdateInterfaceIPAddresses node = .ok ifAddrs)
        ∨ (s.mgr.useNetlink = false ∧ ifAddrs = [])) →
      (∀ err, env.SetNodeHostCIDRs s.mgr.cidrs = some err →
        (updateNodeAddressAnnotations env s).1 = some err ∧
        (updateNodeAddressAnnotations env s).2.events
          = s.events ++ resolveCalls s.mgr ++ [.SetNodeHostCIDRs s.mgr.cidrs]) ∧
      (env.SetNodeHostCIDRs s.mgr.cidrs = none →
        (∀ err, env.SetNodePrimaryIfAddrs ifAddrs = some err →
          (updateNodeAddressAnnotations env s).1 = some err ∧
          (updateNodeAddressAnnotations env s).2.events
            = s.events ++ resolveCalls s.mgr
              ++ [.SetNodeHostCIDRs s.mgr.cidrs, .SetNodePrimaryIfAddrs ifAddrs]) ∧
        (env.SetNodePrimaryIfAddrs ifAddrs = none →
          (∀ err, node.ParseNodeL3GatewayAnnotation = .error err →
            (updateNodeAddressAnnotations env s).1 = some err ∧
            (updateNodeAddressAnnotations env s).2.events
              = s.events ++ resolveCalls s.mgr
                ++ [.SetNodeHostCIDRs s.mgr.cidrs, .SetNodePrimaryIfAddrs ifAddrs]) ∧
          (∀ gatewayCfg, node.ParseNodeL3GatewayAnnotation = .ok gatewayCfg →
            (∀ err,
              env.SetL3GatewayConfig { gatewayCfg with IPAddresses := ifAddrs } = some err →
              (updateNodeAddressAnnotations env s).1 = some err ∧
              (updateNodeAddressAnnotations env s).2.events
                = s.events ++ resolveCalls s.mgr
                  ++ [.SetNodeHostCIDRs s.mgr.cidrs, .SetNodePrimaryIfAddrs ifAddrs,
                    .SetL3GatewayConfig { gatewayCfg with IPAddresses := ifAddrs }]) ∧
            (env.SetL3GatewayConfig { gatewayCfg with IPAddresses := ifAddrs } = none →
              (updateNodeAddressAnnotations env s).1 = env.nodeAnnotatorRun ∧
              (updateNodeAddressAnnotations env s).2.events
                = s.events ++ resolveCalls s.mgr
                  ++ [.SetNodeHostCIDRs s.mgr.cidrs, .SetNodePrimaryIfAddrs ifAddrs,
                    .SetL3GatewayConfig { gatewayCfg with IPAddresses := ifAddrs },
                    .nodeAnnotatorRun]))))) := by
  refine ⟨?_, ?_, ?_⟩
  · intro err hNode
    simp [updateNodeAddressAnnotations, hNode]
  · intro node err hNode hN hU
    simp [updateNodeAddressAnnotations, hNode, hN, hU]
  · intro node ifAddrs hNode hRes
    have hcalls : hostCIDRsCalls env s.mgr = [.SetNodeHostCIDRs s.mgr.cidrs] := by
      simp [hostCIDRsCalls, hDPU]
    rw [updateNodeAddressAnnotations_resolved env s node ifAddrs hNode hRes]
    have h := updateNodeAddressAnnotationsWith_steps env
      { s with events := s.events ++ resolveCalls s.mgr } node ifAddrs
    refine ⟨fun err hHost => h.1 err hDPU hHost, fun hHost => ?_⟩
    have h2 := h.2 (Or.inr hHost)
    simp only [hcalls, List.append_assoc, List.singleton_append] at h2
    simp only [List.append_assoc]
    exact h2

/-- Witness of `updateNodeAddressAnnotations_steps`: on the host `annotEnv`
the three records are queued and committed once; a failing commit is the
result; without gateway annotation the error is returned and nothing is
committed. -/
theorem updateNodeAddressAnnotations_steps_witness :
    ((updateNodeAddressAnnotations annotEnv state10).1 = none ∧
      (updateNodeAddressAnnotations annotEnv state10).2.events
        = [.UpdateInterfaceIPAddresses, .SetNodeHostCIDRs {"10.0.0.1/24"},
          .SetNodePrimaryIfAddrs [net10],
          .SetL3GatewayConfig { IPAddresses := [net10], rest := "mode=shared" },
          .nodeAnnotatorRun]) ∧
    (updateNodeAddressAnnotations commitFailEnv state10).1 = some (.other "conflict") ∧
    ((updateNodeAddressAnnotations noGatewayEnv state10).1 = some .annotationNotSet ∧
      (updateNodeAddressAnnotations noGatewayEnv state10).2.events
        = [.UpdateInterfaceIPAddresses, .SetNodeHostCIDRs {"10.0.0.1/24"},
          .SetNodePrimaryIfAddrs [net10]]) :=
  ⟨(((((updateNodeAddressAnnotations_steps annotEnv state10 rfl).2.2 gatewayNode [net10] rfl
      (Or.inl ⟨rfl, rfl⟩)).2 rfl).2 rfl).2 _ rfl).2 rfl,
    ((((((updateNodeAddressAnnotations_steps commitFailEnv state10 rfl).2.2 gatewayNode [net10]
      rfl (Or.inl ⟨rfl, rfl⟩)).2 rfl).2 rfl).2 _ rfl).2 rfl).1,
    ((((updateNodeAddressAnnotations_steps noGatewayEnv state10 rfl).2.2 _ [net10] rfl
      (Or.inl ⟨rfl, rfl⟩)).2 rfl).2 rfl).1 _ rfl⟩

/-! ### The reconciliation loop -/

/-- The reconfiguration of the tunnel endpoint does not invoke `OnChanged`. -/
theorem updateOVNEncapIPAndReconnect_count_OnChanged (env : Env) (s : State) (newIP : IP) :
    (updateOVNEncapIPAndReconnect env s newIP).events.count .OnChanged
      = s.events.count .OnChanged := by
  rw [updateOVNEncapIPAndReconnect_eq]
  repeat' split
  all_goals simp [State.emit, List.count_append]

/-- Handling a primary-address change does not invoke `OnChanged`. -/
theorem handleNodePrimaryAddrChange_count_OnChanged (env : Env) (s : State) :
    (handleNodePrimaryAddrChange env s).events.count .OnChanged
      = s.events.count .OnChanged := by
  unfold handleNodePrimaryAddrChange
  simp only
  split
  · rfl
  · split_ifs
    · rw [updateOVNEncapIPAndReconnect_count_OnChanged]
    · rfl

/-- The queueing and the commit do not invoke `OnChanged`. -/
theorem updateNodeAddressAnnotationsWith_count_OnChanged (env : Env) (s : State) (node : Node)
    (ifAddrs : List IPNet) :
    (updateNodeAddressAnnotationsWith env s node ifAddrs).2.events.count .OnChanged
      = s.events.count .OnChanged := by
  unfold updateNodeAddressAnnotationsWith updateHostCIDRs
  simp only [State.emit]
  repeat' split
  all_goals simp [List.count_append]

/-- Updating the node address annotations does not invoke `OnChanged`. -/
theorem updateNodeAddressAnnotations_count_OnChanged (env : Env) (s : State) :
    (updateNodeAddressAnnotations env s).2.events.count .OnChanged
      = s.events.count .OnChanged := by
  unfold updateNodeAddressAnnotations
  split
  · rfl
  · split_ifs
    · simp only
      split
      · simp [State.emit, List.count_append]
      · rw [updateNodeAddressAnnotationsWith_count_OnChanged]
        simp [State.emit, List.count_append]
    · rw [updateNodeAddressAnnotationsWith_count_OnChanged]

/-- The stored set matches the node's host-CIDRs annotation exactly when the
node is fetched, the annotation parses and it has the members of the set. -/
theorem doNodeHostCIDRsMatch_iff (env : Env) (c : addressManager) :
    doNodeHostCIDRsMatch env c = true ↔
      ∃ node nodeHostAddresses, env.GetNode c.nodeName = .ok node
        ∧ node.ParseNodeHostCIDRs = .ok nodeHostAddresses ∧ nodeHostAddresses = c.cidrs := by
  unfold doNodeHostCIDRsMatch
  cases hN : env.GetNode c.nodeName with
  | error e => simp
  | ok node =>
    cases hP : node.ParseNodeHostCIDRs with
    | error e => simp [hP]
    | ok set => simp [hP]

/-- C21: on a received notification the loop applies `addAddr` to an addition
and `delAddr` to any other event, then calls `handleNodePrimaryAddrChange`;
if the applier returned true or the stored set does not match the node's
host-CIDRs annotation (an unreadable or unparseable annotation does not
match), it calls `updateNodeAddressAnnotations` and then `OnChanged`, once and
whatever the update returns; otherwise it makes neither call. -/
theorem runInternalStep_addrUpdate (env : Env) (subscribe : subscribeFn) (l : LoopState)
    (a : AddrUpdate) :
    let r := if a.NewAddr then addAddr env l.state.mgr a.LinkAddress a.LinkIndex
      else delAddr env l.state.mgr a.LinkAddress a.LinkIndex
    let s1 := handleNodePrimaryAddrChange env { l.state with mgr := r.2 }
    let s2 := (runInternalStep env subscribe l (.addrUpdate a)).state
    ((r.1 = true ∨ doNodeHostCIDRsMatch env s1.mgr = false) →
      s2 = (updateNodeAddressAnnotations env s1).2.emit .OnChanged ∧
      s2.events.count .OnChanged = l.state.events.count .OnChanged + 1) ∧
    ((r.1 = false ∧ doNodeHostCIDRsMatch env s1.mgr = true) →
      s2 = s1 ∧ s2.events.count .OnChanged = l.state.events.count .OnChanged) ∧
    (doNodeHostCIDRsMatch env s1.mgr = true ↔
      ∃ node nodeHostAddresses, env.GetNode s1.mgr.nodeName = .ok node
        ∧ node.ParseNodeHostCIDRs = .ok nodeHostAddresses
        ∧ nodeHostAddresses = s1.mgr.cidrs) ∧
    (runInternalStep env subscribe l (.addrUpdate a)).subscribed = l.subscribed ∧
    (runInternalStep env subscribe l (.addrUpdate a)).subscribeCalls = l.subscribeCalls ∧
    (runInternalStep env subscribe l (.addrUpdate a)).returned = l.returned := by
  intro r s1 s2
  have hs1 : s1.events.count .OnChanged = l.state.events.count .OnChanged :=
    handleNodePrimaryAddrChange_count_OnChanged env { l.state with mgr := r.2 }
  refine ⟨?_, ?_, doNodeHostCIDRsMatch_iff env s1.mgr, rfl, rfl, rfl⟩
  · intro hcond
    have hs2 : s2 = (updateNodeAddressAnnotations env s1).2.emit .OnChanged := by
      show applyAddrUpdate env l.state a = _
      unfold applyAddrUpdate
      have hc : (r.1 || !doNodeHostCIDRsMatch env s1.mgr) = true := by
        rcases hcond with h | h
        · simp [h]
        · simp [h]
      exact if_pos hc
    refine ⟨hs2, ?_⟩
    rw [hs2]
    simp only [State.emit, List.count_append]
    rw [updateNodeAddressAnnotations_count_OnChanged, hs1]
    simp
  · rintro ⟨h1, h2⟩
    have hs2 : s2 = s1 := by
      show applyAddrUpdate env l.state a = _
      unfold applyAddrUpdate
      have hc : ¬ (r.1 || !doNodeHostCIDRsMatch env s1.mgr) = true := by
        simp [h1, h2]
      exact if_neg hc
    rw [hs2]
    exact ⟨rfl, hs1⟩

/-- Witness of `runInternalStep_addrUpdate`: on a host whose node records
`10.0.0.1/24`, the announcement of `192.168.1.7/24` is stored, annotated and
reported by `OnChanged`; on a host whose node lacks the gateway annotation the
update fails and `OnChanged` is invoked all the same; the withdrawal of an
address that is not stored leads to no call. -/
theorem runInternalStep_addrUpdate_witness :
    (runInternalStep syncedEnv failingSubscribe loop10 (.addrUpdate update192)).state.events
      = [.UpdateInterfaceIPAddresses, .SetNodeHostCIDRs {"192.168.1.7/24", "10.0.0.1/24"},
        .SetNodePrimaryIfAddrs [net10],
        .SetL3GatewayConfig { IPAddresses := [net10], rest := "mode=shared" },
        .nodeAnnotatorRun, .OnChanged] ∧
    (runInternalStep noGatewayEnv failingSubscribe loop10 (.addrUpdate update192)).state.events
      = [.UpdateInterfaceIPAddresses, .SetNodeHostCIDRs {"192.168.1.7/24", "10.0.0.1/24"},
        .SetNodePrimaryIfAddrs [net10], .OnChanged] ∧
    (runInternalStep syncedEnv failingSubscribe loop10 (.addrUpdate withdraw192)).state.events
      = [] :=
  ⟨by rw [((runInternalStep_addrUpdate syncedEnv failingSubscribe loop10 update192).1
      (Or.inl (by decide))).1]
      decide,
    by rw [((runInternalStep_addrUpdate noGatewayEnv failingSubscribe loop10 update192).1
      (Or.inl (by decide))).1]
       decide,
    by rw [((runInternalStep_addrUpdate syncedEnv failingSubscribe loop10 withdraw192).2.1
      ⟨by decide, by decide⟩).1]
       decide⟩

/-- C22: on a timer tick a subscribed loop runs `sync` and does not call
`subscribe`; an unsubscribed loop calls `subscribe` once and makes no other
call; after a call of `subscribe`, on a tick or on a closed channel, the loop
is subscribed exactly when the call returned true. -/
theorem runInternalStep_tick (env : Env) (subscribe : subscribeFn) (l : LoopState) :
    (l.subscribed = true →
      (runInternalStep env subscribe l .tick).state = (sync env l.state).2 ∧
      (runInternalStep env subscribe l .tick).subscribeCalls = l.subscribeCalls ∧
      (runInternalStep env subscribe l .tick).subscribed = true) ∧
    (l.subscribed = false →
      (runInternalStep env subscribe l .tick).state = (subscribe l.state).2 ∧
      (runInternalStep env subscribe l .tick).subscribeCalls = l.subscribeCalls + 1 ∧
      (runInternalStep env subscribe l .tick).subscribed = (subscribe l.state).1.1) ∧
    ((runInternalStep env subscribe l .chanClosed).state = (subscribe l.state).2 ∧
      (runInternalStep env subscribe l .chanClosed).subscribeCalls = l.subscribeCalls + 1 ∧
      (runInternalStep env subscribe l .chanClosed).subscribed = (subscribe l.state).1.1) ∧
    (runInternalStep env subscribe l .tick).returned = l.returned := by
  refine ⟨?_, ?_, ⟨rfl, rfl, rfl⟩, ?_⟩
  · intro h
    simp [runInternalStep, h]
  · intro h
    simp [runInternalStep, h]
  · unfold runInternalStep
    split_ifs <;> rfl

/-- Witness of `runInternalStep_tick`: a subscribed loop syncs on a tick; an
unsubscribed loop whose subscription fails keeps its state and stays
unsubscribed; with the netlink subscription succeeding it becomes subscribed
and the manager is synced by the subscription. -/
theorem runInternalStep_tick_witness :
    (runInternalStep syncedEnv failingSubscribe loop10 .tick).state
      = (sync syncedEnv state10).2 ∧
    runInternalStep syncedEnv failingSubscribe { loop10 with subscribed := false } .tick
      = { loop10 with subscribed := false, subscribeCalls := 2 } ∧
    (runInternalStep syncedEnv (getNetlinkAddrSubFunc syncedEnv none)
      { loop10 with subscribed := false } .tick).subscribed = true :=
  ⟨((runInternalStep_tick syncedEnv failingSubscribe loop10).1 rfl).1,
    by decide,
    ((runInternalStep_tick syncedEnv (getNetlinkAddrSubFunc syncedEnv none)
      { loop10 with subscribed := false }).2.1 rfl).2.2⟩

/-- A tick does not make the loop return. -/
theorem tick_keeps_returned (env : Env) (subscribe : subscribeFn) (l : LoopState) :
    (runInternalStep env subscribe l .tick).returned = l.returned := by
  unfold runInternalStep
  split_ifs <;> rfl

/-- The loop has returned after a list of cases exactly when it had returned
before or the list has a stop. -/
theorem runInternalLoop_returned (env : Env) (subscribe : subscribeFn) :
    ∀ (sels : List Select) (l : LoopState), l.returned = false →
      ((runInternalLoop env subscribe l sels).returned = true ↔ Select.stop ∈ sels) := by
  intro sels
  induction sels with
  | nil => intro l hl; simp [runInternalLoop, hl]
  | cons sel rest ih =>
    intro l hl
    unfold runInternalLoop
    simp only [hl, Bool.false_eq_true, if_false]
    cases sel with
    | stop =>
      have hret : (runInternalStep env subscribe l .stop).returned = true := rfl
      cases rest with
      | nil => simp [runInternalLoop, hret]
      | cons x xs => simp [runInternalLoop, hret]
    | addrUpdate a =>
      have h := ih (runInternalStep env subscribe l (.addrUpdate a)) hl
      simp [h]
    | chanClosed =>
      have h := ih (runInternalStep env subscribe l .chanClosed) hl
      simp [h]
    | tick =>
      have hret : (runInternalStep env subscribe l .tick).returned = false := by
        rw [tick_keeps_returned env subscribe l]; exact hl
      have h := ih (runInternalStep env subscribe l .tick) hret
      simp [h]

/-- A stop ends the loop: the cases after it are not taken. -/
theorem runInternalLoop_stop (env : Env) (subscribe : subscribeFn) :
    ∀ (pre post : List Select) (l : LoopState), l.returned = false → Select.stop ∉ pre →
      runInternalLoop env subscribe l (pre ++ .stop :: post)
        = { runInternalLoop env subscribe l pre with returned := true } := by
  intro pre
  induction pre with
  | nil =>
    intro post l hl _
    cases post with
    | nil => simp [runInternalLoop, hl, runInternalStep]
    | cons x xs => simp [runInternalLoop, hl, runInternalStep]
  | cons sel rest ih =>
    intro post l hl hpre
    have hsel : sel ≠ .stop := fun h => hpre (by simp [h])
    have hrest : Select.stop ∉ rest := fun h => hpre (List.mem_cons_of_mem _ h)
    have hret : (runInternalStep env subscribe l sel).returned = false := by
      cases sel with
      | stop => exact absurd rfl hsel
      | addrUpdate a => exact hl
      | chanClosed => exact hl
      | tick => rw [tick_keeps_returned env subscribe l]; exact hl
    simp only [List.cons_append, runInternalLoop, hl, Bool.false_eq_true, if_false]
    exact ih post _ hret hrest

/-- C23: `runInternal` returns only on the stop event: over every list of
cases taken by its `select`, whatever the environment and the subscription
answer, it has returned exactly when a stop is among them; and a stop ends
it, the state being the one reached by the cases before it. -/
theorem runInternal_returns_iff_stop (env : Env) (subscribe : subscribeFn) (s : State)
    (sels : List Select) :
    ((runInternal env subscribe s sels).returned = true ↔ Select.stop ∈ sels) ∧
    (∀ pre post, sels = pre ++ .stop :: post → Select.stop ∉ pre →
      runInternal env subscribe s sels
        = { runInternal env subscribe s pre with returned := true }) := by
  constructor
  · exact runInternalLoop_returned env subscribe sels _ rfl
  · intro pre post hsels hpre
    rw [hsels]
    exact runInternalLoop_stop env subscribe pre post _ rfl hpre

/-- Witness of `runInternal_returns_iff_stop`: with a subscription that always
fails, the loop is running after a closed channel, ticks and a notification,
and has returned after a stop, which hides the tick that follows it. -/
theorem runInternal_returns_iff_stop_witness :
    (runInternal syncedEnv failingSubscribe state10
      [.chanClosed, .tick, .addrUpdate update192, .tick]).returned = false ∧
    (runInternal syncedEnv failingSubscribe state10
      [.chanClosed, .tick, .stop, .tick]).returned = true ∧
    runInternal syncedEnv failingSubscribe state10 [.chanClosed, .tick, .stop, .tick]
      = { runInternal syncedEnv failingSubscribe state10 [.chanClosed, .tick]
          with returned := true } :=
  ⟨by
      cases h : (runInternal syncedEnv failingSubscribe state10
        [.chanClosed, .tick, .addrUpdate update192, .tick]).returned with
      | false => rfl
      | true =>
        exact absurd ((runInternal_returns_iff_stop syncedEnv failingSubscribe state10
          [.chanClosed, .tick, .addrUpdate update192, .tick]).1.mp h) (by decide),
    (runInternal_returns_iff_stop syncedEnv failingSubscribe state10
      [.chanClosed, .tick, .stop, .tick]).1.mpr (by decide),
    (runInternal_returns_iff_stop syncedEnv failingSubscribe state10
      [.chanClosed, .tick, .stop, .tick]).2 [.chanClosed, .tick] [.tick] rfl (by decide)⟩

/-- Handling a primary-address change makes no call when the check returns
false or an encap IP is configured. -/
theorem handleNodePrimaryAddrChange_quiet (env : Env) (s : State)
    (h : (nodePrimaryAddrChanged env s.mgr).1.1 = false ∨ env.EncapIP ≠ "") :
    handleNodePrimaryAddrChange env s = { s with mgr := (nodePrimaryAddrChanged env s.mgr).2 } := by
  unfold handleNodePrimaryAddrChange
  cases h2 : (nodePrimaryAddrChanged env s.mgr).1.2 with
  | some e => simp only [h2]
  | none =>
    rcases h with h | h
    · simp [h, h2]
    · simp [h, h2]

/-- C24, as stated, fails: with `10.0.0.1/24` stored and an empty host-CIDRs
annotation, a tick of a subscribed loop on a host whose only valid address is
now `192.168.1.7/24` commits that set and not `10.0.0.1/24`; and a tick of an
unsubscribed loop whose subscription fails commits nothing. -/
theorem tick_commit_counterexample :
    state10.mgr.cidrs = {"10.0.0.1/24"} ∧
    (∃ node, movedEnv.GetNode state10.mgr.nodeName = .ok node
      ∧ node.ParseNodeHostCIDRs = .ok ∅) ∧
    (runInternalStep movedEnv failingSubscribe loop10 .tick).state.events
      = [.UpdateInterfaceIPAddresses, .SetNodeHostCIDRs {"192.168.1.7/24"},
        .SetNodePrimaryIfAddrs [net10],
        .SetL3GatewayConfig { IPAddresses := [net10], rest := "mode=shared" },
        .nodeAnnotatorRun, .OnChanged] ∧
    (runInternalStep annotEnv failingSubscribe { loop10 with subscribed := false }
      .tick).state.events = [] :=
  ⟨by decide, ⟨gatewayNode, rfl, rfl⟩, by decide, by decide⟩

/-- C24, amended: with `10.0.0.1/24` stored and an empty host-CIDRs annotation,
a tick of a subscribed loop, outside DPU mode, on a manager that uses netlink
and whose enumeration still gives `10.0.0.1/24` as the set of valid addresses,
when the primary-address check starts no reconfiguration and the resolution,
the queueings and the parsing of the gateway annotation succeed, queues the
host-CIDRs value `10.0.0.1/24` and commits exactly once. -/
theorem tick_republishes (env : Env) (subscribe : subscribeFn) (l : LoopState)
    (addrs : List Addr) (node : Node) (ifAddrs : List IPNet) (gatewayCfg : L3GatewayConfig)
    (hSub : l.subscribed = true) (hDPU : env.NodeModeDPU = false)
    (hNetlink : l.state.mgr.useNetlink = true)
    (hStored : l.state.mgr.cidrs = {"10.0.0.1/24"})
    (hEnum : syncEnumerate env l.state.mgr = .ok addrs)
    (hSame : syncCurrAddresses env l.state.mgr addrs ∅ = {"10.0.0.1/24"})
    (hNode : env.GetNode l.state.mgr.nodeName = .ok node)
    (hAnnot : node.ParseNodeHostCIDRs = .ok ∅)
    (hQuiet : (nodePrimaryAddrChanged env l.state.mgr).1.1 = false ∨ env.EncapIP ≠ "")
    (hRes : env.UpdateInterfaceIPAddresses node = .ok ifAddrs)
    (hHost : env.SetNodeHostCIDRs {"10.0.0.1/24"} = none)
    (hPrim : env.SetNodePrimaryIfAddrs ifAddrs = none)
    (hGw : node.ParseNodeL3GatewayAnnotation = .ok gatewayCfg)
    (hSet : env.SetL3GatewayConfig { gatewayCfg with IPAddresses := ifAddrs } = none) :
    (runInternalStep env subscribe l .tick).state.events
      = l.state.events ++ [.UpdateInterfaceIPAddresses, .SetNodeHostCIDRs {"10.0.0.1/24"},
        .SetNodePrimaryIfAddrs ifAddrs,
        .SetL3GatewayConfig { gatewayCfg with IPAddresses := ifAddrs },
        .nodeAnnotatorRun, .OnChanged] ∧
    (runInternalStep env subscribe l .tick).state.events.count .nodeAnnotatorRun
      = l.state.events.count .nodeAnnotatorRun + 1 := by
  have hstep : (runInternalStep env subscribe l .tick).state = (sync env l.state).2 := by
    simp [runInternalStep, hSub]
  have hassign : assignCIDRs l.state.mgr (syncCurrAddresses env l.state.mgr addrs ∅)
      = (false, l.state.mgr) := by
    simp [assignCIDRs, hSame, hStored]
  have hs1 : handleNodePrimaryAddrChange env l.state
      = { l.state with mgr := (nodePrimaryAddrChanged env l.state.mgr).2 } :=
    handleNodePrimaryAddrChange_quiet env l.state hQuiet
  obtain ⟨hc, hn, hu⟩ := nodePrimaryAddrChanged_fields env l.state.mgr
  have hmatch : doNodeHostCIDRsMatch env (nodePrimaryAddrChanged env l.state.mgr).2 = false := by
    unfold doNodeHostCIDRsMatch
    rw [hn, hNode]
    simp only [hAnnot, hc, hStored]
    decide
  have hsync : (sync env l.state).2 = (updateNodeAddressAnnotations env
      { l.state with mgr := (nodePrimaryAddrChanged env l.state.mgr).2 }).2.emit .OnChanged := by
    unfold sync
    simp only [hDPU, Bool.false_eq_true, if_false, hEnum, hassign]
    have hself : ({ l.state with mgr := l.state.mgr } : State) = l.state := rfl
    rw [hself, hs1]
    simp [hmatch]
  have hupd := updateNodeAddressAnnotations_resolved env
    { l.state with mgr := (nodePrimaryAddrChanged env l.state.mgr).2 } node ifAddrs
    (by rw [hn]; exact hNode) (Or.inl ⟨by rw [hu]; exact hNetlink, hRes⟩)
  have hwith := ((((updateNodeAddressAnnotationsWith_steps env
    { mgr := (nodePrimaryAddrChanged env l.state.mgr).2,
      EffectiveEncapIP := l.state.EffectiveEncapIP,
      events := l.state.events ++ resolveCalls (nodePrimaryAddrChanged env l.state.mgr).2 }
    node ifAddrs).2 (Or.inr (by rw [hc, hStored]; exact hHost))).2 hPrim).2 gatewayCfg hGw).2 hSet
  have hev : (runInternalStep env subscribe l .tick).state.events
      = l.state.events ++ [.UpdateInterfaceIPAddresses, .SetNodeHostCIDRs {"10.0.0.1/24"},
        .SetNodePrimaryIfAddrs ifAddrs,
        .SetL3GatewayConfig { gatewayCfg with IPAddresses := ifAddrs },
        .nodeAnnotatorRun, .OnChanged] := by
    rw [hstep, hsync, hupd]
    simp only [State.emit]
    rw [hwith.2]
    simp [resolveCalls, hostCIDRsCalls, hu, hNetlink, hDPU, hc, hStored]
  refine ⟨hev, ?_⟩
  rw [hev]
  simp [List.count_append]

/-- Witness of `tick_republishes`: on the host `annotEnv`, whose valid address
is `10.0.0.1/24`. -/
theorem tick_republishes_witness :
    (runInternalStep annotEnv failingSubscribe loop10 .tick).state.events
      = [.UpdateInterfaceIPAddresses, .SetNodeHostCIDRs {"10.0.0.1/24"},
        .SetNodePrimaryIfAddrs [net10],
        .SetL3GatewayConfig { IPAddresses := [net10], rest := "mode=shared" },
        .nodeAnnotatorRun, .OnChanged] :=
  (tick_republishes annotEnv failingSubscribe loop10 _ gatewayNode [net10]
    { IPAddresses := [], rest := "mode=shared" } rfl rfl rfl rfl
    (syncEnumerate_of_listed annotEnv mgr10 [linkLo, linkEth0, linkMp0] hostAddrs rfl rfl
      (fun _ _ => rfl))
    (by decide) rfl rfl (Or.inr (by decide)) rfl rfl rfl rfl rfl).1

/-! ### The query of the stored addresses -/

/-- A string is below another when the other's characters are not below its own. -/
theorem le_of_toList (a b : String) (h : ¬ b.toList < a.toList) : a ≤ b := by
  rw [← not_lt, String.lt_iff_toList_lt]
  exact h

/-- Strings that all parse have a list of parse results. -/
theorem exists_parsed (env : Env) :
    ∀ strs : List String, (∀ s ∈ strs, ∃ p, env.ParseCIDR s = .ok p) →
      ∃ parsed : List (IP × IPNet), strs.map env.ParseCIDR = parsed.map Except.ok := by
  intro strs
  induction strs with
  | nil => intro _; exact ⟨[], rfl⟩
  | cons s rest ih =>
    intro h
    obtain ⟨p, hp⟩ := h s (List.mem_cons_self _ _)
    obtain ⟨ps, hps⟩ := ih (fun x hx => h x (List.mem_cons_of_mem _ hx))
    exact ⟨p :: ps, by simp [hp, hps]⟩

/-- Over strings that all parse, the loop of `ListAddresses` appends the
addresses and the networks in the order of the strings. -/
theorem ListAddressesLoop_parsed (env : Env) :
    ∀ (strs : List String) (parsed : List (IP × IPNet)) (addresses : List IP)
      (networkAddresses : List IPNet),
      strs.map env.ParseCIDR = parsed.map Except.ok →
      ListAddressesLoop env strs addresses networkAddresses
        = (addresses ++ parsed.map Prod.fst, networkAddresses ++ parsed.map Prod.snd) := by
  intro strs
  induction strs with
  | nil =>
    intro parsed A N h
    cases parsed with
    | nil => simp [ListAddressesLoop]
    | cons p ps => simp at h
  | cons s rest ih =>
    intro parsed A N h
    cases parsed with
    | nil => simp at h
    | cons p ps =>
      simp only [List.map_cons, List.cons.injEq] at h
      unfold ListAddressesLoop
      rw [h.1]
      simp only
      rw [ih ps _ _ h.2]
      simp

/-- C27: when every stored string parses as a CIDR, `ListAddresses` returns
two lists as long as the set; at each position they hold the address and the
network to which the string at that position of the sorted list of the set
parses; and the manager is unchanged. -/
theorem ListAddresses_spec (env : Env) (c : addressManager)
    (hAll : ∀ hostCIDR ∈ c.cidrs, ∃ p, env.ParseCIDR hostCIDR = .ok p) :
    (ListAddresses env c).1.1.length = c.cidrs.card ∧
    (ListAddresses env c).1.2.length = c.cidrs.card ∧
    (∀ (k : Nat) (hostCIDR : String) (p : IP × IPNet), (setsList c.cidrs)[k]? = some hostCIDR →
      env.ParseCIDR hostCIDR = .ok p →
      ((ListAddresses env c).1.1)[k]? = some p.1 ∧ ((ListAddresses env c).1.2)[k]? = some p.2) ∧
    (setsList c.cidrs).Sorted (fun a b => a ≤ b) ∧
    (setsList c.cidrs).Nodup ∧
    (∀ hostCIDR, hostCIDR ∈ setsList c.cidrs ↔ hostCIDR ∈ c.cidrs) ∧
    (ListAddresses env c).2 = c := by
  have hmem : ∀ hostCIDR, hostCIDR ∈ setsList c.cidrs ↔ hostCIDR ∈ c.cidrs :=
    fun x => Finset.mem_sort _
  obtain ⟨parsed, hparsed⟩ := exists_parsed env (setsList c.cidrs)
    (fun s hs => hAll s ((hmem s).mp hs))
  have hlen : parsed.length = c.cidrs.card := by
    have h := congrArg List.length hparsed
    simp only [List.length_map] at h
    rw [← h]
    exact Finset.length_sort _
  have hres : (ListAddresses env c).1 = (parsed.map Prod.fst, parsed.map Prod.snd) := by
    unfold ListAddresses
    simp only
    rw [ListAddressesLoop_parsed env _ parsed [] [] hparsed]
    simp
  refine ⟨?_, ?_, ?_, Finset.sort_sorted _ _, Finset.sort_nodup _ _, hmem, rfl⟩
  · rw [hres]; simp [hlen]
  · rw [hres]; simp [hlen]
  · intro k hostCIDR p hk hp
    have h := congrArg (fun l => l[k]?) hparsed
    simp only [List.getElem?_map, hk, Option.map_some', hp] at h
    have hpk : parsed[k]? = some p := by
      cases hq : parsed[k]? with
      | none => rw [hq] at h; simp at h
      | some q =>
        rw [hq] at h
        simp only [Option.map_some', Option.some.injEq, Except.ok.injEq] at h
        rw [h]
    rw [hres]
    simp [List.getElem?_map, hpk]

/-- Witness of `ListAddresses_spec`: a manager that stores `fd00::1/64`,
`192.168.1.7/24` and `10.0.0.1/24` lists `10.0.0.1` first, with the network
`10.0.0.0/24`. -/
theorem ListAddresses_spec_witness :
    setsList mgr3.cidrs = ["10.0.0.1/24", "192.168.1.7/24", "fd00::1/64"] ∧
    (ListAddresses (primaryEnv "10.0.0.1") mgr3).1.1.length = 3 ∧
    ((ListAddresses (primaryEnv "10.0.0.1") mgr3).1.1)[0]? = some ip10 ∧
    ((ListAddresses (primaryEnv "10.0.0.1") mgr3).1.2)[0]?
      = some { IP := .bytes [10, 0, 0, 0], Mask := [255, 255, 255, 0] } := by
  have hset : mgr3.cidrs
      = (["10.0.0.1/24", "192.168.1.7/24", "fd00::1/64"] : List String).toFinset := by decide
  have hsorted : setsList mgr3.cidrs = ["10.0.0.1/24", "192.168.1.7/24", "fd00::1/64"] := by
    unfold setsList
    rw [hset]
    apply (List.toFinset_sort (fun a b : String => a ≤ b) (by decide)).mpr
    simp only [List.sorted_cons, List.mem_cons, List.mem_singleton, forall_eq_or_imp, forall_eq,
      List.not_mem_nil, List.sorted_nil, and_true, IsEmpty.forall_iff, implies_true]
    exact ⟨⟨le_of_toList _ _ (by decide), le_of_toList _ _ (by decide)⟩,
      le_of_toList _ _ (by decide)⟩
  have hAll : ∀ hostCIDR ∈ mgr3.cidrs, ∃ p, (primaryEnv "10.0.0.1").ParseCIDR hostCIDR = .ok p := by
    intro s hs
    rw [hset] at hs
    simp only [List.mem_toFinset, List.mem_cons, List.mem_singleton, List.not_mem_nil,
      or_false] at hs
    rcases hs with rfl | rfl | rfl
    · exact ⟨_, rfl⟩
    · exact ⟨_, rfl⟩
    · exact ⟨_, rfl⟩
  have h := ListAddresses_spec (primaryEnv "10.0.0.1") mgr3 hAll
  have h0 := h.2.2.1 0 "10.0.0.1/24" _ (by rw [hsorted]; rfl) rfl
  exact ⟨hsorted, h.1.trans (by decide), h0.1, h0.2⟩


/-! ### Node predicates of the default network controller -/

/-- C28: `shouldUpdateNode` answers false exactly when both the old and the
new node are without a host subnet.  At a node that loses its host subnet,
and at a node that gains one, it answers true, where the comment above the
function asks for no update; it answers true as well when both nodes have a
host subnet. -/
theorem shouldUpdateNode_subnet_change :
    (∀ node oldNode : NodeObject,
      (shouldUpdateNode node oldNode = false ↔
        oldNode.NoHostSubnet = true ∧ node.NoHostSubnet = true)) ∧
    noSubnetNode.NoHostSubnet = true ∧ subnetNode.NoHostSubnet = false ∧
    shouldUpdateNode noSubnetNode subnetNode = true ∧
    shouldUpdateNode subnetNode noSubnetNode = true ∧
    shouldUpdateNode noSubnetNode noSubnetNode = false ∧
    shouldUpdateNode subnetNode subnetNode = true := by
  refine ⟨?_, rfl, rfl, rfl, rfl, rfl, rfl⟩
  intro node oldNode
  unfold shouldUpdateNode
  cases oldNode.NoHostSubnet <;> cases node.NoHostSubnet <;> simp

/-- C30, counterexample: the old annotation is JSON `null`, which is not a
JSON object and which `json.Unmarshal` accepts, leaving the map nil; the new
annotation is an object with a value for the default network.
`joinCIDRChanged` answers true. -/
theorem joinCIDRChanged_null_counterexample :
    (lrpNode "null").annotationValue lrpKey = "null" ∧
    (lrpNode lrpJSON2).annotationValue lrpKey = lrpJSON2 ∧
    joinCIDRChanged lrpKey unmarshalExamples (lrpNode "null") (lrpNode lrpJSON2) "default"
      = true := by
  decide

/-- C30, amended: `joinCIDRChanged` answers false when the two annotations
are equal strings and when `json.Unmarshal` of either of them fails, as it
does for the empty string that an absent or empty annotation gives (so a
node that gains the annotation is reported as unchanged); it answers true
exactly when the annotations differ, both unmarshal, and the raw messages
under the network name (empty when the name is absent) differ. -/
theorem joinCIDRChanged_spec (key : String)
    (Unmarshal : String → Except Error (String → String))
    (oldNode node : NodeObject) (netName : String) :
    (oldNode.annotationValue key = node.annotationValue key →
      joinCIDRChanged key Unmarshal oldNode node netName = false) ∧
    (∀ err, Unmarshal (oldNode.annotationValue key) = .error err →
      joinCIDRChanged key Unmarshal oldNode node netName = false) ∧
    (∀ err, Unmarshal (node.annotationValue key) = .error err →
      joinCIDRChanged key Unmarshal oldNode node netName = false) ∧
    (∀ err, Unmarshal "" = .error err →
      (oldNode.Annotations.lookup key = none ∨ oldNode.Annotations.lookup key = some "" ∨
        node.Annotations.lookup key = none ∨ node.Annotations.lookup key = some "") →
      joinCIDRChanged key Unmarshal oldNode node netName = false) ∧
    (joinCIDRChanged key Unmarshal oldNode node netName = true ↔
      oldNode.annotationValue key ≠ node.annotationValue key ∧
      ∃ oldCIDRs newCIDRs, Unmarshal (oldNode.annotationValue key) = .ok oldCIDRs ∧
        Unmarshal (node.annotationValue key) = .ok newCIDRs ∧
        oldCIDRs netName ≠ newCIDRs netName) := by
  have hOld : ∀ err, Unmarshal (oldNode.annotationValue key) = .error err →
      joinCIDRChanged key Unmarshal oldNode node netName = false := by
    intro err h
    unfold joinCIDRChanged
    split_ifs
    · rfl
    · simp [h]
  have hNew : ∀ err, Unmarshal (node.annotationValue key) = .error err →
      joinCIDRChanged key Unmarshal oldNode node netName = false := by
    intro err h
    unfold joinCIDRChanged
    split_ifs
    · rfl
    · cases h2 : Unmarshal (oldNode.annotationValue key) <;> simp [h]
  refine ⟨?_, hOld, hNew, ?_, ?_⟩
  · intro h
    simp [joinCIDRChanged, h]
  · intro err hEmpty h
    rcases h with h | h | h | h
    · exact hOld err (by simp [NodeObject.annotationValue, h, hEmpty])
    · exact hOld err (by simp [NodeObject.annotationValue, h, hEmpty])
    · exact hNew err (by simp [NodeObject.annotationValue, h, hEmpty])
    · exact hNew err (by simp [NodeObject.annotationValue, h, hEmpty])
  · unfold joinCIDRChanged
    split_ifs with hEq
    · simp [hEq]
    · cases h1 : Unmarshal (oldNode.annotationValue key) with
      | error e => simp
      | ok o =>
        cases h2 : Unmarshal (node.annotationValue key) with
        | error e => simp
        | ok n => simp [hEq]

/-- Witness of `joinCIDRChanged_spec`: a node that gains the annotation is
reported as unchanged; a node whose address in the default network changes is
reported as changed in that network. -/
theorem joinCIDRChanged_spec_witness :
    subnetNode.Annotations.lookup lrpKey = none ∧
    joinCIDRChanged lrpKey unmarshalExamples subnetNode (lrpNode lrpJSON2) "default" = false ∧
    joinCIDRChanged lrpKey unmarshalExamples (lrpNode lrpJSON3) (lrpNode lrpJSON2) "default"
      = true :=
  ⟨rfl,
    (joinCIDRChanged_spec lrpKey unmarshalExamples subnetNode (lrpNode lrpJSON2) "default").2.2.2.1
      (.other "unexpected end of JSON input") rfl (Or.inl rfl),
    (joinCIDRChanged_spec lrpKey unmarshalExamples (lrpNode lrpJSON3) (lrpNode lrpJSON2)
      "default").2.2.2.2.2
      ⟨by decide, _, _, rfl, rfl, by decide⟩⟩


/-! ### Pod set-up of the default network controller -/

/-- C29: for a pod that is not scheduled `ensurePod` returns nil and calls no
collaborator.  For a scheduled pod on a switch that has a host subnet, when
the pod is terminating or its Ready condition is not true, the first call
after the look-up of the switch is `deletePodExternalGW` of the pod: when it
fails `ensurePod` returns the wrapped error and makes no further call, so
neither zone is handled; when it succeeds the zone of the pod is looked up
and handled after it. -/
theorem ensurePod_spec (oc : DefaultNetworkController) (oldPod : Option Pod) (pod : Pod)
    (addPort : Bool) :
    (pod.PodScheduled = false → ensurePod oc oldPod pod addPort = (none, [])) ∧
    (pod.PodScheduled = true → oc.IsNonHostSubnetSwitch pod.NodeName = false →
      (pod.PodTerminating = true ∨ pod.IsPodReadyConditionTrue = false) →
      (∀ err, oc.deletePodExternalGW pod = some err →
        ensurePod oc oldPod pod addPort
          = (some (.wrap ("ensurePod failed " ++ pod.Namespace ++ "/" ++ pod.Name) err),
              [.IsNonHostSubnetSwitch pod.NodeName, .deletePodExternalGW pod])) ∧
      (oc.deletePodExternalGW pod = none →
        ensurePod oc oldPod pod addPort
          = ((if oc.isPodScheduledinLocalZone pod then ensureLocalZonePod oc oldPod pod addPort
              else ensureRemoteZonePod oc oldPod pod addPort).1,
            [.IsNonHostSubnetSwitch pod.NodeName, .deletePodExternalGW pod,
              .isPodScheduledinLocalZone pod] ++
            (if oc.isPodScheduledinLocalZone pod then ensureLocalZonePod oc oldPod pod addPort
              else ensureRemoteZonePod oc oldPod pod addPort).2))) := by
  refine ⟨?_, ?_⟩
  · intro h
    simp [ensurePod, h]
  · intro hS hSw hT
    have hCond : (pod.PodTerminating || !pod.IsPodReadyConditionTrue) = true := by
      rcases hT with h | h <;> simp [h]
    refine ⟨?_, ?_⟩
    · intro err hErr
      simp [ensurePod, hS, hSw, hCond, hErr, PodResult.andThen, Pod.desc, String.append_assoc]
    · intro hOk
      simp only [ensurePod, hS, hSw, hCond, hOk, PodResult.andThen, Bool.not_true,
        Bool.false_eq_true, if_false, if_true]
      cases hz : (if oc.isPodScheduledinLocalZone pod = true then
          ensureLocalZonePod oc oldPod pod addPort
        else ensureRemoteZonePod oc oldPod pod addPort).1 <;> simp [hz]

/-- Witness of `ensurePod_spec`: a pod that is not scheduled; a terminating
pod whose external-gateway routes cannot be removed; a terminating pod whose
routes are removed, after which the logical port of the local zone is
added. -/
theorem ensurePod_spec_witness :
    ensurePod plainController none unscheduledPod true = (none, []) ∧
    ensurePod failingGWController none terminatingPod true
      = (some (.wrap "ensurePod failed ns1/pod1" (.leaf "no such route")),
          [.IsNonHostSubnetSwitch "node1", .deletePodExternalGW terminatingPod]) ∧
    ensurePod plainController none terminatingPod true
      = (none, [.IsNonHostSubnetSwitch "node1", .deletePodExternalGW terminatingPod,
          .isPodScheduledinLocalZone terminatingPod, .addLogicalPort terminatingPod]) :=
  ⟨(ensurePod_spec plainController none unscheduledPod true).1 rfl,
    ((ensurePod_spec failingGWController none terminatingPod true).2 rfl rfl (Or.inl rfl)).1
      (.leaf "no such route") rfl,
    ((ensurePod_spec plainController none terminatingPod true).2 rfl rfl (Or.inl rfl)).2 rfl⟩


/-! ### The lock of the address manager -/

/-- The traced filter answers as `isValidNodeIP`. -/
theorem isValidNodeIPTraced_fst (env : Env) (c : addressManager) (addr : IP) (linkIndex : Int) :
    (isValidNodeIPTraced env c addr linkIndex).1 = isValidNodeIP env c addr linkIndex := by
  have h : isValidNodeIP env c addr linkIndex =
      (if addr = .nil then false
      else if addr.IsLinkLocalUnicast then false
      else if addr.IsLoopback then false
      else if matchesMgmtPortAddress env addr then false
      else if onMgmtPortLink env linkIndex then false
      else if env.IsAddressReservedForInternalUse addr then false
      else if env.EnableEgressIP then
        if claimedPrimaryEgress env c addr then false
        else if claimedSecondaryEgress env c addr then false
        else true
      else true) := rfl
  rw [h]
  unfold isValidNodeIPTraced
  simp only [apply_ite Prod.fst]

/-- The look-ups of the filter are the look-up of the link and reads of the
node. -/
theorem isValidNodeIPTraced_snd (env : Env) (c : addressManager) (addr : IP) (linkIndex : Int) :
    ∀ st ∈ (isValidNodeIPTraced env c addr linkIndex).2,
      st = .LinkByIndex linkIndex ∨ st = .GetNode c.nodeName := by
  have hlink : ∀ st ∈ (if env.IsNetworkSegmentationSupportEnabled = true
      then [Step.LinkByIndex linkIndex] else []),
      st = .LinkByIndex linkIndex ∨ st = .GetNode c.nodeName := by
    intro st hst
    split_ifs at hst
    · exact Or.inl (List.mem_singleton.mp hst)
    · simp at hst
  have hprimary : ∀ st ∈ (if (env.IsNetworkSegmentationSupportEnabled && env.EnableInterconnect
            && !env.GatewayModeDisabled) = true then
          if (match env.GetEIPMarkIPs with
              | some eipMarkIPs => eipMarkIPs.HasSyncdOnce && eipMarkIPs.IsIPPresent addr
              | none => false) = true then []
          else [Step.GetNode c.nodeName]
        else []),
      st = .LinkByIndex linkIndex ∨ st = .GetNode c.nodeName := by
    intro st hst
    split_ifs at hst
    · simp at hst
    · exact Or.inr (List.mem_singleton.mp hst)
    · simp at hst
  have hsecondary : ∀ st ∈ (if (!env.PlatformTypeIsEgressIPCloudProvider) = true
      then [Step.GetNode c.nodeName] else []),
      st = .LinkByIndex linkIndex ∨ st = .GetNode c.nodeName := by
    intro st hst
    split_ifs at hst
    · exact Or.inr (List.mem_singleton.mp hst)
    · simp at hst
  intro st hst
  unfold isValidNodeIPTraced at hst
  simp only [apply_ite Prod.snd, List.append_assoc] at hst
  by_cases h1 : addr = .nil
  · simp [h1] at hst
  by_cases h2 : addr.IsLinkLocalUnicast = true
  · simp [h1, h2] at hst
  by_cases h3 : addr.IsLoopback = true
  · simp [h1, h2, h3] at hst
  by_cases h4 : matchesMgmtPortAddress env addr = true
  · simp [h1, h2, h3, h4] at hst
  simp only [h1, h2, h3, h4, if_false] at hst
  by_cases h5 : onMgmtPortLink env linkIndex = true
  · rw [if_pos h5] at hst
    exact hlink st hst
  rw [if_neg h5] at hst
  by_cases h6 : env.IsAddressReservedForInternalUse addr = true
  · rw [if_pos h6] at hst
    exact hlink st hst
  rw [if_neg h6] at hst
  by_cases h7 : env.EnableEgressIP = true
  · rw [if_pos h7] at hst
    by_cases h8 : claimedPrimaryEgress env c addr = true
    · rw [if_pos h8] at hst
      rcases List.mem_append.mp hst with h | h
      · exact hlink st h
      · exact hprimary st h
    · rw [if_neg h8] at hst
      have hall : st ∈ (if env.IsNetworkSegmentationSupportEnabled = true
            then [Step.LinkByIndex linkIndex] else []) ++
          ((if (env.IsNetworkSegmentationSupportEnabled && env.EnableInterconnect
              && !env.GatewayModeDisabled) = true then
            if (match env.GetEIPMarkIPs with
                | some eipMarkIPs => eipMarkIPs.HasSyncdOnce && eipMarkIPs.IsIPPresent addr
                | none => false) = true then []
            else [Step.GetNode c.nodeName]
          else []) ++
          (if (!env.PlatformTypeIsEgressIPCloudProvider) = true
            then [Step.GetNode c.nodeName] else [])) := by
        simpa only [ite_self] using hst
      rcases List.mem_append.mp hall with h | h
      · exact hlink st h
      · rcases List.mem_append.mp h with h | h
        · exact hprimary st h
        · exact hsecondary st h
  · rw [if_neg h7] at hst
    exact hlink st hst

/-- With network segmentation and the egress-IP feature off the filter makes
no look-up. -/
theorem isValidNodeIPTraced_quiet (env : Env) (c : addressManager) (addr : IP)
    (linkIndex : Int) (hSeg : env.IsNetworkSegmentationSupportEnabled = false)
    (hEgress : env.EnableEgressIP = false) :
    (isValidNodeIPTraced env c addr linkIndex).2 = [] := by
  unfold isValidNodeIPTraced
  simp only [apply_ite Prod.snd, hSeg, hEgress]
  simp

/-- Look-ups and calls made with the lock held, up to its release, are all
steps under the lock. -/
theorem underLockFrom_held (l : List Step)
    (h : ∀ st ∈ l, st ≠ .Lock ∧ st ≠ .Unlock) :
    underLockFrom true (l ++ [.Unlock]) = l := by
  induction l with
  | nil => rfl
  | cons st rest ih =>
    have hst := h st (List.mem_cons_self _ _)
    have hrest := ih (fun x hx => h x (List.mem_cons_of_mem _ hx))
    cases st with
    | Lock => exact absurd rfl hst.1
    | Unlock => exact absurd rfl hst.2
    | LinkByIndex i => simp [underLockFrom, hrest]
    | GetNode n => simp [underLockFrom, hrest]
    | event e => simp [underLockFrom, hrest]

/-- The calls that handling a primary-address change adds: none unless the
check returns `(true, nil)` with no encap IP configured, and then the read of
the configured encap IP first. -/
theorem handleNodePrimaryAddrChange_new_events (env : Env) (s : State) :
    ((nodePrimaryAddrChanged env s.mgr).1 = (true, none) → env.EncapIP = "" →
      ∃ tail, (handleNodePrimaryAddrChange env s).events.drop s.events.length
        = .RunOVSVsctl checkCmd :: tail) ∧
    (¬ ((nodePrimaryAddrChanged env s.mgr).1 = (true, none) ∧ env.EncapIP = "") →
      (handleNodePrimaryAddrChange env s).events.drop s.events.length = []) := by
  refine ⟨?_, ?_⟩
  · intro hr he
    have h1 : (nodePrimaryAddrChanged env s.mgr).1.1 = true := by rw [hr]
    have h2 : (nodePrimaryAddrChanged env s.mgr).1.2 = none := by rw [hr]
    have h : handleNodePrimaryAddrChange env s =
        updateOVNEncapIPAndReconnect env { s with mgr := (nodePrimaryAddrChanged env s.mgr).2 }
          (nodePrimaryAddrChanged env s.mgr).2.nodePrimaryAddr := by
      unfold handleNodePrimaryAddrChange
      simp [h1, h2, he]
    rw [h, updateOVNEncapIPAndReconnect_eq]
    repeat' split
    all_goals simp [State.emit]
  · intro hnot
    have h : handleNodePrimaryAddrChange env s
        = { s with mgr := (nodePrimaryAddrChanged env s.mgr).2 } := by
      unfold handleNodePrimaryAddrChange
      cases h2 : (nodePrimaryAddrChanged env s.mgr).1.2 with
      | some e => simp only [h2]
      | none =>
        by_cases h1 : (nodePrimaryAddrChanged env s.mgr).1.1 = true
        · have he : env.EncapIP ≠ "" := fun he => hnot ⟨Prod.ext h1 h2, he⟩
          simp [h1, h2, he]
        · simp [h1, h2]
    rw [h]
    simp


/-- C26, as stated, fails: when the node reports the stored `10.0.0.1` as
its primary address and OVS holds `10.0.0.9`, `handleNodePrimaryAddrChange`
reads the node, runs the three commands of the reconfiguration and writes and
commits the encap-IPs annotation, all with the lock held; `addAddr` looks up
the link with the lock held when network segmentation is on, and reads the
node when the egress-IP feature is on; `doNodeHostCIDRsMatch` reads the node
with the lock held. -/
theorem lock_held_io_counterexample :
    underLock (handleNodePrimaryAddrChangeSteps (ovsEnv "10.0.0.9") state10)
      = [.GetNode "node1", .event (.RunOVSVsctl checkCmd), .event (.RunOVSVsctl (confCmd ip10)),
          .event (.RunOVNAppctlWithTimeout 5 restartCmd),
          .event (.SetNodeEncapIPs {"10.0.0.1"}), .event .nodeAnnotatorRun] ∧
    underLock (addAddrSteps segmentationEnv mgr10 net192 2) = [.LinkByIndex 2] ∧
    underLock (addAddrSteps egressEnv mgr10 net192 2) = [.GetNode "node1"] ∧
    underLock (doNodeHostCIDRsMatchSteps mgr10) = [.GetNode "node1"] := by
  decide

/-- C26, amended: with the lock held `assignCIDRs` and `ListAddresses` make
no look-up and no call; `doNodeHostCIDRsMatch` reads the node; `addAddr`
(when the CIDR is not stored) and `delAddr` (when it is stored) make the
look-ups of the filter, which are the look-up of the link and reads of the
node and are none when network segmentation and the egress-IP feature are
off; `handleNodePrimaryAddrChange` reads the node and then makes every call
of the reconfiguration: none unless the check returns `(true, nil)` with no
encap IP configured, and then the read of the configured encap IP first. -/
theorem lock_held_steps (env : Env) (s : State) (c : addressManager) (ipnet : IPNet)
    (linkIndex : Int) :
    underLock assignCIDRsSteps = [] ∧
    underLock ListAddressesSteps = [] ∧
    underLock (doNodeHostCIDRsMatchSteps c) = [.GetNode c.nodeName] ∧
    underLock (addAddrSteps env c ipnet linkIndex)
      = (if ipnet.String ∉ c.cidrs then (isValidNodeIPTraced env c ipnet.IP linkIndex).2
        else []) ∧
    underLock (delAddrSteps env c ipnet linkIndex)
      = (if ipnet.String ∈ c.cidrs then (isValidNodeIPTraced env c ipnet.IP linkIndex).2
        else []) ∧
    (isValidNodeIPTraced env c ipnet.IP linkIndex).1 = isValidNodeIP env c ipnet.IP linkIndex ∧
    (∀ st ∈ (isValidNodeIPTraced env c ipnet.IP linkIndex).2,
      st = .LinkByIndex linkIndex ∨ st = .GetNode c.nodeName) ∧
    (env.IsNetworkSegmentationSupportEnabled = false → env.EnableEgressIP = false →
      (isValidNodeIPTraced env c ipnet.IP linkIndex).2 = []) ∧
    underLock (handleNodePrimaryAddrChangeSteps env s)
      = .GetNode s.mgr.nodeName ::
          ((handleNodePrimaryAddrChange env s).events.drop s.events.length).map .event ∧
    ((nodePrimaryAddrChanged env s.mgr).1 = (true, none) → env.EncapIP = "" →
      ∃ tail, underLock (handleNodePrimaryAddrChangeSteps env s)
        = .GetNode s.mgr.nodeName :: .event (.RunOVSVsctl checkCmd) :: tail) ∧
    (¬ ((nodePrimaryAddrChanged env s.mgr).1 = (true, none) ∧ env.EncapIP = "") →
      underLock (handleNodePrimaryAddrChangeSteps env s) = [.GetNode s.mgr.nodeName]) := by
  have hfilter : ∀ st ∈ (isValidNodeIPTraced env c ipnet.IP linkIndex).2,
      st ≠ .Lock ∧ st ≠ .Unlock := by
    intro st hst
    rcases isValidNodeIPTraced_snd env c ipnet.IP linkIndex st hst with h | h <;>
      simp [h]
  have hhandle : underLock (handleNodePrimaryAddrChangeSteps env s)
      = .GetNode s.mgr.nodeName ::
          ((handleNodePrimaryAddrChange env s).events.drop s.events.length).map .event := by
    unfold underLock handleNodePrimaryAddrChangeSteps
    simp only [underLockFrom, if_true]
    rw [underLockFrom_held]
    intro st hst
    rcases List.mem_map.mp hst with ⟨e, _, he⟩
    subst he
    simp
  refine ⟨rfl, rfl, rfl, ?_, ?_, isValidNodeIPTraced_fst env c ipnet.IP linkIndex,
    isValidNodeIPTraced_snd env c ipnet.IP linkIndex,
    isValidNodeIPTraced_quiet env c ipnet.IP linkIndex, hhandle, ?_, ?_⟩
  · unfold underLock addAddrSteps
    simp only [underLockFrom]
    split_ifs
    · rfl
    · exact underLockFrom_held _ hfilter
  · unfold underLock delAddrSteps
    simp only [underLockFrom]
    split_ifs
    · exact underLockFrom_held _ hfilter
    · rfl
  · intro hr he
    obtain ⟨tail, ht⟩ := (handleNodePrimaryAddrChange_new_events env s).1 hr he
    exact ⟨tail.map .event, by rw [hhandle, ht]; rfl⟩
  · intro hnot
    rw [hhandle, (handleNodePrimaryAddrChange_new_events env s).2 hnot]
    rfl

/-- Witness of `lock_held_steps`: on the plain host the filter makes no
look-up; when the node reports the stored `10.0.0.1` and no encap IP is
configured, the read of the configured encap IP is made with the lock held;
with an encap IP configured by the operator only the node is read. -/
theorem lock_held_steps_witness :
    (isValidNodeIPTraced plainEnv mgr10 net192.IP 2).2 = [] ∧
    (∃ tail, underLock (handleNodePrimaryAddrChangeSteps (ovsEnv "10.0.0.9") state10)
      = .GetNode "node1" :: .event (.RunOVSVsctl checkCmd) :: tail) ∧
    underLock (handleNodePrimaryAddrChangeSteps overrideEnv state10) = [.GetNode "node1"] :=
  ⟨(lock_held_steps plainEnv state10 mgr10 net192 2).2.2.2.2.2.2.2.1 rfl rfl,
    (lock_held_steps (ovsEnv "10.0.0.9") state10 mgr10 net192 2).2.2.2.2.2.2.2.2.2.1
      (by decide) rfl,
    (lock_held_steps overrideEnv state10 mgr10 net192 2).2.2.2.2.2.2.2.2.2.2
      (by decide)⟩

end NodeIPHandler
